import Mathlib

/-!
# Media driver: GPU context wrappers, surface-copy engine selection, surface allocator

A shallow embedding of

* `media_driver/agnostic/common/os/mos_gpu_ctx_mgr_wrapper.cpp` (`GpuCtxMgrWrapper`),
* `media_driver/agnostic/common/os/mos_interface_gpu_wrapper.cpp` (`MosInterfaceGpuWrapper`),
* `media_softlet/agnostic/common/shared/mediacopy/media_copy.cpp` (`MediaCopyBaseState`),
* `media_softlet/agnostic/common/vp/hal/bufferMgr/vp_allocator.cpp` (`VpAllocator`),

together with theorems about the embedded functions.

Conventions.  A C++ pointer is a natural number, `0` being `nullptr`.  A member
function becomes a function from the object state to a status and the new
state.  Calls made on collaborators (engine manager, hardware context, copy
implementations, mutex) are appended to a `calls` log carried by the state;
what a collaborator answers is supplied by a record of functions which may
depend on the log so far.
-/

namespace MediaDriver

/-- C++ pointers are addresses; `0` is `nullptr`. -/
abbrev Ptr := Nat

/-- The `MOS_STATUS` values named in the sources. -/
inductive MOS_STATUS
  | MOS_STATUS_SUCCESS
  | MOS_STATUS_NULL_POINTER
  | MOS_STATUS_INVALID_PARAMETER
  | MOS_STATUS_INVALID_HANDLE
  | MOS_STATUS_UNINITIALIZED
  | MOS_STATUS_UNIMPLEMENTED
  | MOS_STATUS_UNKNOWN
  deriving DecidableEq

open MOS_STATUS

/-- Models `MOS_FAILED(status)`: the status is not `MOS_STATUS_SUCCESS`. -/
def MOS_FAILED (status : MOS_STATUS) : Bool :=
  decide (status ≠ MOS_STATUS_SUCCESS)

/-! ## `std::map` as an association list -/

/-- Models `std::map::find`: the value bound to `k`, if any. -/
def mapFind {K V : Type} [DecidableEq K] (m : List (K × V)) (k : K) : Option V :=
  match m with
  | [] => none
  | (k', v) :: rest => if k' = k then some v else mapFind rest k

/-- Models `std::map::count`: the number of entries with key `k` (0 or 1). -/
def mapCount {K V : Type} [DecidableEq K] (m : List (K × V)) (k : K) : Nat :=
  match mapFind m k with
  | some _ => 1
  | none => 0

/-- Models `std::map::erase`: remove the entry of key `k`. -/
def mapErase {K V : Type} [DecidableEq K] (m : List (K × V)) (k : K) : List (K × V) :=
  m.filter (fun p => decide (p.1 ≠ k))

/-- Models `m[k] = v`: bind `k` to `v`, replacing an earlier binding. -/
def mapAssign {K V : Type} [DecidableEq K] (m : List (K × V)) (k : K) (v : V) : List (K × V) :=
  (k, v) :: mapErase m k

/-! ## GpuCtxMgrWrapper -/

/-- Modelled from the spec: `GpuCtxMgrComponentFuncType` is declared in
`mos_gpu_ctx_mgr_defs.h`, which is absent.  The five enumerators are those the
switch of `CreateGpuContext` names; `other raw` stands for every further value
of the enumeration type (the spec's `Invalid` tag among them). -/
inductive GpuCtxMgrComponentFuncType
  | GPU_CTX_MGR_FUNC_TYPE_DECODE
  | GPU_CTX_MGR_FUNC_TYPE_ENCODE
  | GPU_CTX_MGR_FUNC_TYPE_VP_COMPUTE
  | GPU_CTX_MGR_FUNC_TYPE_VP_VEBOX
  | GPU_CTX_MGR_FUNC_TYPE_RENDER
  | other (raw : Nat)
  deriving DecidableEq

/-- The `MOS_GPU_CONTEXT` values used by the wrappers. -/
inductive MOS_GPU_CONTEXT
  | MOS_GPU_CONTEXT_VIDEO_DECODE
  | MOS_GPU_CONTEXT_VDBOX2_VIDEO3
  | MOS_GPU_CONTEXT_COMPUTE
  | MOS_GPU_CONTEXT_VEBOX
  | MOS_GPU_CONTEXT_RENDER
  | MOS_GPU_CONTEXT_INVALID_HANDLE
  deriving DecidableEq

/-- The `MOS_GPU_NODE` values used by the wrappers. -/
inductive MOS_GPU_NODE
  | MOS_GPU_NODE_VIDEO
  | MOS_GPU_NODE_COMPUTE
  | MOS_GPU_NODE_RENDER
  | MOS_GPU_NODE_INVALID
  deriving DecidableEq

/-- A call made by the wrapper on one of its collaborators. -/
inductive GpuCall
  | osGetCmdBufMgr (osCtx : Ptr)
  | mgrCreateGpuContext (gpuNode : MOS_GPU_NODE) (cmdBufMgr : Ptr) (mosGpuContext : MOS_GPU_CONTEXT)
  | mgrDestroyGpuContext (gpuContext : Ptr)
  | ctxVerifyCommandBufferSize (gpuContext : Ptr) (requestedSize : Nat)
  | ctxVerifyPatchListSize (gpuContext : Ptr) (requestedSize : Nat)
  | ctxGetCommandBuffer (gpuContext : Ptr) (cmdBuffer : Ptr) (flags : Nat)
  | ctxReturnCommandBuffer (gpuContext : Ptr) (cmdBuffer : Ptr) (flags : Nat)
  | ctxSubmitCommandBuffer (gpuContext : Ptr) (osInterface : Ptr) (cmdBuffer : Ptr)
      (nullRendering : Bool)
  deriving DecidableEq

/-- The hardware context a call is forwarded to (`none` for calls on the
engine manager or the OS context). -/
def GpuCall.target : GpuCall → Option Ptr
  | .osGetCmdBufMgr _ => none
  | .mgrCreateGpuContext _ _ _ => none
  | .mgrDestroyGpuContext _ => none
  | .ctxVerifyCommandBufferSize c _ => some c
  | .ctxVerifyPatchListSize c _ => some c
  | .ctxGetCommandBuffer c _ _ => some c
  | .ctxReturnCommandBuffer c _ _ => some c
  | .ctxSubmitCommandBuffer c _ _ _ => some c

/-- What the collaborators answer.  Each answer may depend on the calls made so
far. -/
structure GpuCollaborators where
  /-- Answer of `OsContextSpecific::GetCmdBufMgr` -/
  GetCmdBufMgr : List GpuCall → Ptr → Ptr
  /-- Answer of `GpuContextMgr::CreateGpuContext` -/
  CreateGpuContext : List GpuCall → MOS_GPU_NODE → Ptr → MOS_GPU_CONTEXT → Ptr
  /-- Answer of `GpuContextSpecific::VerifyCommandBufferSize` -/
  VerifyCommandBufferSize : List GpuCall → Ptr → Nat → MOS_STATUS
  /-- Answer of `GpuContextSpecific::VerifyPatchListSize` -/
  VerifyPatchListSize : List GpuCall → Ptr → Nat → MOS_STATUS
  /-- Answer of `GpuContextSpecific::GetCommandBuffer` -/
  GetCommandBuffer : List GpuCall → Ptr → Ptr → Nat → MOS_STATUS
  /-- Answer of `GpuContextSpecific::SubmitCommandBuffer` -/
  SubmitCommandBuffer : List GpuCall → Ptr → Ptr → Ptr → Bool → MOS_STATUS

/-- The members of `GpuCtxMgrWrapper`, and the log of collaborator calls. -/
structure GpuCtxMgrWrapper where
  m_currentGpuContext : Ptr
  m_contextPool : List (GpuCtxMgrComponentFuncType × Ptr)
  m_underlyingGpuContextMgr : Ptr
  m_osContext : Ptr
  calls : List GpuCall
  deriving DecidableEq

namespace GpuCtxMgrWrapper

open GpuCtxMgrComponentFuncType MOS_GPU_CONTEXT MOS_GPU_NODE

/-- The constructor: the pool is empty and no context is current. -/
def construct (underlyingMgr osCtx : Ptr) : GpuCtxMgrWrapper :=
  { m_currentGpuContext := 0
    m_contextPool := []
    m_underlyingGpuContextMgr := underlyingMgr
    m_osContext := osCtx
    calls := [] }

/-- The switch of `CreateGpuContext` (lines 57-85): the context type and the
engine node of a function type, `none` in the `default` case. -/
def funcTypeSwitch : GpuCtxMgrComponentFuncType → Option (MOS_GPU_CONTEXT × MOS_GPU_NODE)
  | GPU_CTX_MGR_FUNC_TYPE_DECODE => some (MOS_GPU_CONTEXT_VIDEO_DECODE, MOS_GPU_NODE_VIDEO)
  | GPU_CTX_MGR_FUNC_TYPE_ENCODE => some (MOS_GPU_CONTEXT_VDBOX2_VIDEO3, MOS_GPU_NODE_VIDEO)
  | GPU_CTX_MGR_FUNC_TYPE_VP_COMPUTE => some (MOS_GPU_CONTEXT_COMPUTE, MOS_GPU_NODE_COMPUTE)
  | GPU_CTX_MGR_FUNC_TYPE_VP_VEBOX => some (MOS_GPU_CONTEXT_VEBOX, MOS_GPU_NODE_VIDEO)
  | GPU_CTX_MGR_FUNC_TYPE_RENDER => some (MOS_GPU_CONTEXT_RENDER, MOS_GPU_NODE_RENDER)
  | other _ => none

/-- Embeds `GpuCtxMgrWrapper::CreateGpuContext`. -/
def CreateGpuContext (env : GpuCollaborators) (s : GpuCtxMgrWrapper)
    (funcType : GpuCtxMgrComponentFuncType) : MOS_STATUS × GpuCtxMgrWrapper :=
  if mapCount s.m_contextPool funcType ≠ 0 then
    (MOS_STATUS_SUCCESS, s)
  else
    match funcTypeSwitch funcType with
    | none => (MOS_STATUS_INVALID_PARAMETER, s)
    | some (mosGpuContext, gpuNode) =>
      if s.m_underlyingGpuContextMgr = 0 then
        (MOS_STATUS_NULL_POINTER, s)
      else if s.m_osContext = 0 then
        (MOS_STATUS_NULL_POINTER, s)
      else
        -- static_cast<OsContextSpecific*> keeps the address
        let osCtxSpecific := s.m_osContext
        if osCtxSpecific = 0 then
          (MOS_STATUS_NULL_POINTER, s)
        else
          let cmdBufMgr := env.GetCmdBufMgr s.calls osCtxSpecific
          let s1 := { s with calls := s.calls ++ [GpuCall.osGetCmdBufMgr osCtxSpecific] }
          if cmdBufMgr = 0 then
            (MOS_STATUS_NULL_POINTER, s1)
          else
            let newContext := env.CreateGpuContext s1.calls gpuNode cmdBufMgr mosGpuContext
            let s2 := { s1 with
              calls := s1.calls ++ [GpuCall.mgrCreateGpuContext gpuNode cmdBufMgr mosGpuContext] }
            if newContext = 0 then
              (MOS_STATUS_UNINITIALIZED, s2)
            else
              (MOS_STATUS_SUCCESS,
                { s2 with m_contextPool := mapAssign s2.m_contextPool funcType newContext })

/-- Embeds `GpuCtxMgrWrapper::DestroyGpuContext`. -/
def DestroyGpuContext (s : GpuCtxMgrWrapper)
    (funcType : GpuCtxMgrComponentFuncType) : MOS_STATUS × GpuCtxMgrWrapper :=
  if s.m_underlyingGpuContextMgr = 0 then
    (MOS_STATUS_NULL_POINTER, s)
  else
    match mapFind s.m_contextPool funcType with
    | none => (MOS_STATUS_INVALID_HANDLE, s)
    | some contextToDestroy =>
      if contextToDestroy = 0 then
        (MOS_STATUS_NULL_POINTER,
          { s with m_contextPool := mapErase s.m_contextPool funcType })
      else
        let s1 := { s with
          calls := s.calls ++ [GpuCall.mgrDestroyGpuContext contextToDestroy]
          m_contextPool := mapErase s.m_contextPool funcType }
        if s1.m_currentGpuContext = contextToDestroy then
          (MOS_STATUS_SUCCESS, { s1 with m_currentGpuContext := 0 })
        else
          (MOS_STATUS_SUCCESS, s1)

/-- Embeds `GpuCtxMgrWrapper::VerifyCmdBufferAndPatchListSize`. -/
def VerifyCmdBufferAndPatchListSize (env : GpuCollaborators) (s : GpuCtxMgrWrapper)
    (requestedCmdBufSize requestedPatchListSize : Nat) : MOS_STATUS × GpuCtxMgrWrapper :=
  if s.m_currentGpuContext = 0 then
    (MOS_STATUS_NULL_POINTER, s)
  else
    let currentCtxSpecific := s.m_currentGpuContext
    if currentCtxSpecific = 0 then
      (MOS_STATUS_INVALID_HANDLE, s)
    else
      let statusCmd := env.VerifyCommandBufferSize s.calls currentCtxSpecific requestedCmdBufSize
      let s1 := { s with calls := s.calls ++
        [GpuCall.ctxVerifyCommandBufferSize currentCtxSpecific requestedCmdBufSize] }
      if MOS_FAILED statusCmd then
        (statusCmd, s1)
      else
        let statusPatch :=
          env.VerifyPatchListSize s1.calls currentCtxSpecific requestedPatchListSize
        let s2 := { s1 with calls := s1.calls ++
          [GpuCall.ctxVerifyPatchListSize currentCtxSpecific requestedPatchListSize] }
        if MOS_FAILED statusPatch then
          (statusPatch, s2)
        else
          (MOS_STATUS_SUCCESS, s2)

/-- Embeds `GpuCtxMgrWrapper::GetCmdBuffer`. -/
def GetCmdBuffer (env : GpuCollaborators) (s : GpuCtxMgrWrapper)
    (cmdBuffer : Ptr) (flags : Nat) : MOS_STATUS × GpuCtxMgrWrapper :=
  if s.m_currentGpuContext = 0 then
    (MOS_STATUS_NULL_POINTER, s)
  else
    let currentCtxSpecific := s.m_currentGpuContext
    if currentCtxSpecific = 0 then
      (MOS_STATUS_INVALID_HANDLE, s)
    else
      (env.GetCommandBuffer s.calls currentCtxSpecific cmdBuffer flags,
        { s with calls := s.calls ++
          [GpuCall.ctxGetCommandBuffer currentCtxSpecific cmdBuffer flags] })

/-- Embeds `GpuCtxMgrWrapper::ReturnCmdBuffer`. -/
def ReturnCmdBuffer (s : GpuCtxMgrWrapper)
    (cmdBuffer : Ptr) (flags : Nat) : MOS_STATUS × GpuCtxMgrWrapper :=
  if s.m_currentGpuContext = 0 then
    (MOS_STATUS_NULL_POINTER, s)
  else
    let currentCtxSpecific := s.m_currentGpuContext
    if currentCtxSpecific = 0 then
      (MOS_STATUS_INVALID_HANDLE, s)
    else
      (MOS_STATUS_SUCCESS,
        { s with calls := s.calls ++
          [GpuCall.ctxReturnCommandBuffer currentCtxSpecific cmdBuffer flags] })

/-- Embeds `GpuCtxMgrWrapper::SubmitCmdBuffer`. -/
def SubmitCmdBuffer (env : GpuCollaborators) (s : GpuCtxMgrWrapper)
    (osInterface cmdBuffer : Ptr) (nullRendering : Bool) : MOS_STATUS × GpuCtxMgrWrapper :=
  if s.m_currentGpuContext = 0 then
    (MOS_STATUS_NULL_POINTER, s)
  else if osInterface = 0 then
    (MOS_STATUS_NULL_POINTER, s)
  else
    let currentCtxSpecific := s.m_currentGpuContext
    if currentCtxSpecific = 0 then
      (MOS_STATUS_INVALID_HANDLE, s)
    else
      (env.SubmitCommandBuffer s.calls currentCtxSpecific osInterface cmdBuffer nullRendering,
        { s with calls := s.calls ++
          [GpuCall.ctxSubmitCommandBuffer currentCtxSpecific osInterface cmdBuffer
            nullRendering] })

/-- Embeds `GpuCtxMgrWrapper::SetGpuContext`. -/
def SetGpuContext (s : GpuCtxMgrWrapper)
    (funcType : GpuCtxMgrComponentFuncType) : MOS_STATUS × GpuCtxMgrWrapper :=
  match mapFind s.m_contextPool funcType with
  | none => (MOS_STATUS_INVALID_HANDLE, s)
  | some found => (MOS_STATUS_SUCCESS, { s with m_currentGpuContext := found })

/-- The four command-buffer operations with their arguments. -/
inductive CmdBufferCall
  | verifyCmdBufferAndPatchListSize (requestedCmdBufSize requestedPatchListSize : Nat)
  | getCmdBuffer (cmdBuffer : Ptr) (flags : Nat)
  | returnCmdBuffer (cmdBuffer : Ptr) (flags : Nat)
  | submitCmdBuffer (osInterface cmdBuffer : Ptr) (nullRendering : Bool)
  deriving DecidableEq

/-- Run one command-buffer operation. -/
def cmdBufferStep (env : GpuCollaborators) (s : GpuCtxMgrWrapper) :
    CmdBufferCall → MOS_STATUS × GpuCtxMgrWrapper
  | .verifyCmdBufferAndPatchListSize c p => VerifyCmdBufferAndPatchListSize env s c p
  | .getCmdBuffer b f => GetCmdBuffer env s b f
  | .returnCmdBuffer b f => ReturnCmdBuffer s b f
  | .submitCmdBuffer o b n => SubmitCmdBuffer env s o b n

/-- A call of one public member function. -/
inductive WrapperCall
  | createGpuContext (funcType : GpuCtxMgrComponentFuncType)
  | setGpuContext (funcType : GpuCtxMgrComponentFuncType)
  | destroyGpuContext (funcType : GpuCtxMgrComponentFuncType)
  | cmdBuffer (call : CmdBufferCall)
  deriving DecidableEq

/-- Run one public member function. -/
def step (env : GpuCollaborators) (s : GpuCtxMgrWrapper) :
    WrapperCall → MOS_STATUS × GpuCtxMgrWrapper
  | .createGpuContext t => CreateGpuContext env s t
  | .setGpuContext t => SetGpuContext s t
  | .destroyGpuContext t => DestroyGpuContext s t
  | .cmdBuffer c => cmdBufferStep env s c

/-- Run a sequence of public member functions, dropping the statuses. -/
def run (env : GpuCollaborators) (s : GpuCtxMgrWrapper) : List WrapperCall → GpuCtxMgrWrapper
  | [] => s
  | c :: rest => run env (step env s c).2 rest

/-- The current context is unset or bound to a key of the pool. -/
def CurrentInPool (s : GpuCtxMgrWrapper) : Prop :=
  s.m_currentGpuContext = 0 ∨
    ∃ k, mapFind s.m_contextPool k = some s.m_currentGpuContext

/-- Every pooled context is non-null and was created through a non-null
engine manager. -/
def PoolSound (s : GpuCtxMgrWrapper) : Prop :=
  ∀ k c, mapFind s.m_contextPool k = some c → c ≠ 0 ∧ s.m_underlyingGpuContextMgr ≠ 0

/-- A state some sequence of public calls leads to from a constructed wrapper. -/
def Reachable (env : GpuCollaborators) (s : GpuCtxMgrWrapper) : Prop :=
  ∃ (underlyingMgr osCtx : Ptr) (calls : List WrapperCall),
    s = run env (construct underlyingMgr osCtx) calls

end GpuCtxMgrWrapper

/-! ## MediaCopyBaseState -/

/-- The `MOS_MEMCOMP_STATE` values named in the sources; `other raw` stands for
the remaining values of the enumeration. -/
inductive MOS_MEMCOMP_STATE
  | MOS_MMC_DISABLED
  | MOS_MMC_MC
  | MOS_MMC_RC
  | other (raw : Nat)
  deriving DecidableEq

/-- Content-protection mode of a copy surface. -/
inductive MCPY_CPMODE
  | MCPY_CPMODE_CLEAR
  | MCPY_CPMODE_CP
  deriving DecidableEq

/-- The copy engines; `other raw` stands for a value of the enumeration type
that is none of the three (the `default` case of `TaskDispatch`). -/
inductive MCPY_ENGINE
  | MCPY_ENGINE_VEBOX
  | MCPY_ENGINE_BLT
  | MCPY_ENGINE_RENDER
  | other (raw : Nat)
  deriving DecidableEq

/-- The copy preferences; `other raw` stands for a value of the enumeration
type that is none of the three (the `default` case of `CopyEnigneSelect`). -/
inductive MCPY_METHOD
  | MCPY_METHOD_PERFORMANCE
  | MCPY_METHOD_BALANCE
  | MCPY_METHOD_POWERSAVING
  | other (raw : Nat)
  deriving DecidableEq

/-- The fields of `MCPY_STATE_PARAMS` used by `media_copy.cpp`. -/
structure MCPY_STATE_PARAMS where
  OsRes : Ptr
  CompressionMode : MOS_MEMCOMP_STATE
  TileMode : Nat
  CpMode : MCPY_CPMODE
  bAuxSuface : Bool
  deriving DecidableEq

/-- The three capability bits. -/
structure MCPY_ENGINE_CAPS where
  engineVebox : Bool
  engineBlt : Bool
  engineRender : Bool
  deriving DecidableEq

/-- The fields of `MOS_SURFACE` that `SurfaceCopy` reads after
`pfnGetResourceInfo`. -/
structure ResourceDetails where
  CompressionMode : MOS_MEMCOMP_STATE
  TileType : Nat
  deriving DecidableEq

/-- A call made by the copy state on a collaborator. -/
inductive CopyCall
  | getResourceInfo (res : Ptr)
  | lockMutex (mutex : Ptr)
  | unlockMutex (mutex : Ptr)
  | mediaVeboxCopy (src dst : Ptr)
  | mediaBltCopy (src dst : Ptr)
  | mediaRenderCopy (src dst : Ptr)
  deriving DecidableEq

/-- The call invokes one of the three copy implementations. -/
def CopyCall.isCopy : CopyCall → Bool
  | .mediaVeboxCopy _ _ => true
  | .mediaBltCopy _ _ => true
  | .mediaRenderCopy _ _ => true
  | _ => false

/-- The call takes or releases the GPU-in-use mutex. -/
def CopyCall.isMutex : CopyCall → Bool
  | .lockMutex _ => true
  | .unlockMutex _ => true
  | _ => false

/-- What the collaborators of the copy state answer: the OS interface, the
resource's GMM information, and the virtual functions a derived class
supplies (`media_copy.h` and the derived classes are absent). -/
structure CopyCollaborators where
  /-- Answer of `m_osInterface->pfnGetResourceInfo` -/
  pfnGetResourceInfo : List CopyCall → Ptr → MOS_STATUS × ResourceDetails
  /-- Answer of `res->pGmmResInfo->GetSetCpSurfTag(false, 0)` -/
  GetSetCpSurfTag : Ptr → Nat
  /-- Answer of `FeatureSupport(src, dst, mcpy_src, mcpy_dst, caps)`: a status and the
  capability bits it leaves. -/
  FeatureSupport : Ptr → Ptr → MCPY_STATE_PARAMS → MCPY_STATE_PARAMS → MCPY_ENGINE_CAPS →
    MOS_STATUS × MCPY_ENGINE_CAPS
  /-- Answer of `IsVeboxCopySupported(src, dst)` -/
  IsVeboxCopySupported : Ptr → Ptr → Bool
  /-- Answer of `RenderFormatSupportCheck(src, dst)` -/
  RenderFormatSupportCheck : Ptr → Ptr → Bool
  /-- Answer of `MediaVeboxCopy(src, dst)` -/
  MediaVeboxCopy : List CopyCall → Ptr → Ptr → MOS_STATUS
  /-- Answer of `MediaBltCopy(src, dst)` -/
  MediaBltCopy : List CopyCall → Ptr → Ptr → MOS_STATUS
  /-- Answer of `MediaRenderCopy(src, dst)` -/
  MediaRenderCopy : List CopyCall → Ptr → Ptr → MOS_STATUS

/-- The members of `MediaCopyBaseState` used by the copy path, and the log of
collaborator calls. -/
structure MediaCopyBaseState where
  m_mcpySrc : MCPY_STATE_PARAMS
  m_mcpyDst : MCPY_STATE_PARAMS
  m_mcpyEngineCaps : MCPY_ENGINE_CAPS
  m_mcpyEngine : MCPY_ENGINE
  m_allowCPBltCopy : Bool
  m_inUseGPUMutex : Ptr
  calls : List CopyCall
  deriving DecidableEq

namespace MediaCopyBaseState

open MOS_MEMCOMP_STATE MCPY_CPMODE MCPY_ENGINE MCPY_METHOD

/-- Lines 129-150 of `CapabilityCheck`: the vebox, Eu and blt checks, each of
which may clear its bit of the capability set `caps`. -/
def CapabilityCheck.engineChecks (env : CopyCollaborators) (s : MediaCopyBaseState)
    (caps : MCPY_ENGINE_CAPS) : MCPY_ENGINE_CAPS :=
  -- vebox cap check
  let caps1 : MCPY_ENGINE_CAPS :=
    if env.IsVeboxCopySupported s.m_mcpySrc.OsRes s.m_mcpyDst.OsRes = false ∨
        s.m_mcpyDst.CompressionMode = MOS_MMC_RC ∨ s.m_mcpySrc.bAuxSuface = true then
      { caps with engineVebox := false }
    else caps
  -- Eu cap check
  let caps2 : MCPY_ENGINE_CAPS :=
    if env.RenderFormatSupportCheck s.m_mcpySrc.OsRes s.m_mcpyDst.OsRes = false ∨
        s.m_mcpyDst.CompressionMode = MOS_MMC_MC ∨ s.m_mcpySrc.bAuxSuface = true then
      { caps1 with engineRender := false }
    else caps1
  -- blt check
  if s.m_mcpySrc.CompressionMode ≠ MOS_MMC_DISABLED ∨
      s.m_mcpyDst.CompressionMode ≠ MOS_MMC_DISABLED then
    { caps2 with engineBlt := false }
  else caps2

/-- Embeds `MediaCopyBaseState::CapabilityCheck`.  The only member it writes is
`m_mcpyEngineCaps`. -/
def CapabilityCheck (env : CopyCollaborators) (s : MediaCopyBaseState) :
    MOS_STATUS × MediaCopyBaseState :=
  -- init hw engine caps
  let caps0 : MCPY_ENGINE_CAPS := { engineVebox := true, engineBlt := true, engineRender := true }
  -- derived class specific check
  let fs := env.FeatureSupport s.m_mcpySrc.OsRes s.m_mcpyDst.OsRes s.m_mcpySrc s.m_mcpyDst caps0
  if fs.1 ≠ MOS_STATUS_SUCCESS then
    (fs.1, { s with m_mcpyEngineCaps := fs.2 })
  else if s.m_mcpySrc.CpMode = MCPY_CPMODE_CP ∧ s.m_mcpyDst.CpMode = MCPY_CPMODE_CLEAR ∧
      s.m_allowCPBltCopy = false then
    (MOS_STATUS_INVALID_PARAMETER, { s with m_mcpyEngineCaps := fs.2 })
  else
    let caps := CapabilityCheck.engineChecks env s fs.2
    if caps.engineVebox = false ∧ caps.engineBlt = false ∧ caps.engineRender = false then
      (MOS_STATUS_INVALID_PARAMETER, { s with m_mcpyEngineCaps := caps })
    else
      (MOS_STATUS_SUCCESS, { s with m_mcpyEngineCaps := caps })

/-- Embeds `MediaCopyBaseState::PreProcess`. -/
def PreProcess (s : MediaCopyBaseState) (_preferMethod : MCPY_METHOD) :
    MOS_STATUS × MediaCopyBaseState :=
  (MOS_STATUS_SUCCESS, s)

/-- Embeds `MediaCopyBaseState::CopyEnigneSelect`. -/
def CopyEnigneSelect (s : MediaCopyBaseState) (preferMethod : MCPY_METHOD) :
    MOS_STATUS × MediaCopyBaseState :=
  match preferMethod with
  | MCPY_METHOD_PERFORMANCE =>
    (MOS_STATUS_SUCCESS, { s with m_mcpyEngine :=
      if s.m_mcpyEngineCaps.engineRender then MCPY_ENGINE_RENDER
      else (if s.m_mcpyEngineCaps.engineBlt then MCPY_ENGINE_BLT else MCPY_ENGINE_VEBOX) })
  | MCPY_METHOD_BALANCE =>
    (MOS_STATUS_SUCCESS, { s with m_mcpyEngine :=
      if s.m_mcpyEngineCaps.engineVebox then MCPY_ENGINE_VEBOX
      else (if s.m_mcpyEngineCaps.engineBlt then MCPY_ENGINE_BLT else MCPY_ENGINE_RENDER) })
  | MCPY_METHOD_POWERSAVING =>
    (MOS_STATUS_SUCCESS, { s with m_mcpyEngine :=
      if s.m_mcpyEngineCaps.engineBlt then MCPY_ENGINE_BLT
      else (if s.m_mcpyEngineCaps.engineVebox then MCPY_ENGINE_VEBOX else MCPY_ENGINE_RENDER) })
  | MCPY_METHOD.other _ => (MOS_STATUS_SUCCESS, s)

/-- Embeds `MediaCopyBaseState::TaskDispatch`. -/
def TaskDispatch (env : CopyCollaborators) (s : MediaCopyBaseState) :
    MOS_STATUS × MediaCopyBaseState :=
  let s1 := { s with calls := s.calls ++ [CopyCall.lockMutex s.m_inUseGPUMutex] }
  let r : MOS_STATUS × MediaCopyBaseState :=
    match s1.m_mcpyEngine with
    | MCPY_ENGINE_VEBOX =>
      (env.MediaVeboxCopy s1.calls s1.m_mcpySrc.OsRes s1.m_mcpyDst.OsRes,
        { s1 with calls := s1.calls ++
          [CopyCall.mediaVeboxCopy s1.m_mcpySrc.OsRes s1.m_mcpyDst.OsRes] })
    | MCPY_ENGINE_BLT =>
      (env.MediaBltCopy s1.calls s1.m_mcpySrc.OsRes s1.m_mcpyDst.OsRes,
        { s1 with calls := s1.calls ++
          [CopyCall.mediaBltCopy s1.m_mcpySrc.OsRes s1.m_mcpyDst.OsRes] })
    | MCPY_ENGINE_RENDER =>
      (env.MediaRenderCopy s1.calls s1.m_mcpySrc.OsRes s1.m_mcpyDst.OsRes,
        { s1 with calls := s1.calls ++
          [CopyCall.mediaRenderCopy s1.m_mcpySrc.OsRes s1.m_mcpyDst.OsRes] })
    | MCPY_ENGINE.other _ => (MOS_STATUS_SUCCESS, s1)
  (r.1, { r.2 with calls := r.2.calls ++ [CopyCall.unlockMutex r.2.m_inUseGPUMutex] })

/-- Lines 216-231 of `SurfaceCopy`: query both resources and record their
compression, protection and tile modes in `m_mcpySrc` and `m_mcpyDst`. -/
def SurfaceCopy.resourceDetails (env : CopyCollaborators) (s : MediaCopyBaseState)
    (src dst : Ptr) : MOS_STATUS × MediaCopyBaseState :=
  let i1 := env.pfnGetResourceInfo s.calls src
  let s1 := { s with calls := s.calls ++ [CopyCall.getResourceInfo src] }
  if i1.1 ≠ MOS_STATUS_SUCCESS then
    (i1.1, s1)
  else
    let s2 := { s1 with m_mcpySrc :=
      { s1.m_mcpySrc with
        CompressionMode := i1.2.CompressionMode
        CpMode := if env.GetSetCpSurfTag src ≠ 0 then MCPY_CPMODE_CP else MCPY_CPMODE_CLEAR
        TileMode := i1.2.TileType
        OsRes := src } }
    let i2 := env.pfnGetResourceInfo s2.calls dst
    let s3 := { s2 with calls := s2.calls ++ [CopyCall.getResourceInfo dst] }
    if i2.1 ≠ MOS_STATUS_SUCCESS then
      (i2.1, s3)
    else
      (MOS_STATUS_SUCCESS, { s3 with m_mcpyDst :=
        { s3.m_mcpyDst with
          CompressionMode := i2.2.CompressionMode
          CpMode := if env.GetSetCpSurfTag dst ≠ 0 then MCPY_CPMODE_CP else MCPY_CPMODE_CLEAR
          TileMode := i2.2.TileType
          OsRes := dst } })

/-- Embeds `MediaCopyBaseState::SurfaceCopy`. -/
def SurfaceCopy (env : CopyCollaborators) (s : MediaCopyBaseState) (src dst : Ptr)
    (preferMethod : MCPY_METHOD) : MOS_STATUS × MediaCopyBaseState :=
  let r0 := SurfaceCopy.resourceDetails env s src dst
  if r0.1 ≠ MOS_STATUS_SUCCESS then r0
  else
    let r1 := PreProcess r0.2 preferMethod
    if r1.1 ≠ MOS_STATUS_SUCCESS then r1
    else
      let r2 := CapabilityCheck env r1.2
      if r2.1 ≠ MOS_STATUS_SUCCESS then r2
      else
        let r3 := CopyEnigneSelect r2.2 preferMethod
        let r4 := TaskDispatch env r3.2
        if r4.1 ≠ MOS_STATUS_SUCCESS then r4
        else (MOS_STATUS_SUCCESS, r4.2)

/-- Embeds `MediaCopyBaseState::AuxCopy`. -/
def AuxCopy (s : MediaCopyBaseState) (_src _dst : Ptr) : MOS_STATUS × MediaCopyBaseState :=
  (MOS_STATUS_INVALID_HANDLE, s)

/-- The capability bit of an engine (`false` for a value that names no engine). -/
def capable (caps : MCPY_ENGINE_CAPS) : MCPY_ENGINE → Bool
  | MCPY_ENGINE_VEBOX => caps.engineVebox
  | MCPY_ENGINE_BLT => caps.engineBlt
  | MCPY_ENGINE_RENDER => caps.engineRender
  | MCPY_ENGINE.other _ => false

/-- The fallback order the specification gives for each preference
(section 4.3, step 5); written from the specification, to be compared with
`CopyEnigneSelect`. -/
def specFallbackOrder : MCPY_METHOD → List MCPY_ENGINE
  | MCPY_METHOD_PERFORMANCE => [MCPY_ENGINE_RENDER, MCPY_ENGINE_BLT, MCPY_ENGINE_VEBOX]
  | MCPY_METHOD_BALANCE => [MCPY_ENGINE_VEBOX, MCPY_ENGINE_BLT, MCPY_ENGINE_RENDER]
  | MCPY_METHOD_POWERSAVING => [MCPY_ENGINE_BLT, MCPY_ENGINE_VEBOX, MCPY_ENGINE_RENDER]
  | MCPY_METHOD.other _ => []

/-- The first capable engine of the specification's order for a preference. -/
def specFirstCapable (preferMethod : MCPY_METHOD) (caps : MCPY_ENGINE_CAPS) :
    Option MCPY_ENGINE :=
  (specFallbackOrder preferMethod).find? (capable caps)

/-- The status `FeatureSupport` returns when `CapabilityCheck` calls it in
state `s` (line 118): the capability bits have just been set to 1. -/
def featureSupportStatus (env : CopyCollaborators) (s : MediaCopyBaseState) : MOS_STATUS :=
  (env.FeatureSupport s.m_mcpySrc.OsRes s.m_mcpyDst.OsRes s.m_mcpySrc s.m_mcpyDst
    { engineVebox := true, engineBlt := true, engineRender := true }).1

end MediaCopyBaseState

/-! ## VpAllocator

`VP_SURFACE*` and `MOS_SURFACE*` are modelled by optional values (`none` is
`nullptr`): the allocator functions embedded here never alias two handles.
`MOS_New` may fail; whether it does is an answer of the collaborators.
`MOS_Delete(p)` deletes the object and sets `p` to `nullptr`. -/

/-- The `MOS_FORMAT` values named in `vp_allocator.cpp`; `other raw` stands for
the remaining formats. -/
inductive MOS_FORMAT
  | Format_Buffer
  | Format_NV12
  | Format_420O
  | Format_RGB
  | Format_Y410
  | other (raw : Nat)
  deriving DecidableEq

/-- The `MOS_TILE_TYPE` values named in `vp_allocator.cpp`; `other raw` stands
for the remaining tile types. -/
inductive MOS_TILE_TYPE
  | MOS_TILE_Y
  | MOS_TILE_YS
  | other (raw : Nat)
  deriving DecidableEq

/-- The fields of `MOS_RESOURCE` the allocator looks at.  The helper
`Mos_ResourceIsNull` is declared outside the sources; `isNull` carries its
answer for this resource. -/
structure MOS_RESOURCE where
  handle : Nat
  isNull : Bool
  pGmmResInfo : Ptr
  deriving DecidableEq

/-- Answer of `Mos_ResourceIsNull(&resource)`. -/
def Mos_ResourceIsNull (resource : MOS_RESOURCE) : Bool := resource.isNull

/-- A plane offset of `MOS_SURFACE` (`YPlaneOffset`, `UPlaneOffset`,
`VPlaneOffset`). -/
structure MOS_PLANE_OFFSET where
  iSurfaceOffset : Nat
  iXOffset : Nat
  iYOffset : Nat
  iLockSurfaceOffset : Nat
  deriving DecidableEq

/-- One entry of `MOS_SURFACE::RenderOffset`. -/
structure MOS_RENDER_PLANE where
  BaseOffset : Nat
  XOffset : Nat
  YOffset : Nat
  deriving DecidableEq

/-- The member `RenderOffset.YUV`. -/
structure MOS_RENDER_YUV where
  Y : MOS_RENDER_PLANE
  U : MOS_RENDER_PLANE
  V : MOS_RENDER_PLANE
  deriving DecidableEq

/-- The member `RenderOffset`. -/
structure MOS_RENDER_OFFSET where
  RGB : MOS_RENDER_PLANE
  YUV : MOS_RENDER_YUV
  deriving DecidableEq

/-- The member `LockOffset.YUV`. -/
structure MOS_LOCK_YUV where
  Y : Nat
  U : Nat
  V : Nat
  deriving DecidableEq

/-- The member `LockOffset`. -/
structure MOS_LOCK_OFFSET where
  YUV : MOS_LOCK_YUV
  deriving DecidableEq

/-- The fields of `MOS_SURFACE` used by `vp_allocator.cpp`.  `bCompressible`
and `bIsCompressed` are integers used as flags; `Type_` is the member `Type`. -/
structure MOS_SURFACE where
  OsResource : MOS_RESOURCE
  Format : MOS_FORMAT
  dwWidth : Nat
  dwHeight : Nat
  dwDepth : Nat
  dwPitch : Nat
  Type_ : Nat
  TileType : MOS_TILE_TYPE
  bCompressible : Nat
  bIsCompressed : Nat
  CompressionMode : MOS_MEMCOMP_STATE
  CompressionFormat : Nat
  dwOffset : Nat
  YPlaneOffset : MOS_PLANE_OFFSET
  UPlaneOffset : MOS_PLANE_OFFSET
  VPlaneOffset : MOS_PLANE_OFFSET
  RenderOffset : MOS_RENDER_OFFSET
  LockOffset : MOS_LOCK_OFFSET
  deriving DecidableEq

/-- A `MOS_SURFACE` after `MOS_ZeroMemory`; the zero enumerators of the format
and of the tile type are not among those the sources name. -/
def MOS_SURFACE.zero : MOS_SURFACE :=
  { OsResource := { handle := 0, isNull := true, pGmmResInfo := 0 }
    Format := MOS_FORMAT.other 0, dwWidth := 0, dwHeight := 0, dwDepth := 0, dwPitch := 0,
    Type_ := 0, TileType := MOS_TILE_TYPE.other 0, bCompressible := 0, bIsCompressed := 0,
    CompressionMode := MOS_MEMCOMP_STATE.MOS_MMC_DISABLED, CompressionFormat := 0, dwOffset := 0,
    YPlaneOffset := ⟨0, 0, 0, 0⟩, UPlaneOffset := ⟨0, 0, 0, 0⟩, VPlaneOffset := ⟨0, 0, 0, 0⟩,
    RenderOffset := ⟨⟨0, 0, 0⟩, ⟨⟨0, 0, 0⟩, ⟨0, 0, 0⟩, ⟨0, 0, 0⟩⟩⟩, LockOffset := ⟨⟨0, 0, 0⟩⟩ }

/-- A rectangle with `LONG` (32-bit signed) coordinates. -/
structure RECT where
  left : Int
  top : Int
  right : Int
  bottom : Int
  deriving DecidableEq

/-- Conversion of a `uint32_t` to `LONG`. -/
def toLONG (v : Nat) : Int :=
  if v % 2 ^ 32 < 2 ^ 31 then ((v % 2 ^ 32 : Nat) : Int) else ((v % 2 ^ 32 : Nat) : Int) - 2 ^ 32

/-- The fields of `VP_SURFACE` used by `vp_allocator.cpp`.  Enumeration-typed
members hold the raw enumerator value. -/
structure VP_SURFACE where
  osSurface : Option MOS_SURFACE
  isResourceOwner : Bool
  ColorSpace : Int
  ChromaSiting : Nat
  bQueryVariance : Bool
  FrameID : Int
  ExtendedGamut : Bool
  Palette : Nat
  SurfType : Int
  uFwdRefCount : Nat
  uBwdRefCount : Nat
  pFwdRef : Ptr
  pBwdRef : Ptr
  SampleType : Int
  rcSrc : RECT
  rcDst : RECT
  rcMaxSrc : RECT
  bVEBOXCroppingUsed : Bool
  bufferWidth : Nat
  bufferHeight : Nat
  deriving DecidableEq

/-- A `VP_SURFACE` after `MOS_ZeroMemory`. -/
def VP_SURFACE.zero : VP_SURFACE :=
  { osSurface := none, isResourceOwner := false, ColorSpace := 0, ChromaSiting := 0,
    bQueryVariance := false, FrameID := 0, ExtendedGamut := false, Palette := 0, SurfType := 0,
    uFwdRefCount := 0, uBwdRefCount := 0, pFwdRef := 0, pBwdRef := 0, SampleType := 0,
    rcSrc := ⟨0, 0, 0, 0⟩, rcDst := ⟨0, 0, 0, 0⟩, rcMaxSrc := ⟨0, 0, 0, 0⟩,
    bVEBOXCroppingUsed := false, bufferWidth := 0, bufferHeight := 0 }

/-- The fields of `MOS_ALLOC_GFXRES_PARAMS` that `ReAllocateSurface` fills in;
`Type_` is the member `Type` and `bNotLockable` the member `Flags.bNotLockable`. -/
structure MOS_ALLOC_GFXRES_PARAMS where
  Type_ : Nat
  TileType : MOS_TILE_TYPE
  dwWidth : Nat
  dwHeight : Nat
  Format : MOS_FORMAT
  bIsCompressible : Bool
  CompressionMode : MOS_MEMCOMP_STATE
  pBufName : Ptr
  dwArraySize : Nat
  ResUsageType : Nat
  m_tileModeByForce : Nat
  dwMemType : Nat
  bNotLockable : Bool
  pSystemMemory : Ptr
  deriving DecidableEq

/-- The value-initialised parameters `allocParams = {}`; `ReAllocateSurface`
assigns every field listed here before the parameters are used. -/
def MOS_ALLOC_GFXRES_PARAMS.zero : MOS_ALLOC_GFXRES_PARAMS :=
  { Type_ := 0, TileType := MOS_TILE_TYPE.other 0, dwWidth := 0, dwHeight := 0,
    Format := MOS_FORMAT.other 0, bIsCompressible := false,
    CompressionMode := MOS_MEMCOMP_STATE.MOS_MMC_DISABLED, pBufName := 0, dwArraySize := 0,
    ResUsageType := 0, m_tileModeByForce := 0, dwMemType := 0, bNotLockable := false,
    pSystemMemory := 0 }

/-- The flag of `MOS_GFXRES_FREE_FLAGS` the allocator sets. -/
structure MOS_GFXRES_FREE_FLAGS where
  SynchronousDestroy : Bool
  deriving DecidableEq

/-- The flags of `MOS_LOCK_PARAMS` the allocator sets. -/
structure MOS_LOCK_PARAMS where
  ReadOnly : Bool
  WriteOnly : Bool
  NoOverWrite : Bool
  deriving DecidableEq

/-- The fields of `VPHAL_SURFACE` used by `ReadSurface`, `WriteSurface` and
`AllocateVpSurface(VPHAL_SURFACE &)`.  Enumeration-typed members hold the raw
enumerator value, as in `VP_SURFACE`. -/
structure VPHAL_SURFACE where
  OsResource : MOS_RESOURCE
  dwWidth : Nat
  dwHeight : Nat
  dwDepth : Nat
  dwPitch : Nat
  Format : MOS_FORMAT
  ColorSpace : Int
  ExtendedGamut : Bool
  Palette : Nat
  bQueryVariance : Bool
  FrameID : Int
  uFwdRefCount : Nat
  uBwdRefCount : Nat
  pFwdRef : Ptr
  pBwdRef : Ptr
  SurfType : Int
  SampleType : Int
  ChromaSiting : Nat
  rcSrc : RECT
  rcDst : RECT
  rcMaxSrc : RECT
  deriving DecidableEq

/-- A call made by the allocator on the heap or on a collaborator. -/
inductive VpCall
  | newVpSurface
  | newMosSurface
  | deleteVpSurface (surface : VP_SURFACE)
  | deleteMosSurface (osSurface : MOS_SURFACE)
  | allocatorAllocateSurface (param : MOS_ALLOC_GFXRES_PARAMS) (zeroOnAllocate : Bool)
  | allocatorDestroySurface (osSurface : MOS_SURFACE) (flags : MOS_GFXRES_FREE_FLAGS)
  | allocatorGetSurfaceInfo (osSurface : MOS_SURFACE)
  | allocatorLock (resource : MOS_RESOURCE) (lockFlag : MOS_LOCK_PARAMS)
  | allocatorUnLock (resource : MOS_RESOURCE)
  deriving DecidableEq

/-- The call frees an underlying resource (`Allocator::DestroySurface`). -/
def VpCall.isResourceFree : VpCall → Bool
  | .allocatorDestroySurface _ _ => true
  | _ => false

/-- The call asks the underlying `Allocator` for a surface. -/
def VpCall.isAllocate : VpCall → Bool
  | .allocatorAllocateSurface _ _ => true
  | _ => false

/-- What the collaborators of `VpAllocator` answer (the underlying `Allocator`,
`MediaMemComp`, the heap), and the values of enumerators and default arguments
declared in headers outside the sources. -/
structure VpCollaborators where
  /-- Answer of `MOS_New(VP_SURFACE)`: whether an object was obtained. -/
  MOS_New_VP_SURFACE : List VpCall → Bool
  /-- Answer of `MOS_New(MOS_SURFACE)`: whether an object was obtained. -/
  MOS_New_MOS_SURFACE : List VpCall → Bool
  /-- Answer of `Allocator::AllocateSurface(param, zeroOnAllocate, COMPONENT_VPCommon)`. -/
  AllocateSurface : List VpCall → MOS_ALLOC_GFXRES_PARAMS → Bool → Option MOS_SURFACE
  /-- Answer of `Allocator::DestroySurface(surface, flags)`. -/
  DestroySurface : List VpCall → MOS_SURFACE → MOS_GFXRES_FREE_FLAGS → MOS_STATUS
  /-- Answer of `Allocator::isSyncFreeNeededForMMCSurface(surface)`. -/
  isSyncFreeNeededForMMCSurface : MOS_SURFACE → Bool
  /-- Answer of `Allocator::Lock(resource, lockFlag)`: the mapped address. -/
  Lock : List VpCall → MOS_RESOURCE → MOS_LOCK_PARAMS → Ptr
  /-- Answer of `Allocator::UnLock(resource)`. -/
  UnLock : List VpCall → MOS_RESOURCE → MOS_STATUS
  /-- Answer of `MediaMemComp::IsMmcEnabled()`. -/
  IsMmcEnabled : Bool
  /-- Answer of `MediaMemComp::IsCompressibelSurfaceSupported()`. -/
  IsCompressibelSurfaceSupported : Bool
  /-- Effect of `MediaMemComp::SetSurfaceMmcMode(&osSurface)` on the surface. -/
  SetSurfaceMmcMode : MOS_SURFACE → MOS_SURFACE
  /-- Answer of `MediaMemComp::GetSurfaceMmcFormat(&osSurface, &mmcFormat)`. -/
  GetSurfaceMmcFormat : MOS_SURFACE → Nat
  /-- Answer of the macro `IS_RGB32_FORMAT`. -/
  IS_RGB32_FORMAT : MOS_FORMAT → Bool
  /-- Answer of the macro `IS_RGB16_FORMAT`. -/
  IS_RGB16_FORMAT : MOS_FORMAT → Bool
  /-- Answer of the macro `IS_RGB64_FORMAT`. -/
  IS_RGB64_FORMAT : MOS_FORMAT → Bool
  /-- Value of the enumerator `SAMPLE_PROGRESSIVE`. -/
  SAMPLE_PROGRESSIVE : Int
  /-- Default argument `ColorSpace` of `AllocateVpSurface(param, zeroOnAllocate, ...)`. -/
  defaultColorSpace : Int
  /-- Default argument `ChromaSiting` of `AllocateVpSurface(param, zeroOnAllocate, ...)`. -/
  defaultChromaSiting : Nat
  /-- Answer of `Allocator::GetSurfaceInfo(&osSurface.OsResource, &osSurface)`: a status
  and the descriptor it leaves. -/
  GetSurfaceInfo : List VpCall → MOS_SURFACE → MOS_STATUS × MOS_SURFACE
  /-- The object `MOS_New(VP_SURFACE)` constructs (the default member initialisers are
  declared in a header outside the sources). -/
  newVpSurfaceValue : VP_SURFACE
  /-- The object `MOS_New(MOS_SURFACE)` constructs. -/
  newMosSurfaceValue : MOS_SURFACE
  /-- Value of the enumerator `CSpace_Any`. -/
  CSpace_Any : Int
  /-- Value of the enumerator `SURF_NONE`. -/
  SURF_NONE : Int
  /-- Default argument `deferredDestroyed` of `DestroyVpSurface`. -/
  defaultDeferredDestroyed : Bool
  /-- Default argument `flags` of `DestroyVpSurface`. -/
  defaultFreeFlags : MOS_GFXRES_FREE_FLAGS

/-- The members of `VpAllocator` used by the embedded functions, and the log of
calls. -/
structure VpAllocator where
  m_allocator : Ptr
  m_mmc : Ptr
  m_recycler : List (Option VP_SURFACE)
  calls : List VpCall
  deriving DecidableEq

/-- What `DestroyVpSurface` leaves: its status, the allocator, and the caller's
handle (the parameter is a reference to the pointer). -/
structure DestroyVpSurfaceResult where
  status : MOS_STATUS
  allocator : VpAllocator
  surface : Option VP_SURFACE
  deriving DecidableEq

/-- The parameters of `ReAllocateSurface` (`VP_SURFACE` overload) other than the
handle and the output flag. -/
structure ReAllocateSurfaceArgs where
  surfaceName : Ptr
  format : MOS_FORMAT
  defaultResType : Nat
  defaultTileType : MOS_TILE_TYPE
  width : Nat
  height : Nat
  compressible : Bool
  compressionMode : MOS_MEMCOMP_STATE
  zeroOnAllocate : Bool
  deferredDestroyed : Bool
  resUsageType : Nat
  tileModeByForce : Nat
  memType : Nat
  isNotLockable : Bool
  systemMemory : Ptr
  deriving DecidableEq

/-- What `ReAllocateSurface` leaves: its status, the allocator, the caller's
handle and the output flag `allocated`. -/
structure ReAllocateSurfaceResult where
  status : MOS_STATUS
  allocator : VpAllocator
  surface : Option VP_SURFACE
  allocated : Bool
  deriving DecidableEq

namespace VpAllocator

open MOS_FORMAT MOS_TILE_TYPE MOS_MEMCOMP_STATE

/-- Embeds `VpAllocator::UpdateSurfacePlaneOffset`. -/
def UpdateSurfacePlaneOffset (env : VpCollaborators) (surf : MOS_SURFACE) : MOS_SURFACE :=
  if env.IS_RGB32_FORMAT surf.Format = true ∨ env.IS_RGB16_FORMAT surf.Format = true ∨
      env.IS_RGB64_FORMAT surf.Format = true ∨ surf.Format = Format_RGB ∨
      surf.Format = Format_Y410 then
    { surf with
      dwOffset := surf.RenderOffset.RGB.BaseOffset
      YPlaneOffset := { surf.YPlaneOffset with
        iSurfaceOffset := surf.RenderOffset.RGB.BaseOffset
        iXOffset := surf.RenderOffset.RGB.XOffset
        iYOffset := surf.RenderOffset.RGB.YOffset } }
  else
    { surf with
      dwOffset := surf.RenderOffset.YUV.Y.BaseOffset
      YPlaneOffset :=
        { iSurfaceOffset := surf.RenderOffset.YUV.Y.BaseOffset
          iXOffset := surf.RenderOffset.YUV.Y.XOffset
          iYOffset := surf.RenderOffset.YUV.Y.YOffset
          iLockSurfaceOffset := surf.LockOffset.YUV.Y }
      UPlaneOffset :=
        { iSurfaceOffset := surf.RenderOffset.YUV.U.BaseOffset
          iXOffset := surf.RenderOffset.YUV.U.XOffset
          iYOffset := surf.RenderOffset.YUV.U.YOffset
          iLockSurfaceOffset := surf.LockOffset.YUV.U }
      VPlaneOffset :=
        { iSurfaceOffset := surf.RenderOffset.YUV.V.BaseOffset
          iXOffset := surf.RenderOffset.YUV.V.XOffset
          iYOffset := surf.RenderOffset.YUV.V.YOffset
          iLockSurfaceOffset := surf.LockOffset.YUV.V } }

/-- Embeds `VpAllocator::SetMmcFlags`.  The test `osSurface.CompressionMode &&`
is true for every mode but `MOS_MMC_DISABLED`, the zero enumerator. -/
def SetMmcFlags (env : VpCollaborators) (s : VpAllocator) (osSurface : MOS_SURFACE) :
    MOS_STATUS × MOS_SURFACE :=
  if s.m_mmc = 0 then
    (MOS_STATUS_NULL_POINTER, osSurface)
  else
    let os1 := env.SetSurfaceMmcMode osSurface
    if os1.CompressionMode ≠ MOS_MMC_DISABLED ∧
        (os1.TileType = MOS_TILE_Y ∨ os1.TileType = MOS_TILE_YS) then
      let os2 := { os1 with bCompressible := 1, bIsCompressed := 1 }
      (MOS_STATUS_SUCCESS, { os2 with CompressionFormat := env.GetSurfaceMmcFormat os2 })
    else
      (MOS_STATUS_SUCCESS,
        { os1 with bIsCompressed := 0, CompressionMode := MOS_MMC_DISABLED,
                   CompressionFormat := 0 })

/-- Embeds `VpAllocator::AllocateSurface`. -/
def AllocateSurface (env : VpCollaborators) (s : VpAllocator) (param : MOS_ALLOC_GFXRES_PARAMS)
    (zeroOnAllocate : Bool) : Option MOS_SURFACE × VpAllocator :=
  if s.m_allocator = 0 then
    (none, s)
  else
    let s1 := { s with calls := s.calls ++ [VpCall.allocatorAllocateSurface param zeroOnAllocate] }
    match env.AllocateSurface s.calls param zeroOnAllocate with
    | none => (none, s1)
    | some surf =>
      let surf1 := { surf with Format := param.Format }
      let m := SetMmcFlags env s1 surf1
      if MOS_FAILED m.1 then
        (none, { s1 with calls := s1.calls ++
          [VpCall.allocatorDestroySurface m.2 { SynchronousDestroy := false }] })
      else
        (some (UpdateSurfacePlaneOffset env m.2), s1)

/-- Embeds `VpAllocator::DestroySurface`. -/
def DestroySurface (env : VpCollaborators) (s : VpAllocator) (surface : MOS_SURFACE)
    (flags : MOS_GFXRES_FREE_FLAGS) : MOS_STATUS × VpAllocator :=
  if s.m_allocator = 0 then
    (MOS_STATUS_NULL_POINTER, s)
  else
    (env.DestroySurface s.calls surface flags,
      { s with calls := s.calls ++ [VpCall.allocatorDestroySurface surface flags] })

/-- Embeds `VpAllocator::AllocateVpSurface(MOS_ALLOC_GFXRES_PARAMS &param, bool
zeroOnAllocate, VPHAL_CSPACE ColorSpace, uint32_t ChromaSiting)`.  The
parameters are passed by reference and rewritten for `Format_Buffer`; the
caller embedded here does not read them afterwards. -/
def AllocateVpSurface (env : VpCollaborators) (s : VpAllocator)
    (param : MOS_ALLOC_GFXRES_PARAMS) (zeroOnAllocate : Bool) (ColorSpace : Int)
    (ChromaSiting : Nat) : Option VP_SURFACE × VpAllocator :=
  let s0 := { s with calls := s.calls ++ [VpCall.newVpSurface] }
  if env.MOS_New_VP_SURFACE s.calls = false then
    (none, s0)
  else
    let bufferWidth := if param.Format = Format_Buffer then param.dwWidth else 0
    let bufferHeight := if param.Format = Format_Buffer then param.dwHeight else 0
    let param1 : MOS_ALLOC_GFXRES_PARAMS :=
      if param.Format = Format_Buffer then
        { param with dwWidth := (param.dwWidth * param.dwHeight) % 2 ^ 32, dwHeight := 1 }
      else param
    let a := AllocateSurface env s0 param1 zeroOnAllocate
    match a.1 with
    | none => (none, { a.2 with calls := a.2.calls ++ [VpCall.deleteVpSurface VP_SURFACE.zero] })
    | some os =>
      let rc : RECT := { left := 0, top := 0, right := toLONG os.dwWidth,
                         bottom := toLONG os.dwHeight }
      let surface : VP_SURFACE :=
        { VP_SURFACE.zero with
          osSurface := some os
          isResourceOwner := true
          ColorSpace := ColorSpace
          ChromaSiting := ChromaSiting
          SampleType := env.SAMPLE_PROGRESSIVE
          rcSrc := rc
          rcDst := rc
          rcMaxSrc := rc }
      if param1.Format = Format_Buffer then
        (some { surface with bufferWidth := bufferWidth, bufferHeight := bufferHeight }, a.2)
      else
        (some surface, a.2)

/-- Embeds `VpAllocator::DestroyVpSurface`. -/
def DestroyVpSurface (env : VpCollaborators) (s : VpAllocator) (surface : Option VP_SURFACE)
    (deferredDestroyed : Bool) (flags : MOS_GFXRES_FREE_FLAGS) : DestroyVpSurfaceResult :=
  match surface with
  | none => { status := MOS_STATUS_SUCCESS, allocator := s, surface := none }
  | some v =>
    match v.osSurface with
    | none => { status := MOS_STATUS_SUCCESS, allocator := s, surface := some v }
    | some os =>
      if deferredDestroyed = true then
        { status := MOS_STATUS_SUCCESS
          allocator := { s with m_recycler := s.m_recycler ++ [some v] }
          surface := none }
      else
        let d : MOS_STATUS × VpAllocator :=
          if v.isResourceOwner = true then
            DestroySurface env s os flags
          else
            (MOS_STATUS_SUCCESS, { s with calls := s.calls ++ [VpCall.deleteMosSurface os] })
        { status := d.1
          allocator := { d.2 with calls := d.2.calls ++ [VpCall.deleteVpSurface v] }
          surface := none }

/-- Embeds `VpAllocator::IsSyncFreeNeededForMMCSurface` where the call of line
1156 is defined.  The source calls `m_allocator->isSyncFreeNeededForMMCSurface`
without testing `m_allocator`: where
`IsSyncFreeNeededForMMCSurface.dereferencesNull` holds the code dereferences a
null pointer and returns nothing, and the value given here describes no
behaviour of the code. -/
def IsSyncFreeNeededForMMCSurface (env : VpCollaborators) (pOsSurface : Option MOS_SURFACE) :
    Bool :=
  match pOsSurface with
  | none => false
  | some os => env.isSyncFreeNeededForMMCSurface os

/-- The call `m_allocator->isSyncFreeNeededForMMCSurface(pOsSurface)` of line
1156 dereferences a null pointer: the descriptor is non-null (the test of line
1151 is passed) and `m_allocator` is null. -/
def IsSyncFreeNeededForMMCSurface.dereferencesNull (s : VpAllocator)
    (pOsSurface : Option MOS_SURFACE) : Bool :=
  pOsSurface.isSome && decide (s.m_allocator = 0)

/-- The flags `CleanRecycler` and `ReAllocateSurface` compute for a surface:
`SynchronousDestroy` is set when the handle is non-null and
`IsSyncFreeNeededForMMCSurface` holds for its `osSurface`. -/
def syncFreeFlags (env : VpCollaborators) (surf : Option VP_SURFACE) : MOS_GFXRES_FREE_FLAGS :=
  match surf with
  | none => { SynchronousDestroy := false }
  | some v =>
    if IsSyncFreeNeededForMMCSurface env v.osSurface = true then { SynchronousDestroy := true }
    else { SynchronousDestroy := false }

/-- Embeds `VpAllocator::CleanRecycler`.  The `while` loop runs on `fuel`
iterations at most; `none` means the fuel ran out with entries left.  The
result is that of the code for the runs in which no call of
`IsSyncFreeNeededForMMCSurface` dereferences the null `m_allocator`, that is
where `CleanRecycler.dereferencesNull` is false. -/
def CleanRecycler (env : VpCollaborators) : Nat → VpAllocator → Option VpAllocator
  | fuel, s =>
    match s.m_recycler.getLast? with
    | none => some s
    | some surf =>
      match fuel with
      | 0 => none
      | fuel + 1 =>
        let s1 := { s with m_recycler := s.m_recycler.dropLast }
        CleanRecycler env fuel (DestroyVpSurface env s1 surf false (syncFreeFlags env surf)).allocator

/-- Whether the run of `CleanRecycler` on at most `fuel` iterations reaches a
call of `IsSyncFreeNeededForMMCSurface` (line 1168) that dereferences the null
`m_allocator`; the loop is followed as in `CleanRecycler`. -/
def CleanRecycler.dereferencesNull (env : VpCollaborators) : Nat → VpAllocator → Bool
  | fuel, s =>
    match s.m_recycler.getLast? with
    | none => false
    | some surf =>
      match fuel with
      | 0 => false
      | fuel + 1 =>
        let s1 := { s with m_recycler := s.m_recycler.dropLast }
        (match surf with
          | none => false
          | some v => IsSyncFreeNeededForMMCSurface.dereferencesNull s1 v.osSurface) ||
        CleanRecycler.dereferencesNull env fuel
          (DestroyVpSurface env s1 surf false (syncFreeFlags env surf)).allocator

/-- Embeds `VpAllocator::AllocParamsInitType` (`VP_SURFACE` overload). -/
def AllocParamsInitType (allocParams : MOS_ALLOC_GFXRES_PARAMS) (surface : Option VP_SURFACE)
    (defaultResType : Nat) (defaultTileType : MOS_TILE_TYPE) :
    MOS_STATUS × MOS_ALLOC_GFXRES_PARAMS :=
  match surface.bind (fun v => v.osSurface) with
  | some os =>
    if os.OsResource.pGmmResInfo ≠ 0 ∧ os.TileType = defaultTileType then
      (MOS_STATUS_SUCCESS, { allocParams with TileType := os.TileType, Type_ := os.Type_ })
    else
      (MOS_STATUS_SUCCESS, { allocParams with Type_ := defaultResType, TileType := defaultTileType })
  | none =>
    (MOS_STATUS_SUCCESS, { allocParams with Type_ := defaultResType, TileType := defaultTileType })

/-- The values of `compressible` and `compressionMode` after lines 749-754 of
`ReAllocateSurface`: forced off when MMC is disabled or compressible surfaces
are not supported. -/
def ReAllocateSurface.mmcAdjusted (env : VpCollaborators) (a : ReAllocateSurfaceArgs) :
    Bool × MOS_MEMCOMP_STATE :=
  if env.IsMmcEnabled = false ∨ env.IsCompressibelSurfaceSupported = false then
    (false, MOS_MMC_DISABLED)
  else
    (a.compressible, a.compressionMode)

/-- The lambda `surfInfoCheck` of `ReAllocateSurface`, for a surface whose
`osSurface` is `os`; `compressible` and `compressionMode` are the captured
(adjusted) values. -/
def ReAllocateSurface.surfInfoCheck (a : ReAllocateSurfaceArgs) (compressible : Bool)
    (compressionMode : MOS_MEMCOMP_STATE) (v : VP_SURFACE) (os : MOS_SURFACE) : Bool :=
  decide (os.Format = a.format) &&
  (decide (os.bCompressible ≠ 0) == compressible) &&
  decide (os.CompressionMode = compressionMode) &&
  decide (os.TileType = a.defaultTileType) &&
  ((decide (Format_Buffer = a.format) && decide (v.bufferWidth = a.width) &&
      decide (v.bufferHeight = a.height)) ||
   (decide (Format_Buffer ≠ a.format) && decide (os.dwWidth = a.width) &&
      decide (os.dwHeight = a.height)))

/-- The condition of the early return at lines 773-779 of `ReAllocateSurface`. -/
def ReAllocateSurface.unchanged (a : ReAllocateSurfaceArgs) (compressible : Bool)
    (compressionMode : MOS_MEMCOMP_STATE) (surface : Option VP_SURFACE) : Bool :=
  match surface with
  | none => false
  | some v =>
    match v.osSurface with
    | none => false
    | some os =>
      !Mos_ResourceIsNull os.OsResource &&
        ReAllocateSurface.surfInfoCheck a compressible compressionMode v os

/-- Lines 796-809 of `ReAllocateSurface`: the allocation parameters, built from
the handle `DestroyVpSurface` left and the (adjusted) request. -/
def ReAllocateSurface.allocParams (a : ReAllocateSurfaceArgs) (compressible : Bool)
    (compressionMode : MOS_MEMCOMP_STATE) (surface : Option VP_SURFACE) :
    MOS_ALLOC_GFXRES_PARAMS :=
  { (AllocParamsInitType MOS_ALLOC_GFXRES_PARAMS.zero surface a.defaultResType
      a.defaultTileType).2 with
    dwWidth := a.width
    dwHeight := a.height
    Format := a.format
    bIsCompressible := compressible
    CompressionMode := compressionMode
    pBufName := a.surfaceName
    dwArraySize := 1
    ResUsageType := a.resUsageType
    m_tileModeByForce := a.tileModeByForce
    dwMemType := a.memType
    bNotLockable := a.isNotLockable
    pSystemMemory := a.systemMemory }

/-- Line 749 of `ReAllocateSurface` calls `m_mmc->IsMmcEnabled()` without
testing `m_mmc`, after the test of `m_allocator` (line 747): with `m_allocator`
present and `m_mmc` null the source dereferences a null pointer. -/
def ReAllocateSurface.dereferencesNull (s : VpAllocator) : Bool :=
  decide (s.m_allocator ≠ 0) && decide (s.m_mmc = 0)

/-- Embeds `VpAllocator::ReAllocateSurface` (`VP_SURFACE` overload) where the
call of line 749 is defined.  The source dereferences `m_mmc` without a test:
where `ReAllocateSurface.dereferencesNull` holds the code returns nothing and
the value given here describes no behaviour of the code. -/
def ReAllocateSurface (env : VpCollaborators) (s : VpAllocator) (surface : Option VP_SURFACE)
    (a : ReAllocateSurfaceArgs) : ReAllocateSurfaceResult :=
  -- allocated = false
  if s.m_allocator = 0 then
    { status := MOS_STATUS_NULL_POINTER, allocator := s, surface := surface, allocated := false }
  else
    let compressible := (ReAllocateSurface.mmcAdjusted env a).1
    let compressionMode := (ReAllocateSurface.mmcAdjusted env a).2
    if ReAllocateSurface.unchanged a compressible compressionMode surface = true then
      { status := MOS_STATUS_SUCCESS, allocator := s, surface := surface, allocated := false }
    else if surface.isSome = true ∧ surface.bind (fun v => v.osSurface) = none then
      { status := MOS_STATUS_INVALID_PARAMETER, allocator := s, surface := surface,
        allocated := false }
    else
      let resFreeFlags := syncFreeFlags env surface
      let d := DestroyVpSurface env s surface a.deferredDestroyed resFreeFlags
      if d.status ≠ MOS_STATUS_SUCCESS then
        { status := d.status, allocator := d.allocator, surface := d.surface, allocated := false }
      else
        let allocParams := ReAllocateSurface.allocParams a compressible compressionMode d.surface
        let n := AllocateVpSurface env d.allocator allocParams a.zeroOnAllocate
          env.defaultColorSpace env.defaultChromaSiting
        match n.1 with
        | none =>
          { status := MOS_STATUS_NULL_POINTER, allocator := n.2, surface := none,
            allocated := false }
        | some v =>
          match v.osSurface with
          | none =>
            { status := MOS_STATUS_NULL_POINTER, allocator := n.2, surface := some v,
              allocated := false }
          | some os =>
            if Mos_ResourceIsNull os.OsResource = true then
              { status := MOS_STATUS_NULL_POINTER, allocator := n.2, surface := some v,
                allocated := false }
            else
              { status := MOS_STATUS_SUCCESS, allocator := n.2, surface := some v,
                allocated := true }

end VpAllocator

/-- A byte buffer: the byte (as a number) at each offset from its start. -/
abbrev Buffer := Nat → Nat

/-- Modelled from the spec: `MOS_SecureMemcpy(pDestination, dstLength, pSource,
srcLength)` is declared in a header outside the sources; the block copy of the
spec's read and write is taken as the bounded memory copy: `srcLength` bytes are
copied when they fit in `dstLength`, otherwise nothing is copied.  The copy
writes `dst` from offset `dstOff` and reads `src` from offset `srcOff`. -/
def MOS_SecureMemcpy (dst : Buffer) (dstOff dstLength : Nat) (src : Buffer)
    (srcOff srcLength : Nat) : Buffer :=
  if srcLength ≤ dstLength then
    fun i => if dstOff ≤ i ∧ i < dstOff + srcLength then src (srcOff + (i - dstOff)) else dst i
  else dst

/-- The pointers `tempSrc` and `tempDst` of the row loops of `ReadSurface` and
`WriteSurface` (as offsets), and the buffer written so far. -/
structure RowCursor where
  tempSrc : Nat
  tempDst : Nat
  written : Buffer

namespace VpAllocator

/-- Embeds `VpAllocator::LockResourceForWrite`. -/
def LockResourceForWrite (env : VpCollaborators) (s : VpAllocator) (resource : MOS_RESOURCE) :
    Ptr × VpAllocator :=
  let lockFlags : MOS_LOCK_PARAMS := { ReadOnly := false, WriteOnly := true, NoOverWrite := false }
  if s.m_allocator = 0 then
    (0, s)
  else
    (env.Lock s.calls resource lockFlags,
      { s with calls := s.calls ++ [VpCall.allocatorLock resource lockFlags] })

/-- Embeds `VpAllocator::LockResourceForRead`. -/
def LockResourceForRead (env : VpCollaborators) (s : VpAllocator) (resource : MOS_RESOURCE) :
    Ptr × VpAllocator :=
  let lockFlags : MOS_LOCK_PARAMS := { ReadOnly := true, WriteOnly := false, NoOverWrite := false }
  if s.m_allocator = 0 then
    (0, s)
  else
    (env.Lock s.calls resource lockFlags,
      { s with calls := s.calls ++ [VpCall.allocatorLock resource lockFlags] })

/-- The size in bytes computed by `ReadSurface` and `WriteSurface`:
`dwWidth * dwHeight * dwDepth * bpp / 8` in `uint32_t` arithmetic. -/
def surfaceSizeInBytes (surface : VPHAL_SURFACE) (bpp : Nat) : Nat :=
  ((((surface.dwWidth * surface.dwHeight) % 2 ^ 32 * surface.dwDepth) % 2 ^ 32 * bpp) % 2 ^ 32) / 8

/-- The row width computed by `ReadSurface` and `WriteSurface`:
`dwWidth * bpp / 8` in `uint32_t` arithmetic. -/
def widthInBytes (surface : VPHAL_SURFACE) (bpp : Nat) : Nat :=
  ((surface.dwWidth * bpp) % 2 ^ 32) / 8

/-- The body of the row loops: copy `widthInBytes` bytes from `tempSrc` to
`tempDst`, then advance `tempSrc` by `srcStep` and `tempDst` by `dstStep`. -/
def copyRow (src : Buffer) (widthInBytes srcStep dstStep : Nat) (c : RowCursor) : RowCursor :=
  { written := MOS_SecureMemcpy c.written c.tempDst widthInBytes src c.tempSrc widthInBytes
    tempSrc := c.tempSrc + srcStep
    tempDst := c.tempDst + dstStep }

/-- The nested loops `for z < dwDepth`, `for y < dwHeight` around `copyRow`,
started with `tempSrc` and `tempDst` at the start of their buffers. -/
def copyRows (src dst : Buffer) (dwDepth dwHeight widthInBytes srcStep dstStep : Nat) : Buffer :=
  (Nat.iterate (Nat.iterate (copyRow src widthInBytes srcStep dstStep) dwHeight) dwDepth
    { tempSrc := 0, tempDst := 0, written := dst }).written

/-- Embeds `VpAllocator::WriteSurface` (`PVPHAL_SURFACE` overload).  `src` is the
caller's buffer and `mem` the memory the lock maps; the result carries the
memory after the call.  The assertions are compiled out of release builds and
are not part of the control flow. -/
def WriteSurface (env : VpCollaborators) (s : VpAllocator) (surface : VPHAL_SURFACE)
    (bpp : Nat) (src : Buffer) (mem : Buffer) : MOS_STATUS × VpAllocator × Buffer :=
  if s.m_allocator = 0 then
    (MOS_STATUS_NULL_POINTER, s, mem)
  else
    let l := LockResourceForWrite env s surface.OsResource
    if l.1 = 0 then
      (MOS_STATUS_NULL_POINTER, l.2, mem)
    else
      let size := surfaceSizeInBytes surface bpp
      let widthInBytes := widthInBytes surface bpp
      let mem1 : Buffer :=
        if surface.dwPitch = widthInBytes then
          MOS_SecureMemcpy mem 0 size src 0 size
        else
          copyRows src mem surface.dwDepth surface.dwHeight widthInBytes widthInBytes
            surface.dwPitch
      let u := env.UnLock l.2.calls surface.OsResource
      let s2 := { l.2 with calls := l.2.calls ++ [VpCall.allocatorUnLock surface.OsResource] }
      if u ≠ MOS_STATUS_SUCCESS then (u, s2, mem1) else (MOS_STATUS_SUCCESS, s2, mem1)

/-- Embeds `VpAllocator::ReadSurface`.  `mem` is the memory the lock maps and
`dst` the caller's buffer; the result carries the caller's buffer after the
call. -/
def ReadSurface (env : VpCollaborators) (s : VpAllocator) (surface : VPHAL_SURFACE)
    (bpp : Nat) (dst : Buffer) (mem : Buffer) : MOS_STATUS × VpAllocator × Buffer :=
  if s.m_allocator = 0 then
    (MOS_STATUS_NULL_POINTER, s, dst)
  else
    let l := LockResourceForRead env s surface.OsResource
    if l.1 = 0 then
      (MOS_STATUS_NULL_POINTER, l.2, dst)
    else
      let size := surfaceSizeInBytes surface bpp
      let widthInBytes := widthInBytes surface bpp
      let dst1 : Buffer :=
        if surface.dwPitch = widthInBytes then
          MOS_SecureMemcpy dst 0 size mem 0 size
        else
          copyRows mem dst surface.dwDepth surface.dwHeight widthInBytes surface.dwPitch
            widthInBytes
      let u := env.UnLock l.2.calls surface.OsResource
      let s2 := { l.2 with calls := l.2.calls ++ [VpCall.allocatorUnLock surface.OsResource] }
      if u ≠ MOS_STATUS_SUCCESS then (u, s2, dst1) else (MOS_STATUS_SUCCESS, s2, dst1)

end VpAllocator

namespace VpAllocator

/-- One iteration of the loop of `CleanRecycler` on an entry already taken off
the list: an immediate `DestroyVpSurface` with the flags computed for the
entry. -/
def destroyEntry (env : VpCollaborators) (s : VpAllocator) (surf : Option VP_SURFACE) :
    VpAllocator :=
  (DestroyVpSurface env s surf false (syncFreeFlags env surf)).allocator

/-- The entries destroyed one after the other, each exactly once, in the order
of the list. -/
def destroyAll (env : VpCollaborators) (entries : List (Option VP_SURFACE)) (s : VpAllocator) :
    VpAllocator :=
  entries.foldl (destroyEntry env) s

/-- The calls `AllocateVpSurface` can make: `MOS_New(VP_SURFACE)`, the
allocation request, and on failure the deletion of the fresh, still zeroed
wrapper and the free of the fresh resource without `SynchronousDestroy`. -/
def isAllocationStep : VpCall → Bool
  | .newVpSurface => true
  | .allocatorAllocateSurface _ _ => true
  | .deleteVpSurface v => decide (v = VP_SURFACE.zero)
  | .allocatorDestroySurface _ flags => !flags.SynchronousDestroy
  | _ => false

end VpAllocator

/-- Embeds `VP_SURFACE::Clean`: a surface that owns its resource is refused;
otherwise the descriptor `osSurface` points to (if any) is zeroed and the
members are reset.  The pointer `osSurface` itself is kept. -/
def VP_SURFACE.Clean (env : VpCollaborators) (v : VP_SURFACE) : MOS_STATUS × VP_SURFACE :=
  if v.isResourceOwner = true then
    (MOS_STATUS_INVALID_PARAMETER, v)
  else
    (MOS_STATUS_SUCCESS,
      { v with
        osSurface := v.osSurface.map (fun _ => MOS_SURFACE.zero)
        isResourceOwner := false
        ColorSpace := env.CSpace_Any
        ChromaSiting := 0
        bQueryVariance := false
        FrameID := 0
        ExtendedGamut := false
        SurfType := env.SURF_NONE
        uFwdRefCount := 0
        uBwdRefCount := 0
        pFwdRef := 0
        pBwdRef := 0
        SampleType := env.SAMPLE_PROGRESSIVE
        Palette := 0
        rcSrc := ⟨0, 0, 0, 0⟩
        rcDst := ⟨0, 0, 0, 0⟩
        rcMaxSrc := ⟨0, 0, 0, 0⟩
        bVEBOXCroppingUsed := false })

namespace VpAllocator

open MOS_FORMAT MOS_TILE_TYPE MOS_MEMCOMP_STATE

/-- Line 258 of `AllocateVpSurface(VPHAL_SURFACE &vphalSurf)` calls
`m_allocator->GetSurfaceInfo` without testing `m_allocator`: when the resource
is non-null, both objects were obtained and `m_allocator` is null, the source
dereferences a null pointer. -/
def AllocateVpSurface_VPHAL_SURFACE.dereferencesNull (env : VpCollaborators) (s : VpAllocator)
    (vphalSurf : VPHAL_SURFACE) : Bool :=
  !Mos_ResourceIsNull vphalSurf.OsResource && env.MOS_New_VP_SURFACE s.calls &&
    env.MOS_New_MOS_SURFACE (s.calls ++ [VpCall.newVpSurface]) && decide (s.m_allocator = 0)

/-- Embeds `VpAllocator::AllocateVpSurface(VPHAL_SURFACE &vphalSurf)`: a surface
that reuses the resource of `vphalSurf`, where the call of line 258 is defined.
The source dereferences `m_allocator` without a test: where
`AllocateVpSurface_VPHAL_SURFACE.dereferencesNull` holds the code returns
nothing and the value given here describes no behaviour of the code.  A deleted
wrapper is logged with the descriptor it points to. -/
def AllocateVpSurface_VPHAL_SURFACE (env : VpCollaborators) (s : VpAllocator)
    (vphalSurf : VPHAL_SURFACE) : Option VP_SURFACE × VpAllocator :=
  if Mos_ResourceIsNull vphalSurf.OsResource = true then
    (none, s)
  else
    let s1 := { s with calls := s.calls ++ [VpCall.newVpSurface] }
    if env.MOS_New_VP_SURFACE s.calls = false then
      (none, s1)
    else
      let s2 := { s1 with calls := s1.calls ++ [VpCall.newMosSurface] }
      if env.MOS_New_MOS_SURFACE s1.calls = false then
        (none, { s2 with calls := s2.calls ++
          [VpCall.deleteVpSurface { env.newVpSurfaceValue with osSurface := none }] })
      else
        let surf0 : VP_SURFACE :=
          { env.newVpSurfaceValue with
            osSurface := some env.newMosSurfaceValue, isResourceOwner := false }
        let surf1 := (VP_SURFACE.Clean env surf0).2
        -- Initialize the mos surface in vp surface structure.
        let os0 : MOS_SURFACE :=
          { MOS_SURFACE.zero with Format := vphalSurf.Format, OsResource := vphalSurf.OsResource }
        let g := env.GetSurfaceInfo s2.calls os0
        let s3 := { s2 with calls := s2.calls ++ [VpCall.allocatorGetSurfaceInfo os0] }
        if MOS_FAILED g.1 then
          (none, { s3 with calls := s3.calls ++
            [VpCall.deleteMosSurface g.2,
             VpCall.deleteVpSurface { surf1 with osSurface := some g.2 }] })
        else
          -- Align the format with vphal surface.
          let os1 : MOS_SURFACE := { g.2 with Format := vphalSurf.Format }
          let surf2 : VP_SURFACE :=
            { surf1 with
              osSurface := some os1
              ColorSpace := vphalSurf.ColorSpace
              ExtendedGamut := vphalSurf.ExtendedGamut
              Palette := vphalSurf.Palette
              bQueryVariance := vphalSurf.bQueryVariance
              FrameID := vphalSurf.FrameID
              uFwdRefCount := vphalSurf.uFwdRefCount
              uBwdRefCount := vphalSurf.uBwdRefCount
              pFwdRef := vphalSurf.pFwdRef
              pBwdRef := vphalSurf.pBwdRef
              SurfType := vphalSurf.SurfType
              SampleType := vphalSurf.SampleType
              ChromaSiting := vphalSurf.ChromaSiting
              rcSrc := vphalSurf.rcSrc
              rcDst := vphalSurf.rcDst
              rcMaxSrc := vphalSurf.rcMaxSrc }
          let m := SetMmcFlags env s3 os1
          if MOS_FAILED m.1 then
            (none, (DestroyVpSurface env s3 (some { surf2 with osSurface := some m.2 })
              env.defaultDeferredDestroyed env.defaultFreeFlags).allocator)
          else
            (some { surf2 with osSurface := some m.2 }, s3)

/-- Embeds `VpAllocator::AllocateVpSurface(VP_SURFACE &vpSurfSrc)`: a surface
that reuses the resource of `vpSurfSrc`. -/
def AllocateVpSurface_VP_SURFACE (env : VpCollaborators) (s : VpAllocator)
    (vpSurfSrc : VP_SURFACE) : Option VP_SURFACE × VpAllocator :=
  match vpSurfSrc.osSurface with
  | none => (none, s)
  | some srcOs =>
    if Mos_ResourceIsNull srcOs.OsResource = true then
      (none, s)
    else
      let s1 := { s with calls := s.calls ++ [VpCall.newVpSurface] }
      if env.MOS_New_VP_SURFACE s.calls = false then
        (none, s1)
      else
        let s2 := { s1 with calls := s1.calls ++ [VpCall.newMosSurface] }
        if env.MOS_New_MOS_SURFACE s1.calls = false then
          (none, { s2 with calls := s2.calls ++ [VpCall.deleteVpSurface env.newVpSurfaceValue] })
        else
          -- *osSurface = *vpSurfSrc.osSurface; *surf = vpSurfSrc;
          (some { vpSurfSrc with osSurface := some srcOs, isResourceOwner := false }, s2)

/-- Embeds `VpAllocator::AllocateVpSurface(MOS_SURFACE &osSurf, VPHAL_CSPACE
colorSpace, uint32_t chromaSiting, RECT rcSrc, RECT rcDst, VPHAL_SURFACE_TYPE
SurfType, bool updatePlaneOffset)`: a surface that reuses the resource of
`osSurf`. -/
def AllocateVpSurface_MOS_SURFACE (env : VpCollaborators) (s : VpAllocator)
    (osSurf : MOS_SURFACE) (colorSpace : Int) (chromaSiting : Nat) (rcSrc rcDst : RECT)
    (SurfType : Int) (updatePlaneOffset : Bool) : Option VP_SURFACE × VpAllocator :=
  if Mos_ResourceIsNull osSurf.OsResource = true then
    (none, s)
  else
    let s1 := { s with calls := s.calls ++ [VpCall.newVpSurface] }
    if env.MOS_New_VP_SURFACE s.calls = false then
      (none, s1)
    else
      let s2 := { s1 with calls := s1.calls ++ [VpCall.newMosSurface] }
      if env.MOS_New_MOS_SURFACE s1.calls = false then
        (none, { s2 with calls := s2.calls ++ [VpCall.deleteVpSurface env.newVpSurfaceValue] })
      else
        let osSurface : MOS_SURFACE :=
          if updatePlaneOffset = true then UpdateSurfacePlaneOffset env osSurf else osSurf
        (some { VP_SURFACE.zero with
                osSurface := some osSurface
                isResourceOwner := false
                ColorSpace := colorSpace
                ChromaSiting := chromaSiting
                rcSrc := rcSrc
                rcDst := rcDst
                rcMaxSrc := rcSrc
                SurfType := SurfType
                SampleType := env.SAMPLE_PROGRESSIVE }, s2)

/-- Embeds `VpAllocator::AllocateVpSurface()`: an empty surface, without a
resource. -/
def AllocateVpSurface_empty (env : VpCollaborators) (s : VpAllocator) :
    Option VP_SURFACE × VpAllocator :=
  let s1 := { s with calls := s.calls ++ [VpCall.newVpSurface] }
  if env.MOS_New_VP_SURFACE s.calls = false then
    (none, s1)
  else
    let s2 := { s1 with calls := s1.calls ++ [VpCall.newMosSurface] }
    if env.MOS_New_MOS_SURFACE s1.calls = false then
      (none, { s2 with calls := s2.calls ++ [VpCall.deleteVpSurface env.newVpSurfaceValue] })
    else
      let surf0 : VP_SURFACE :=
        { env.newVpSurfaceValue with
          osSurface := some env.newMosSurfaceValue, isResourceOwner := false }
      (some (VP_SURFACE.Clean env surf0).2, s2)

/-- Embeds `VpAllocator::CopyVpSurface(VP_SURFACE &dst, VP_SURFACE &src)`; the
result carries `dst` after the call.  The descriptor `dst.osSurface` points to
is overwritten with the descriptor of `src`, and `dst.osSurface` is set back to
that same object after `dst = src`. -/
def CopyVpSurface (dst src : VP_SURFACE) : MOS_STATUS × VP_SURFACE :=
  match dst.osSurface, src.osSurface with
  | some _, some srcOs =>
    if dst.isResourceOwner = true then
      (MOS_STATUS_INVALID_PARAMETER, dst)
    else
      (MOS_STATUS_SUCCESS, { src with osSurface := some srcOs, isResourceOwner := false })
  | _, _ => (MOS_STATUS_INVALID_PARAMETER, dst)

/-- The surfaces obtained from the allocator: those one of the five
`AllocateVpSurface` overloads returns, and those a successful `CopyVpSurface`
leaves in a destination that was itself obtained from the allocator. -/
inductive ObtainedFromAllocator (env : VpCollaborators) : VP_SURFACE → Prop
  | ofParams (s : VpAllocator) (param : MOS_ALLOC_GFXRES_PARAMS) (zeroOnAllocate : Bool)
      (ColorSpace : Int) (ChromaSiting : Nat) (v : VP_SURFACE) :
      (AllocateVpSurface env s param zeroOnAllocate ColorSpace ChromaSiting).1 = some v →
      ObtainedFromAllocator env v
  | ofVphalSurface (s : VpAllocator) (vphalSurf : VPHAL_SURFACE) (v : VP_SURFACE) :
      (AllocateVpSurface_VPHAL_SURFACE env s vphalSurf).1 = some v →
      ObtainedFromAllocator env v
  | ofVpSurface (s : VpAllocator) (vpSurfSrc : VP_SURFACE) (v : VP_SURFACE) :
      (AllocateVpSurface_VP_SURFACE env s vpSurfSrc).1 = some v →
      ObtainedFromAllocator env v
  | ofMosSurface (s : VpAllocator) (osSurf : MOS_SURFACE) (colorSpace : Int)
      (chromaSiting : Nat) (rcSrc rcDst : RECT) (SurfType : Int) (updatePlaneOffset : Bool)
      (v : VP_SURFACE) :
      (AllocateVpSurface_MOS_SURFACE env s osSurf colorSpace chromaSiting rcSrc rcDst SurfType
        updatePlaneOffset).1 = some v →
      ObtainedFromAllocator env v
  | empty (s : VpAllocator) (v : VP_SURFACE) :
      (AllocateVpSurface_empty env s).1 = some v → ObtainedFromAllocator env v
  | copy (dst src : VP_SURFACE) :
      ObtainedFromAllocator env dst → (CopyVpSurface dst src).1 = MOS_STATUS_SUCCESS →
      ObtainedFromAllocator env (CopyVpSurface dst src).2

end VpAllocator

/-! ## MosInterfaceGpuWrapper -/

/-- Modelled from the spec: `GpuWrapperComponentFuncType` is declared in
`mos_interface_gpu_wrapper_defs.h`, which is absent.  The six enumerators are
those `mos_interface_gpu_wrapper.cpp` names; `other raw` stands for every
further value of the enumeration type. -/
inductive GpuWrapperComponentFuncType
  | GPU_WRAPPER_FUNC_TYPE_DECODE
  | GPU_WRAPPER_FUNC_TYPE_ENCODE
  | GPU_WRAPPER_FUNC_TYPE_VP_COMPUTE
  | GPU_WRAPPER_FUNC_TYPE_VP_VEBOX
  | GPU_WRAPPER_FUNC_TYPE_RENDER
  | GPU_WRAPPER_FUNC_TYPE_INVALID
  | other (raw : Nat)
  deriving DecidableEq

/-- A call made by `MosInterfaceGpuWrapper` through a function pointer of its
`MOS_INTERFACE`. -/
inductive OsInterfaceCall
  | pfnCreateGpuContext (mosCtxEnum : MOS_GPU_CONTEXT) (gpuNode : MOS_GPU_NODE)
      (createOptions : Ptr)
  | pfnSetGpuContext (mosCtxEnum : MOS_GPU_CONTEXT)
  | pfnDestroyGpuContext (mosCtxEnum : MOS_GPU_CONTEXT)
  deriving DecidableEq

/-- The function pointers of `MOS_INTERFACE` the wrapper uses; `none` is a null
function pointer.  Each answer may depend on the calls made so far. -/
structure MOS_INTERFACE where
  pfnCreateGpuContext :
    Option (List OsInterfaceCall → MOS_GPU_CONTEXT → MOS_GPU_NODE → Ptr → MOS_STATUS)
  pfnSetGpuContext : Option (List OsInterfaceCall → MOS_GPU_CONTEXT → MOS_STATUS)
  pfnDestroyGpuContext : Option (List OsInterfaceCall → MOS_GPU_CONTEXT → MOS_STATUS)

/-- The members of `MosInterfaceGpuWrapper`, and the log of calls made through
the OS interface. -/
structure MosInterfaceGpuWrapper where
  m_osInterface : Ptr
  m_contextMap : List (GpuWrapperComponentFuncType × MOS_GPU_CONTEXT)
  m_currentComponentFuncType : GpuWrapperComponentFuncType
  calls : List OsInterfaceCall
  deriving DecidableEq

namespace MosInterfaceGpuWrapper

open GpuWrapperComponentFuncType MOS_GPU_CONTEXT MOS_GPU_NODE

/-- The constructor: the map is empty and no function type is current. -/
def construct (osInterface : Ptr) : MosInterfaceGpuWrapper :=
  { m_osInterface := osInterface
    m_contextMap := []
    m_currentComponentFuncType := GPU_WRAPPER_FUNC_TYPE_INVALID
    calls := [] }

/-- The switch of `CreateGpuContext` (lines 52-79): the context type and the
engine node of a function type, `none` where the switch returns
`MOS_STATUS_INVALID_PARAMETER`. -/
def funcTypeSwitch : GpuWrapperComponentFuncType → Option (MOS_GPU_CONTEXT × MOS_GPU_NODE)
  | GPU_WRAPPER_FUNC_TYPE_DECODE => some (MOS_GPU_CONTEXT_VIDEO_DECODE, MOS_GPU_NODE_VIDEO)
  | GPU_WRAPPER_FUNC_TYPE_ENCODE => some (MOS_GPU_CONTEXT_VDBOX2_VIDEO3, MOS_GPU_NODE_VIDEO)
  | GPU_WRAPPER_FUNC_TYPE_VP_COMPUTE => some (MOS_GPU_CONTEXT_COMPUTE, MOS_GPU_NODE_COMPUTE)
  | GPU_WRAPPER_FUNC_TYPE_VP_VEBOX => some (MOS_GPU_CONTEXT_VEBOX, MOS_GPU_NODE_VIDEO)
  | GPU_WRAPPER_FUNC_TYPE_RENDER => some (MOS_GPU_CONTEXT_RENDER, MOS_GPU_NODE_RENDER)
  | GPU_WRAPPER_FUNC_TYPE_INVALID => none
  | other _ => none

/-- Embeds `MosInterfaceGpuWrapper::CreateGpuContext`; `osInterface` is the
object `m_osInterface` points to. -/
def CreateGpuContext (osInterface : MOS_INTERFACE) (s : MosInterfaceGpuWrapper)
    (funcType : GpuWrapperComponentFuncType) : MOS_STATUS × MosInterfaceGpuWrapper :=
  if s.m_osInterface = 0 then
    (MOS_STATUS_NULL_POINTER, s)
  else
    match osInterface.pfnCreateGpuContext with
    | none => (MOS_STATUS_NULL_POINTER, s)
    | some pfnCreateGpuContext =>
      match funcTypeSwitch funcType with
      | none => (MOS_STATUS_INVALID_PARAMETER, s)
      | some (mosCtxEnum, gpuNode) =>
        if mosCtxEnum = MOS_GPU_CONTEXT_INVALID_HANDLE ∨ gpuNode = MOS_GPU_NODE_INVALID then
          (MOS_STATUS_INVALID_PARAMETER, s)
        else
          let createOptions : Ptr := 0
          let status := pfnCreateGpuContext s.calls mosCtxEnum gpuNode createOptions
          let s1 := { s with calls := s.calls ++
            [OsInterfaceCall.pfnCreateGpuContext mosCtxEnum gpuNode createOptions] }
          if status ≠ MOS_STATUS_SUCCESS then
            (status, s1)
          else
            (MOS_STATUS_SUCCESS,
              { s1 with m_contextMap := mapAssign s1.m_contextMap funcType mosCtxEnum })

/-- Embeds `MosInterfaceGpuWrapper::SetGpuContext`. -/
def SetGpuContext (osInterface : MOS_INTERFACE) (s : MosInterfaceGpuWrapper)
    (funcType : GpuWrapperComponentFuncType) : MOS_STATUS × MosInterfaceGpuWrapper :=
  if s.m_osInterface = 0 then
    (MOS_STATUS_NULL_POINTER, s)
  else
    match osInterface.pfnSetGpuContext with
    | none => (MOS_STATUS_NULL_POINTER, s)
    | some pfnSetGpuContext =>
      match mapFind s.m_contextMap funcType with
      | none => (MOS_STATUS_INVALID_HANDLE, s)
      | some mosCtxEnum =>
        let status := pfnSetGpuContext s.calls mosCtxEnum
        let s1 := { s with calls := s.calls ++ [OsInterfaceCall.pfnSetGpuContext mosCtxEnum] }
        if status ≠ MOS_STATUS_SUCCESS then
          (status, s1)
        else
          (MOS_STATUS_SUCCESS, { s1 with m_currentComponentFuncType := funcType })

/-- Embeds `MosInterfaceGpuWrapper::DestroyGpuContext`. -/
def DestroyGpuContext (osInterface : MOS_INTERFACE) (s : MosInterfaceGpuWrapper)
    (funcType : GpuWrapperComponentFuncType) : MOS_STATUS × MosInterfaceGpuWrapper :=
  if s.m_osInterface = 0 then
    (MOS_STATUS_NULL_POINTER, s)
  else
    match osInterface.pfnDestroyGpuContext with
    | none => (MOS_STATUS_NULL_POINTER, s)
    | some pfnDestroyGpuContext =>
      match mapFind s.m_contextMap funcType with
      | none => (MOS_STATUS_SUCCESS, s) -- Not a hard error for this wrapper
      | some mosCtxEnum =>
        let status := pfnDestroyGpuContext s.calls mosCtxEnum
        let s1 := { s with calls := s.calls ++ [OsInterfaceCall.pfnDestroyGpuContext mosCtxEnum] }
        if MOS_FAILED status then
          (status, s1)
        else
          let s2 := { s1 with m_contextMap := mapErase s1.m_contextMap funcType }
          if s2.m_currentComponentFuncType = funcType then
            (MOS_STATUS_SUCCESS,
              { s2 with m_currentComponentFuncType := GPU_WRAPPER_FUNC_TYPE_INVALID })
          else
            (MOS_STATUS_SUCCESS, s2)

end MosInterfaceGpuWrapper

/-! ## Concrete collaborators and states used to instantiate the theorems -/

namespace Examples

open GpuCtxMgrWrapper GpuCtxMgrComponentFuncType

/-- An engine manager that hands out fresh non-null contexts, and hardware
contexts that accept every request. -/
def gpuEnv : GpuCollaborators :=
  { GetCmdBufMgr := fun _ _ => 7
    CreateGpuContext := fun log _ _ _ => 100 + log.length
    VerifyCommandBufferSize := fun _ _ _ => MOS_STATUS_SUCCESS
    VerifyPatchListSize := fun _ _ _ => MOS_STATUS_SUCCESS
    GetCommandBuffer := fun _ _ _ _ => MOS_STATUS_SUCCESS
    SubmitCommandBuffer := fun _ _ _ _ _ => MOS_STATUS_SUCCESS }

/-- A wrapper built over engine manager `1` and OS context `2`. -/
def freshWrapper : GpuCtxMgrWrapper := construct 1 2

/-- A wrapper built without an engine manager. -/
def wrapperWithoutMgr : GpuCtxMgrWrapper := construct 0 2

/-- The wrapper after a decode context was created. -/
def wrapperWithDecode : GpuCtxMgrWrapper :=
  run gpuEnv freshWrapper [WrapperCall.createGpuContext GPU_CTX_MGR_FUNC_TYPE_DECODE]

/-- The wrapper after a decode context was created and made current. -/
def wrapperDecodeCurrent : GpuCtxMgrWrapper :=
  run gpuEnv freshWrapper
    [WrapperCall.createGpuContext GPU_CTX_MGR_FUNC_TYPE_DECODE,
     WrapperCall.setGpuContext GPU_CTX_MGR_FUNC_TYPE_DECODE]

/-- Copy collaborators for which every check passes and every copy succeeds;
resource `1` carries the content-protection tag, every other resource is
clear. -/
def copyEnv : CopyCollaborators :=
  { pfnGetResourceInfo := fun _ _ =>
      (MOS_STATUS_SUCCESS, { CompressionMode := MOS_MEMCOMP_STATE.MOS_MMC_DISABLED, TileType := 0 })
    GetSetCpSurfTag := fun res => if res = 1 then 1 else 0
    FeatureSupport := fun _ _ _ _ caps => (MOS_STATUS_SUCCESS, caps)
    IsVeboxCopySupported := fun _ _ => true
    RenderFormatSupportCheck := fun _ _ => true
    MediaVeboxCopy := fun _ _ _ => MOS_STATUS_SUCCESS
    MediaBltCopy := fun _ _ _ => MOS_STATUS_SUCCESS
    MediaRenderCopy := fun _ _ _ => MOS_STATUS_SUCCESS }

/-- As `copyEnv`, but the derived-class `FeatureSupport` reports that the copy
is not implemented. -/
def copyEnvFeatureFails : CopyCollaborators :=
  { copyEnv with FeatureSupport := fun _ _ _ _ caps => (MOS_STATUS_UNIMPLEMENTED, caps) }

/-- As `copyEnv`, but neither vebox nor render supports the format pair and
every resource is media-compressed. -/
def copyEnvNoEngine : CopyCollaborators :=
  { copyEnv with
    pfnGetResourceInfo := fun _ _ =>
      (MOS_STATUS_SUCCESS, { CompressionMode := MOS_MEMCOMP_STATE.MOS_MMC_MC, TileType := 0 })
    IsVeboxCopySupported := fun _ _ => false
    RenderFormatSupportCheck := fun _ _ => false }

/-- A copy state with the given capability bits, blit selected, and
cross-protection blit copy not allowed. -/
def copyState (vebox blt render : Bool) : MediaCopyBaseState :=
  { m_mcpySrc := { OsRes := 0, CompressionMode := MOS_MEMCOMP_STATE.MOS_MMC_DISABLED,
                   TileMode := 0, CpMode := MCPY_CPMODE.MCPY_CPMODE_CLEAR, bAuxSuface := false }
    m_mcpyDst := { OsRes := 0, CompressionMode := MOS_MEMCOMP_STATE.MOS_MMC_DISABLED,
                   TileMode := 0, CpMode := MCPY_CPMODE.MCPY_CPMODE_CLEAR, bAuxSuface := false }
    m_mcpyEngineCaps := { engineVebox := vebox, engineBlt := blt, engineRender := render }
    m_mcpyEngine := MCPY_ENGINE.MCPY_ENGINE_BLT
    m_allowCPBltCopy := false
    m_inUseGPUMutex := 11
    calls := [] }

/-- As `gpuEnv`, but the engine manager returns no context. -/
def gpuEnvCreateFails : GpuCollaborators :=
  { gpuEnv with CreateGpuContext := fun _ _ _ _ => 0 }

/-- As `gpuEnv`, but the OS context has no command-buffer manager. -/
def gpuEnvNoCmdBufMgr : GpuCollaborators :=
  { gpuEnv with GetCmdBufMgr := fun _ _ => 0 }

/-- The surface an `Allocator` hands out for the given parameters: it has a
non-null resource and reflects the request. -/
def osSurfaceOf (param : MOS_ALLOC_GFXRES_PARAMS) : MOS_SURFACE :=
  { OsResource := { handle := 1, isNull := false, pGmmResInfo := 5 }
    Format := param.Format
    dwWidth := param.dwWidth
    dwHeight := param.dwHeight
    dwDepth := 1
    dwPitch := param.dwWidth
    Type_ := param.Type_
    TileType := param.TileType
    bCompressible := if param.bIsCompressible then 1 else 0
    bIsCompressed := 0
    CompressionMode := param.CompressionMode
    CompressionFormat := 0
    dwOffset := 0
    YPlaneOffset := ⟨0, 0, 0, 0⟩
    UPlaneOffset := ⟨0, 0, 0, 0⟩
    VPlaneOffset := ⟨0, 0, 0, 0⟩
    RenderOffset := ⟨⟨0, 0, 0⟩, ⟨⟨0, 0, 0⟩, ⟨0, 0, 0⟩, ⟨0, 0, 0⟩⟩⟩
    LockOffset := ⟨⟨0, 0, 0⟩⟩ }

/-- Collaborators that always succeed, with MMC enabled; a surface needs a
synchronous free when its compression mode is not `MOS_MMC_DISABLED`. -/
def vpEnv : VpCollaborators :=
  { MOS_New_VP_SURFACE := fun _ => true
    MOS_New_MOS_SURFACE := fun _ => true
    AllocateSurface := fun _ param _ => some (osSurfaceOf param)
    DestroySurface := fun _ _ _ => MOS_STATUS_SUCCESS
    isSyncFreeNeededForMMCSurface := fun os =>
      decide (os.CompressionMode ≠ MOS_MEMCOMP_STATE.MOS_MMC_DISABLED)
    Lock := fun _ _ _ => 1000
    UnLock := fun _ _ => MOS_STATUS_SUCCESS
    IsMmcEnabled := true
    IsCompressibelSurfaceSupported := true
    SetSurfaceMmcMode := fun os => os
    GetSurfaceMmcFormat := fun _ => 3
    IS_RGB32_FORMAT := fun _ => false
    IS_RGB16_FORMAT := fun _ => false
    IS_RGB64_FORMAT := fun _ => false
    SAMPLE_PROGRESSIVE := 0
    defaultColorSpace := 0
    defaultChromaSiting := 0
    GetSurfaceInfo := fun _ os =>
      (MOS_STATUS_SUCCESS, { os with dwWidth := 1920, dwHeight := 1080, dwPitch := 2048 })
    newVpSurfaceValue := VP_SURFACE.zero
    newMosSurfaceValue := MOS_SURFACE.zero
    CSpace_Any := 0
    SURF_NONE := 0
    defaultDeferredDestroyed := false
    defaultFreeFlags := { SynchronousDestroy := false } }

/-- As `vpEnv`, but with MMC disabled. -/
def vpEnvNoMmc : VpCollaborators :=
  { vpEnv with IsMmcEnabled := false }

/-- An allocator with its underlying `Allocator` and `MediaMemComp`, an empty
recycle list and no call made yet. -/
def vpAllocator : VpAllocator :=
  { m_allocator := 1, m_mmc := 2, m_recycler := [], calls := [] }

/-- An allocator whose constructor obtained no underlying `Allocator`. -/
def vpAllocatorWithoutAllocator : VpAllocator :=
  { m_allocator := 0, m_mmc := 2, m_recycler := [], calls := [] }

/-- A request for an NV12 surface of the given width and height 1080, not
compressible, tile type Y. -/
def nv12Args (width : Nat) (deferredDestroyed : Bool) : ReAllocateSurfaceArgs :=
  { surfaceName := 0, format := MOS_FORMAT.Format_NV12, defaultResType := 2,
    defaultTileType := MOS_TILE_TYPE.MOS_TILE_Y, width := width, height := 1080,
    compressible := false, compressionMode := MOS_MEMCOMP_STATE.MOS_MMC_DISABLED,
    zeroOnAllocate := false, deferredDestroyed := deferredDestroyed, resUsageType := 0,
    tileModeByForce := 0, memType := 0, isNotLockable := false, systemMemory := 0 }

/-- A request for a media-compressed NV12 surface of the given width. -/
def compressedArgs (width : Nat) (deferredDestroyed : Bool) : ReAllocateSurfaceArgs :=
  { nv12Args width deferredDestroyed with
    compressible := true, compressionMode := MOS_MEMCOMP_STATE.MOS_MMC_MC }

/-- The descriptor of an NV12 surface, 1920 by 1080, that reflects
`nv12Args 1920`. -/
def nv12OsSurface : MOS_SURFACE :=
  osSurfaceOf (VpAllocator.ReAllocateSurface.allocParams (nv12Args 1920 false) false
    MOS_MEMCOMP_STATE.MOS_MMC_DISABLED none)

/-- A surface that owns the resource of `nv12OsSurface`. -/
def ownerSurface : VP_SURFACE :=
  { VP_SURFACE.zero with osSurface := some nv12OsSurface, isResourceOwner := true }

/-- A surface that shares the resource of `nv12OsSurface` without owning it. -/
def viewSurface : VP_SURFACE :=
  { VP_SURFACE.zero with osSurface := some nv12OsSurface, isResourceOwner := false }

/-- The descriptor of a media-compressed surface, which needs a synchronous
free under `vpEnv`. -/
def compressedOsSurface : MOS_SURFACE :=
  { nv12OsSurface with CompressionMode := MOS_MEMCOMP_STATE.MOS_MMC_MC, bCompressible := 1,
                       bIsCompressed := 1 }

/-- A surface that owns the resource of `compressedOsSurface`. -/
def compressedSurface : VP_SURFACE :=
  { VP_SURFACE.zero with osSurface := some compressedOsSurface, isResourceOwner := true }

/-- An image surface of 2 by 2 pixels, one slice, with pitch 4. -/
def paddedSurface : VPHAL_SURFACE :=
  { OsResource := { handle := 1, isNull := false, pGmmResInfo := 5 }
    dwWidth := 2, dwHeight := 2, dwDepth := 1, dwPitch := 4
    Format := MOS_FORMAT.other 0, ColorSpace := 0, ExtendedGamut := false, Palette := 0,
    bQueryVariance := false, FrameID := 0, uFwdRefCount := 0, uBwdRefCount := 0,
    pFwdRef := 0, pBwdRef := 0, SurfType := 0, SampleType := 0, ChromaSiting := 0,
    rcSrc := ⟨0, 0, 2, 2⟩, rcDst := ⟨0, 0, 2, 2⟩, rcMaxSrc := ⟨0, 0, 2, 2⟩ }

/-- An image surface of 2 by 2 pixels, one slice, with pitch 2. -/
def packedSurface : VPHAL_SURFACE :=
  { paddedSurface with dwPitch := 2 }

/-- As `gpuEnv`, but the hardware context refuses a command buffer above 4096
bytes and a patch list above 64 entries. -/
def gpuEnvLimited : GpuCollaborators :=
  { gpuEnv with
    VerifyCommandBufferSize := fun _ _ size =>
      if size ≤ 4096 then MOS_STATUS_SUCCESS else MOS_STATUS_UNKNOWN
    VerifyPatchListSize := fun _ _ size =>
      if size ≤ 64 then MOS_STATUS_SUCCESS else MOS_STATUS_INVALID_PARAMETER }

/-- An OS interface with all three function pointers, which accepts every
request but the creation of a context it has created before. -/
def osInterface : MOS_INTERFACE :=
  { pfnCreateGpuContext := some (fun log mosCtxEnum gpuNode createOptions =>
      if OsInterfaceCall.pfnCreateGpuContext mosCtxEnum gpuNode createOptions ∈ log then
        MOS_STATUS_UNKNOWN
      else MOS_STATUS_SUCCESS)
    pfnSetGpuContext := some (fun _ _ => MOS_STATUS_SUCCESS)
    pfnDestroyGpuContext := some (fun _ _ => MOS_STATUS_SUCCESS) }

/-- As `copyEnv`, but the derived-class `FeatureSupport` clears all three
capability bits and reports that the copy is not implemented. -/
def copyEnvFeatureClears : CopyCollaborators :=
  { copyEnv with
    FeatureSupport := fun _ _ _ _ _ =>
      (MOS_STATUS_UNIMPLEMENTED,
        { engineVebox := false, engineBlt := false, engineRender := false }) }

/-- The empty surface `AllocateVpSurface()` returns on the allocator that has
no underlying `Allocator`. -/
def emptySurface : VP_SURFACE :=
  ((VpAllocator.AllocateVpSurface_empty vpEnv vpAllocatorWithoutAllocator).1.getD
    VP_SURFACE.zero)

/-- The allocator without an underlying `Allocator` after `AllocateVpSurface()`
and a deferred `DestroyVpSurface` of the surface obtained: the recycle list
holds that surface. -/
def vpAllocatorWithoutAllocatorQueued : VpAllocator :=
  (VpAllocator.DestroyVpSurface vpEnv
    (VpAllocator.AllocateVpSurface_empty vpEnv vpAllocatorWithoutAllocator).2
    (some emptySurface) true { SynchronousDestroy := false }).allocator

/-- As `osInterface`, but every creation is accepted. -/
def osInterfaceLenient : MOS_INTERFACE :=
  { osInterface with pfnCreateGpuContext := some (fun _ _ _ _ => MOS_STATUS_SUCCESS) }

/-- A driver-interface-backed wrapper built over OS interface `3`. -/
def interfaceWrapper : MosInterfaceGpuWrapper := MosInterfaceGpuWrapper.construct 3

/-- The driver-interface-backed wrapper after a decode context was created. -/
def interfaceWrapperWithDecode : MosInterfaceGpuWrapper :=
  (MosInterfaceGpuWrapper.CreateGpuContext osInterface interfaceWrapper
    GpuWrapperComponentFuncType.GPU_WRAPPER_FUNC_TYPE_DECODE).2

end Examples

/-! ## Theorems -/

section MapLemmas

variable {K V : Type} [DecidableEq K]

theorem mapFind_mapErase_self (m : List (K × V)) (k : K) :
    mapFind (mapErase m k) k = none := by
  induction m with
  | nil => rfl
  | cons p rest ih =>
    obtain ⟨k', v⟩ := p
    by_cases h : k' = k
    · simpa [mapErase, List.filter_cons, h] using ih
    · simpa [mapErase, List.filter_cons, h, mapFind] using ih

theorem mapFind_mapErase_ne (m : List (K × V)) (k k' : K) (hne : k' ≠ k) :
    mapFind (mapErase m k) k' = mapFind m k' := by
  induction m with
  | nil => rfl
  | cons p rest ih =>
    obtain ⟨k0, v⟩ := p
    by_cases h : k0 = k
    · subst h
      have h0 : ¬ k0 = k' := fun e => hne e.symm
      simpa [mapErase, List.filter_cons, mapFind, h0] using ih
    · by_cases h1 : k0 = k'
      · subst h1
        simp [mapErase, List.filter_cons, h, mapFind]
      · simpa [mapErase, List.filter_cons, h, mapFind, h1] using ih

theorem mapFind_mapAssign_self (m : List (K × V)) (k : K) (v : V) :
    mapFind (mapAssign m k v) k = some v := by
  simp [mapAssign, mapFind]

theorem mapFind_mapAssign_ne (m : List (K × V)) (k k' : K) (v : V) (hne : k' ≠ k) :
    mapFind (mapAssign m k v) k' = mapFind m k' := by
  have h : ¬ k = k' := fun e => hne e.symm
  simp [mapAssign, mapFind, h, mapFind_mapErase_ne m k k' hne]

theorem mapCount_of_find {m : List (K × V)} {k : K} {v : V} (h : mapFind m k = some v) :
    mapCount m k ≠ 0 := by
  simp [mapCount, h]

theorem mapCount_of_find_none {m : List (K × V)} {k : K} (h : mapFind m k = none) :
    mapCount m k = 0 := by
  simp [mapCount, h]

theorem mapFind_of_mapErase {m : List (K × V)} {k k' : K} {v : V}
    (h : mapFind (mapErase m k) k' = some v) : mapFind m k' = some v := by
  by_cases e : k' = k
  · subst e
    rw [mapFind_mapErase_self] at h
    cases h
  · rwa [mapFind_mapErase_ne m k k' e] at h

end MapLemmas

namespace GpuCtxMgrWrapper

open GpuCtxMgrComponentFuncType

/-- C1: `CreateGpuContext` is idempotent.  When `t` already has a pool entry the
call returns `MOS_STATUS_SUCCESS` and the whole state (pool, current context,
log of collaborator calls) is unchanged; and after a successful
`CreateGpuContext t` a second `CreateGpuContext t` succeeds and changes
nothing. -/
theorem CreateGpuContext_idempotent (env : GpuCollaborators) (s : GpuCtxMgrWrapper)
    (t : GpuCtxMgrComponentFuncType) :
    (∀ c, mapFind s.m_contextPool t = some c →
      CreateGpuContext env s t = (MOS_STATUS_SUCCESS, s)) ∧
    (∀ s1, CreateGpuContext env s t = (MOS_STATUS_SUCCESS, s1) →
      CreateGpuContext env s1 t = (MOS_STATUS_SUCCESS, s1)) := by
  have first : ∀ (s : GpuCtxMgrWrapper) c, mapFind s.m_contextPool t = some c →
      CreateGpuContext env s t = (MOS_STATUS_SUCCESS, s) := by
    intro s c hc
    simp [CreateGpuContext, mapCount_of_find hc]
  refine ⟨first s, ?_⟩
  intro s1 h
  cases hfind : mapFind s.m_contextPool t with
  | some c =>
    rw [first s c hfind] at h
    cases h
    exact first s c hfind
  | none =>
    have hcount := mapCount_of_find_none hfind
    unfold CreateGpuContext at h
    simp only [hcount, ne_eq, not_true_eq_false, if_false] at h
    split at h
    · cases h
    · split_ifs at h
      all_goals first
        | (cases h; done)
        | (cases h
           exact first _ _ (mapFind_mapAssign_self _ _ _))

/-- Instance of C1 on a wrapper that holds a decode context. -/
theorem CreateGpuContext_idempotent_witness :
    mapFind Examples.wrapperWithDecode.m_contextPool GPU_CTX_MGR_FUNC_TYPE_DECODE = some 101 ∧
    CreateGpuContext Examples.gpuEnv Examples.freshWrapper GPU_CTX_MGR_FUNC_TYPE_DECODE
      = (MOS_STATUS_SUCCESS, Examples.wrapperWithDecode) ∧
    CreateGpuContext Examples.gpuEnv Examples.wrapperWithDecode GPU_CTX_MGR_FUNC_TYPE_DECODE
      = (MOS_STATUS_SUCCESS, Examples.wrapperWithDecode) ∧
    CreateGpuContext Examples.gpuEnv Examples.wrapperWithDecode GPU_CTX_MGR_FUNC_TYPE_DECODE
      = (MOS_STATUS_SUCCESS, Examples.wrapperWithDecode) :=
  ⟨by decide, by decide,
    (CreateGpuContext_idempotent Examples.gpuEnv Examples.wrapperWithDecode
      GPU_CTX_MGR_FUNC_TYPE_DECODE).1 101 (by decide),
    (CreateGpuContext_idempotent Examples.gpuEnv Examples.freshWrapper
      GPU_CTX_MGR_FUNC_TYPE_DECODE).2 Examples.wrapperWithDecode (by decide)⟩

theorem CreateGpuContext_cases (env : GpuCollaborators) (s : GpuCtxMgrWrapper)
    (t : GpuCtxMgrComponentFuncType) :
    ((CreateGpuContext env s t).2.m_contextPool = s.m_contextPool ∨
      ∃ c, c ≠ 0 ∧ s.m_underlyingGpuContextMgr ≠ 0 ∧ mapFind s.m_contextPool t = none ∧
        (CreateGpuContext env s t).2.m_contextPool = mapAssign s.m_contextPool t c) ∧
    (CreateGpuContext env s t).2.m_currentGpuContext = s.m_currentGpuContext ∧
    (CreateGpuContext env s t).2.m_underlyingGpuContextMgr = s.m_underlyingGpuContextMgr ∧
    (CreateGpuContext env s t).2.m_osContext = s.m_osContext := by
  by_cases h0 : mapCount s.m_contextPool t = 0
  · have hnone : mapFind s.m_contextPool t = none := by
      cases hf : mapFind s.m_contextPool t with
      | none => rfl
      | some c => exact absurd h0 (mapCount_of_find hf)
    cases hsw : funcTypeSwitch t with
    | none => simp [CreateGpuContext, h0, hsw]
    | some p =>
      obtain ⟨ctx, node⟩ := p
      by_cases h1 : s.m_underlyingGpuContextMgr = 0
      · simp [CreateGpuContext, h0, hsw, h1]
      · by_cases h2 : s.m_osContext = 0
        · simp [CreateGpuContext, h0, hsw, h1, h2]
        · by_cases h3 : env.GetCmdBufMgr s.calls s.m_osContext = 0
          · simp [CreateGpuContext, h0, hsw, h1, h2, h3]
          · by_cases h4 : env.CreateGpuContext (s.calls ++ [GpuCall.osGetCmdBufMgr s.m_osContext])
                node (env.GetCmdBufMgr s.calls s.m_osContext) ctx = 0
            · simp [CreateGpuContext, h0, hsw, h1, h2, h3, h4]
            · refine ⟨Or.inr ⟨_, h4, h1, hnone, ?_⟩, ?_⟩ <;>
                simp [CreateGpuContext, h0, hsw, h1, h2, h3, h4]
  · simp [CreateGpuContext, h0]

theorem cmdBufferStep_frame (env : GpuCollaborators) (s : GpuCtxMgrWrapper)
    (op : CmdBufferCall) :
    ∃ forwarded, (cmdBufferStep env s op).2 = { s with calls := s.calls ++ forwarded } ∧
      ∀ call ∈ forwarded, s.m_currentGpuContext ≠ 0 ∧
        call.target = some s.m_currentGpuContext := by
  cases op with
  | verifyCmdBufferAndPatchListSize c p =>
    simp only [cmdBufferStep, VerifyCmdBufferAndPatchListSize]
    split_ifs with h0 h1 h2
    · exact ⟨[], by simp, by simp⟩
    · exact ⟨[_], rfl, by simp [GpuCall.target, h0]⟩
    · exact ⟨[GpuCall.ctxVerifyCommandBufferSize s.m_currentGpuContext c,
        GpuCall.ctxVerifyPatchListSize s.m_currentGpuContext p], by simp,
        by simp [GpuCall.target, h0]⟩
    · exact ⟨[GpuCall.ctxVerifyCommandBufferSize s.m_currentGpuContext c,
        GpuCall.ctxVerifyPatchListSize s.m_currentGpuContext p], by simp,
        by simp [GpuCall.target, h0]⟩
  | getCmdBuffer b f =>
    simp only [cmdBufferStep, GetCmdBuffer]
    split_ifs with h0
    · exact ⟨[], by simp, by simp⟩
    · exact ⟨[_], rfl, by simp [GpuCall.target, h0]⟩
  | returnCmdBuffer b f =>
    simp only [cmdBufferStep, ReturnCmdBuffer]
    split_ifs with h0
    · exact ⟨[], by simp, by simp⟩
    · exact ⟨[_], rfl, by simp [GpuCall.target, h0]⟩
  | submitCmdBuffer o b n =>
    simp only [cmdBufferStep, SubmitCmdBuffer]
    split_ifs with h0 h1
    · exact ⟨[], by simp, by simp⟩
    · exact ⟨[], by simp, by simp⟩
    · exact ⟨[_], rfl, by simp [GpuCall.target, h0]⟩

theorem DestroyGpuContext_cases (s : GpuCtxMgrWrapper) (t : GpuCtxMgrComponentFuncType) :
    ((DestroyGpuContext s t).2 = s ∨
      ∃ c, mapFind s.m_contextPool t = some c ∧
        (DestroyGpuContext s t).2.m_contextPool = mapErase s.m_contextPool t ∧
        ((DestroyGpuContext s t).2.m_currentGpuContext = s.m_currentGpuContext ∨
          (DestroyGpuContext s t).2.m_currentGpuContext = 0) ∧
        ((DestroyGpuContext s t).2.m_currentGpuContext = c →
          (DestroyGpuContext s t).2.m_currentGpuContext = 0)) ∧
    (DestroyGpuContext s t).2.m_underlyingGpuContextMgr = s.m_underlyingGpuContextMgr := by
  by_cases h0 : s.m_underlyingGpuContextMgr = 0
  · simp [DestroyGpuContext, h0]
  · cases hf : mapFind s.m_contextPool t with
    | none => simp [DestroyGpuContext, h0, hf]
    | some c =>
      by_cases h1 : c = 0
      · subst h1
        refine ⟨Or.inr ⟨0, rfl, ?_⟩, ?_⟩ <;> simp [DestroyGpuContext, h0, hf]
      · by_cases h2 : s.m_currentGpuContext = c
        · refine ⟨Or.inr ⟨c, rfl, ?_⟩, ?_⟩ <;> simp [DestroyGpuContext, h0, hf, h1, h2]
        · refine ⟨Or.inr ⟨c, rfl, ?_⟩, ?_⟩ <;> simp [DestroyGpuContext, h0, hf, h1, h2]

theorem step_preserves_CurrentInPool (env : GpuCollaborators) (s : GpuCtxMgrWrapper)
    (call : WrapperCall) (h : CurrentInPool s) : CurrentInPool (step env s call).2 := by
  cases call with
  | createGpuContext t =>
    obtain ⟨hpool, hcur, -, -⟩ := CreateGpuContext_cases env s t
    simp only [step, CurrentInPool, hcur]
    rcases h with h | ⟨k, hk⟩
    · exact Or.inl h
    · right
      rcases hpool with hp | ⟨c, -, -, hnone, hp⟩
      · exact ⟨k, by rw [hp]; exact hk⟩
      · have hne : k ≠ t := by
          intro e
          rw [e, hnone] at hk
          cases hk
        exact ⟨k, by rw [hp, mapFind_mapAssign_ne _ _ _ _ hne]; exact hk⟩
  | setGpuContext t =>
    simp only [step, SetGpuContext]
    split
    · exact h
    · rename_i c hc
      exact Or.inr ⟨t, hc⟩
  | destroyGpuContext t =>
    obtain ⟨hcases, -⟩ := DestroyGpuContext_cases s t
    simp only [step]
    rcases hcases with hsame | ⟨c, hc, hpool, hcur, hclear⟩
    · rw [hsame]; exact h
    · unfold CurrentInPool
      by_cases hz : (DestroyGpuContext s t).2.m_currentGpuContext = 0
      · exact Or.inl hz
      · right
        have hkeep : (DestroyGpuContext s t).2.m_currentGpuContext = s.m_currentGpuContext :=
          hcur.resolve_right hz
        rw [hkeep] at hz hclear ⊢
        rcases h with h | ⟨k, hk⟩
        · exact absurd h hz
        · have hne : k ≠ t := by
            intro e
            rw [e, hc] at hk
            exact hz (hclear (Option.some.inj hk).symm)
          exact ⟨k, by rw [hpool, mapFind_mapErase_ne _ _ _ hne]; exact hk⟩
  | cmdBuffer op =>
    obtain ⟨fw, hfw, -⟩ := cmdBufferStep_frame env s op
    simp only [step, hfw]
    exact h

theorem step_preserves_PoolSound (env : GpuCollaborators) (s : GpuCtxMgrWrapper)
    (call : WrapperCall) (h : PoolSound s) : PoolSound (step env s call).2 := by
  cases call with
  | createGpuContext t =>
    obtain ⟨hpool, -, hmgr, -⟩ := CreateGpuContext_cases env s t
    intro k c hk
    simp only [step] at hk ⊢
    rw [hmgr]
    rcases hpool with hp | ⟨c', hc', hm, -, hp⟩
    · rw [hp] at hk
      exact h k c hk
    · rw [hp] at hk
      by_cases e : k = t
      · subst e
        rw [mapFind_mapAssign_self] at hk
        cases hk
        exact ⟨hc', hm⟩
      · rw [mapFind_mapAssign_ne _ _ _ _ e] at hk
        exact h k c hk
  | setGpuContext t =>
    simp only [step, SetGpuContext]
    split
    · exact h
    · exact h
  | destroyGpuContext t =>
    obtain ⟨hcases, hmgr⟩ := DestroyGpuContext_cases s t
    intro k c hk
    simp only [step] at hk ⊢
    rw [hmgr]
    rcases hcases with hsame | ⟨c', -, hpool, -, -⟩
    · rw [hsame] at hk
      exact h k c hk
    · rw [hpool] at hk
      exact h k c (mapFind_of_mapErase hk)
  | cmdBuffer op =>
    obtain ⟨fw, hfw, -⟩ := cmdBufferStep_frame env s op
    simp only [step, hfw]
    exact h

theorem run_preserves (env : GpuCollaborators) (P : GpuCtxMgrWrapper → Prop)
    (hstep : ∀ s call, P s → P (step env s call).2)
    (calls : List WrapperCall) : ∀ s, P s → P (run env s calls) := by
  induction calls with
  | nil => intro s h; exact h
  | cons c rest ih => intro s h; exact ih _ (hstep s c h)

theorem PoolSound_of_Reachable {env : GpuCollaborators} {s : GpuCtxMgrWrapper}
    (h : Reachable env s) : PoolSound s := by
  obtain ⟨m, o, calls, rfl⟩ := h
  refine run_preserves env PoolSound (step_preserves_PoolSound env) calls _ ?_
  intro k c hk
  simp [construct, mapFind] at hk

/-- C2: in every state reached from a freshly constructed wrapper by any
sequence of `CreateGpuContext`, `SetGpuContext`, `DestroyGpuContext` and
command-buffer calls, the current context is unset or is the context bound to
some key of the pool. -/
theorem currentGpuContext_in_pool (env : GpuCollaborators) (underlyingMgr osCtx : Ptr)
    (calls : List WrapperCall) :
    (run env (construct underlyingMgr osCtx) calls).m_currentGpuContext = 0 ∨
    ∃ k, mapFind (run env (construct underlyingMgr osCtx) calls).m_contextPool k
      = some (run env (construct underlyingMgr osCtx) calls).m_currentGpuContext :=
  run_preserves env CurrentInPool (step_preserves_CurrentInPool env) calls _ (Or.inl rfl)

theorem DestroyGpuContext_of_found (s : GpuCtxMgrWrapper) (t : GpuCtxMgrComponentFuncType)
    (c : Ptr) (hmgr : s.m_underlyingGpuContextMgr ≠ 0)
    (hfind : mapFind s.m_contextPool t = some c) (hc : c ≠ 0)
    (hcur : s.m_currentGpuContext = c) :
    DestroyGpuContext s t = (MOS_STATUS_SUCCESS,
      { s with
        calls := s.calls ++ [GpuCall.mgrDestroyGpuContext c]
        m_contextPool := mapErase s.m_contextPool t
        m_currentGpuContext := 0 }) := by
  simp [DestroyGpuContext, hmgr, hfind, hc, hcur]

/-- C3: in a reachable state where `t` has a pool entry that is the current
context, `DestroyGpuContext t` returns success, asks the engine manager to
destroy exactly that context, removes the entry of `t` and no other, and clears
the current context; `GetCmdBuffer` on the resulting state returns
`MOS_STATUS_NULL_POINTER` and leaves the state, its call log included,
unchanged. -/
theorem DestroyGpuContext_current (env : GpuCollaborators) (s : GpuCtxMgrWrapper)
    (t : GpuCtxMgrComponentFuncType) (c cmdBuffer : Ptr) (flags : Nat)
    (hreach : Reachable env s) (hfind : mapFind s.m_contextPool t = some c)
    (hcur : s.m_currentGpuContext = c) :
    (DestroyGpuContext s t).1 = MOS_STATUS_SUCCESS ∧
    (DestroyGpuContext s t).2.calls = s.calls ++ [GpuCall.mgrDestroyGpuContext c] ∧
    (DestroyGpuContext s t).2.m_contextPool = mapErase s.m_contextPool t ∧
    mapFind (DestroyGpuContext s t).2.m_contextPool t = none ∧
    (∀ k, k ≠ t →
      mapFind (DestroyGpuContext s t).2.m_contextPool k = mapFind s.m_contextPool k) ∧
    (DestroyGpuContext s t).2.m_currentGpuContext = 0 ∧
    GetCmdBuffer env (DestroyGpuContext s t).2 cmdBuffer flags
      = (MOS_STATUS_NULL_POINTER, (DestroyGpuContext s t).2) := by
  obtain ⟨hc, hmgr⟩ := PoolSound_of_Reachable hreach t c hfind
  rw [DestroyGpuContext_of_found s t c hmgr hfind hc hcur]
  refine ⟨rfl, rfl, rfl, mapFind_mapErase_self _ _, ?_, rfl, ?_⟩
  · intro k hk
    exact mapFind_mapErase_ne _ _ _ hk
  · simp [GetCmdBuffer]

/-- Instance of C3: the decode context is created, made current and
destroyed. -/
theorem DestroyGpuContext_current_witness :
    Reachable Examples.gpuEnv Examples.wrapperDecodeCurrent ∧
    mapFind Examples.wrapperDecodeCurrent.m_contextPool GPU_CTX_MGR_FUNC_TYPE_DECODE
      = some 101 ∧
    Examples.wrapperDecodeCurrent.m_currentGpuContext = 101 ∧
    (DestroyGpuContext Examples.wrapperDecodeCurrent GPU_CTX_MGR_FUNC_TYPE_DECODE).1
      = MOS_STATUS_SUCCESS ∧
    (DestroyGpuContext Examples.wrapperDecodeCurrent GPU_CTX_MGR_FUNC_TYPE_DECODE).2.calls
      = Examples.wrapperDecodeCurrent.calls ++ [GpuCall.mgrDestroyGpuContext 101] ∧
    (DestroyGpuContext Examples.wrapperDecodeCurrent
      GPU_CTX_MGR_FUNC_TYPE_DECODE).2.m_currentGpuContext = 0 ∧
    (GetCmdBuffer Examples.gpuEnv
      (DestroyGpuContext Examples.wrapperDecodeCurrent GPU_CTX_MGR_FUNC_TYPE_DECODE).2 5 0).1
      = MOS_STATUS_NULL_POINTER :=
  have hreach : Reachable Examples.gpuEnv Examples.wrapperDecodeCurrent := ⟨1, 2, _, rfl⟩
  have h := DestroyGpuContext_current Examples.gpuEnv Examples.wrapperDecodeCurrent
    GPU_CTX_MGR_FUNC_TYPE_DECODE 101 5 0 hreach (by decide) (by decide)
  ⟨hreach, by decide, by decide, h.1, h.2.1, h.2.2.2.2.2.1, by rw [h.2.2.2.2.2.2]⟩

/-- C4 as stated fails: on a wrapper constructed without an engine manager the
pool has no decode entry, yet `DestroyGpuContext` returns
`MOS_STATUS_NULL_POINTER`, not `MOS_STATUS_INVALID_HANDLE`. -/
theorem DestroyGpuContext_absent_counterexample :
    mapFind Examples.wrapperWithoutMgr.m_contextPool GPU_CTX_MGR_FUNC_TYPE_DECODE = none ∧
    (DestroyGpuContext Examples.wrapperWithoutMgr GPU_CTX_MGR_FUNC_TYPE_DECODE).1
      = MOS_STATUS_NULL_POINTER ∧
    (DestroyGpuContext Examples.wrapperWithoutMgr GPU_CTX_MGR_FUNC_TYPE_DECODE).1
      ≠ MOS_STATUS_INVALID_HANDLE := by
  decide

/-- C4 (amended): when `t` has no pool entry, `DestroyGpuContext t` leaves the
whole state (pool, current context, call log) unchanged; it returns
`MOS_STATUS_INVALID_HANDLE` if the wrapper has an engine manager and
`MOS_STATUS_NULL_POINTER` if it was constructed without one. -/
theorem DestroyGpuContext_absent (s : GpuCtxMgrWrapper) (t : GpuCtxMgrComponentFuncType)
    (habsent : mapFind s.m_contextPool t = none) :
    (s.m_underlyingGpuContextMgr ≠ 0 →
      DestroyGpuContext s t = (MOS_STATUS_INVALID_HANDLE, s)) ∧
    (s.m_underlyingGpuContextMgr = 0 →
      DestroyGpuContext s t = (MOS_STATUS_NULL_POINTER, s)) := by
  constructor
  · intro h
    simp [DestroyGpuContext, h, habsent]
  · intro h
    simp [DestroyGpuContext, h]

/-- Instances of C4 (amended), with and without an engine manager. -/
theorem DestroyGpuContext_absent_witness :
    mapFind Examples.freshWrapper.m_contextPool GPU_CTX_MGR_FUNC_TYPE_RENDER = none ∧
    Examples.freshWrapper.m_underlyingGpuContextMgr ≠ 0 ∧
    DestroyGpuContext Examples.freshWrapper GPU_CTX_MGR_FUNC_TYPE_RENDER
      = (MOS_STATUS_INVALID_HANDLE, Examples.freshWrapper) ∧
    Examples.wrapperWithoutMgr.m_underlyingGpuContextMgr = 0 ∧
    DestroyGpuContext Examples.wrapperWithoutMgr GPU_CTX_MGR_FUNC_TYPE_RENDER
      = (MOS_STATUS_NULL_POINTER, Examples.wrapperWithoutMgr) :=
  ⟨by decide, by decide,
    (DestroyGpuContext_absent Examples.freshWrapper GPU_CTX_MGR_FUNC_TYPE_RENDER
      (by decide)).1 (by decide),
    by decide,
    (DestroyGpuContext_absent Examples.wrapperWithoutMgr GPU_CTX_MGR_FUNC_TYPE_RENDER
      (by decide)).2 (by decide)⟩

/-- C5: `SetGpuContext t` returns `MOS_STATUS_INVALID_HANDLE` and changes
nothing when `t` has no pool entry; otherwise it returns success, the current
context becomes exactly the context bound to `t`, and the pool (like every
other member) is unchanged. -/
theorem SetGpuContext_spec (s : GpuCtxMgrWrapper) (t : GpuCtxMgrComponentFuncType) :
    (mapFind s.m_contextPool t = none →
      SetGpuContext s t = (MOS_STATUS_INVALID_HANDLE, s)) ∧
    (∀ c, mapFind s.m_contextPool t = some c →
      SetGpuContext s t = (MOS_STATUS_SUCCESS, { s with m_currentGpuContext := c }) ∧
      (SetGpuContext s t).2.m_currentGpuContext = c ∧
      (SetGpuContext s t).2.m_contextPool = s.m_contextPool) := by
  constructor
  · intro h
    simp [SetGpuContext, h]
  · intro c h
    simp [SetGpuContext, h]

/-- Instances of C5: an absent and a present function type. -/
theorem SetGpuContext_spec_witness :
    mapFind Examples.wrapperWithDecode.m_contextPool GPU_CTX_MGR_FUNC_TYPE_RENDER = none ∧
    SetGpuContext Examples.wrapperWithDecode GPU_CTX_MGR_FUNC_TYPE_RENDER
      = (MOS_STATUS_INVALID_HANDLE, Examples.wrapperWithDecode) ∧
    mapFind Examples.wrapperWithDecode.m_contextPool GPU_CTX_MGR_FUNC_TYPE_DECODE
      = some 101 ∧
    (SetGpuContext Examples.wrapperWithDecode GPU_CTX_MGR_FUNC_TYPE_DECODE).2.m_currentGpuContext
      = 101 :=
  ⟨by decide,
    (SetGpuContext_spec Examples.wrapperWithDecode GPU_CTX_MGR_FUNC_TYPE_RENDER).1 (by decide),
    by decide,
    ((SetGpuContext_spec Examples.wrapperWithDecode GPU_CTX_MGR_FUNC_TYPE_DECODE).2 101
      (by decide)).2.1⟩

/-- C6 as stated fails: a context is current, but `SubmitCmdBuffer` called with
a null `osInterface` returns `MOS_STATUS_NULL_POINTER` and leaves the wrapper as
it was: the operation is not forwarded to the current context. -/
theorem SubmitCmdBuffer_null_osInterface_counterexample :
    Examples.wrapperDecodeCurrent.m_currentGpuContext ≠ 0 ∧
    SubmitCmdBuffer Examples.gpuEnv Examples.wrapperDecodeCurrent 0 5 false
      = (MOS_STATUS_NULL_POINTER, Examples.wrapperDecodeCurrent) ∧
    (SubmitCmdBuffer Examples.gpuEnv Examples.wrapperDecodeCurrent 0 5 false).2.calls
      = Examples.wrapperDecodeCurrent.calls := by
  decide

/-- C6 (amended): in every state, when no context is current each of the four
command-buffer operations returns `MOS_STATUS_NULL_POINTER` and changes nothing
(no call is logged).  When a context is current, `GetCmdBuffer` and
`ReturnCmdBuffer` make exactly one call, on the current context, with their own
arguments, and return its status (`ReturnCmdBuffer`: success);
`SubmitCmdBuffer` does the same when `osInterface` is non-null, and with a null
`osInterface` returns `MOS_STATUS_NULL_POINTER` and forwards nothing;
`VerifyCmdBufferAndPatchListSize` calls the size check of the current context
and, when that succeeds, its patch-list check, and returns the first failing
status or success.  In every case each call an operation logs is addressed to
the current context, which is then non-null. -/
theorem cmdBuffer_forwarded_to_current (env : GpuCollaborators) (s : GpuCtxMgrWrapper) :
    (s.m_currentGpuContext = 0 →
      ∀ op, cmdBufferStep env s op = (MOS_STATUS_NULL_POINTER, s)) ∧
    (s.m_currentGpuContext ≠ 0 →
      (∀ b f, GetCmdBuffer env s b f =
        (env.GetCommandBuffer s.calls s.m_currentGpuContext b f,
          { s with calls := s.calls ++
            [GpuCall.ctxGetCommandBuffer s.m_currentGpuContext b f] })) ∧
      (∀ b f, ReturnCmdBuffer s b f =
        (MOS_STATUS_SUCCESS,
          { s with calls := s.calls ++
            [GpuCall.ctxReturnCommandBuffer s.m_currentGpuContext b f] })) ∧
      (∀ o b n, o ≠ 0 → SubmitCmdBuffer env s o b n =
        (env.SubmitCommandBuffer s.calls s.m_currentGpuContext o b n,
          { s with calls := s.calls ++
            [GpuCall.ctxSubmitCommandBuffer s.m_currentGpuContext o b n] })) ∧
      (∀ b n, SubmitCmdBuffer env s 0 b n = (MOS_STATUS_NULL_POINTER, s)) ∧
      (∀ c p, VerifyCmdBufferAndPatchListSize env s c p =
        if env.VerifyCommandBufferSize s.calls s.m_currentGpuContext c ≠ MOS_STATUS_SUCCESS then
          (env.VerifyCommandBufferSize s.calls s.m_currentGpuContext c,
            { s with calls := s.calls ++
              [GpuCall.ctxVerifyCommandBufferSize s.m_currentGpuContext c] })
        else if env.VerifyPatchListSize
            (s.calls ++ [GpuCall.ctxVerifyCommandBufferSize s.m_currentGpuContext c])
            s.m_currentGpuContext p ≠ MOS_STATUS_SUCCESS then
          (env.VerifyPatchListSize
              (s.calls ++ [GpuCall.ctxVerifyCommandBufferSize s.m_currentGpuContext c])
              s.m_currentGpuContext p,
            { s with calls := s.calls ++
              [GpuCall.ctxVerifyCommandBufferSize s.m_currentGpuContext c,
               GpuCall.ctxVerifyPatchListSize s.m_currentGpuContext p] })
        else
          (MOS_STATUS_SUCCESS,
            { s with calls := s.calls ++
              [GpuCall.ctxVerifyCommandBufferSize s.m_currentGpuContext c,
               GpuCall.ctxVerifyPatchListSize s.m_currentGpuContext p] }))) ∧
    (∀ op, ∃ forwarded, (cmdBufferStep env s op).2 = { s with calls := s.calls ++ forwarded } ∧
      ∀ call ∈ forwarded, s.m_currentGpuContext ≠ 0 ∧
        call.target = some s.m_currentGpuContext) := by
  refine ⟨?_, ?_, cmdBufferStep_frame env s⟩
  · intro h op
    cases op <;>
      simp [cmdBufferStep, VerifyCmdBufferAndPatchListSize, GetCmdBuffer, ReturnCmdBuffer,
        SubmitCmdBuffer, h]
  · intro h
    refine ⟨?_, ?_, ?_, ?_, ?_⟩
    · intro b f
      simp [GetCmdBuffer, h]
    · intro b f
      simp [ReturnCmdBuffer, h]
    · intro o b n ho
      simp [SubmitCmdBuffer, h, ho]
    · intro b n
      simp [SubmitCmdBuffer, h]
    · intro c p
      by_cases h1 : env.VerifyCommandBufferSize s.calls s.m_currentGpuContext c
          = MOS_STATUS_SUCCESS
      · by_cases h2 : env.VerifyPatchListSize
            (s.calls ++ [GpuCall.ctxVerifyCommandBufferSize s.m_currentGpuContext c])
            s.m_currentGpuContext p = MOS_STATUS_SUCCESS
        · simp [VerifyCmdBufferAndPatchListSize, h, MOS_FAILED, h1, h2]
        · simp [VerifyCmdBufferAndPatchListSize, h, MOS_FAILED, h1, h2]
      · simp [VerifyCmdBufferAndPatchListSize, h, MOS_FAILED, h1]

/-- Instances of C6 (amended): with the decode context current `GetCmdBuffer`
and `SubmitCmdBuffer` are forwarded to it; with no current context
`SubmitCmdBuffer` forwards nothing. -/
theorem cmdBuffer_forwarded_to_current_witness :
    Examples.wrapperDecodeCurrent.m_currentGpuContext = 101 ∧
    GetCmdBuffer Examples.gpuEnv Examples.wrapperDecodeCurrent 5 0
      = (MOS_STATUS_SUCCESS,
          { Examples.wrapperDecodeCurrent with
            calls := Examples.wrapperDecodeCurrent.calls ++
              [GpuCall.ctxGetCommandBuffer 101 5 0] }) ∧
    SubmitCmdBuffer Examples.gpuEnv Examples.wrapperDecodeCurrent 9 5 false
      = (MOS_STATUS_SUCCESS,
          { Examples.wrapperDecodeCurrent with
            calls := Examples.wrapperDecodeCurrent.calls ++
              [GpuCall.ctxSubmitCommandBuffer 101 9 5 false] }) ∧
    Examples.wrapperWithDecode.m_currentGpuContext = 0 ∧
    cmdBufferStep Examples.gpuEnv Examples.wrapperWithDecode
      (CmdBufferCall.submitCmdBuffer 9 5 false)
      = (MOS_STATUS_NULL_POINTER, Examples.wrapperWithDecode) :=
  ⟨by decide,
    ((cmdBuffer_forwarded_to_current Examples.gpuEnv Examples.wrapperDecodeCurrent).2.1
      (by decide)).1 5 0,
    ((cmdBuffer_forwarded_to_current Examples.gpuEnv Examples.wrapperDecodeCurrent).2.1
      (by decide)).2.2.1 9 5 false (by decide),
    by decide,
    (cmdBuffer_forwarded_to_current Examples.gpuEnv Examples.wrapperWithDecode).1 (by decide)
      (CmdBufferCall.submitCmdBuffer 9 5 false)⟩

end GpuCtxMgrWrapper

namespace MediaCopyBaseState

open MOS_MEMCOMP_STATE MCPY_CPMODE MCPY_ENGINE MCPY_METHOD

/-- C7: for each of the three preferences and every capability set,
`CopyEnigneSelect` selects the first capable engine of the preference's fixed
order (Performance: render, blit, vebox; Balance: vebox, blit, render;
PowerSaving: blit, vebox, render).  In particular, with all three engines
capable it selects render, vebox and blit respectively, and with only blit
capable and preference Performance it selects blit. -/
theorem CopyEnigneSelect_first_capable :
    (∀ (s : MediaCopyBaseState) (preferMethod : MCPY_METHOD) (e : MCPY_ENGINE),
      specFirstCapable preferMethod s.m_mcpyEngineCaps = some e →
      (CopyEnigneSelect s preferMethod).2.m_mcpyEngine = e) ∧
    (∀ s : MediaCopyBaseState,
      s.m_mcpyEngineCaps = { engineVebox := true, engineBlt := true, engineRender := true } →
      (CopyEnigneSelect s MCPY_METHOD_PERFORMANCE).2.m_mcpyEngine = MCPY_ENGINE_RENDER ∧
      (CopyEnigneSelect s MCPY_METHOD_BALANCE).2.m_mcpyEngine = MCPY_ENGINE_VEBOX ∧
      (CopyEnigneSelect s MCPY_METHOD_POWERSAVING).2.m_mcpyEngine = MCPY_ENGINE_BLT) ∧
    (∀ s : MediaCopyBaseState,
      s.m_mcpyEngineCaps = { engineVebox := false, engineBlt := true, engineRender := false } →
      (CopyEnigneSelect s MCPY_METHOD_PERFORMANCE).2.m_mcpyEngine = MCPY_ENGINE_BLT) := by
  refine ⟨?_, ?_, ?_⟩
  · intro s preferMethod e h
    obtain ⟨src, dst, ⟨v, b, r⟩, eng, allow, mtx, calls⟩ := s
    cases preferMethod <;> cases v <;> cases b <;> cases r <;>
      simp_all [specFirstCapable, specFallbackOrder, capable, CopyEnigneSelect, List.find?]
  · intro s h
    simp [CopyEnigneSelect, h]
  · intro s h
    simp [CopyEnigneSelect, h]

/-- Instances of C7: the first capable engine of each order. -/
theorem CopyEnigneSelect_first_capable_witness :
    specFirstCapable MCPY_METHOD_BALANCE (Examples.copyState false true true).m_mcpyEngineCaps
      = some MCPY_ENGINE_BLT ∧
    (CopyEnigneSelect (Examples.copyState false true true) MCPY_METHOD_BALANCE).2.m_mcpyEngine
      = MCPY_ENGINE_BLT ∧
    (CopyEnigneSelect (Examples.copyState true true true) MCPY_METHOD_PERFORMANCE).2.m_mcpyEngine
      = MCPY_ENGINE_RENDER ∧
    (CopyEnigneSelect (Examples.copyState false true false)
      MCPY_METHOD_PERFORMANCE).2.m_mcpyEngine = MCPY_ENGINE_BLT :=
  ⟨by decide,
    CopyEnigneSelect_first_capable.1 (Examples.copyState false true true) MCPY_METHOD_BALANCE
      MCPY_ENGINE_BLT (by decide),
    (CopyEnigneSelect_first_capable.2.1 (Examples.copyState true true true) rfl).1,
    CopyEnigneSelect_first_capable.2.2 (Examples.copyState false true false) rfl⟩

theorem CapabilityCheck_frame (env : CopyCollaborators) (s : MediaCopyBaseState) :
    (CapabilityCheck env s).2.calls = s.calls ∧
    (CapabilityCheck env s).2.m_mcpyEngine = s.m_mcpyEngine ∧
    (CapabilityCheck env s).2.m_mcpySrc = s.m_mcpySrc ∧
    (CapabilityCheck env s).2.m_mcpyDst = s.m_mcpyDst := by
  simp only [CapabilityCheck]
  split_ifs <;> simp

theorem CapabilityCheck_success_capable (env : CopyCollaborators) (s : MediaCopyBaseState)
    (h : (CapabilityCheck env s).1 = MOS_STATUS_SUCCESS) :
    (CapabilityCheck env s).2.m_mcpyEngineCaps.engineVebox = true ∨
    (CapabilityCheck env s).2.m_mcpyEngineCaps.engineBlt = true ∨
    (CapabilityCheck env s).2.m_mcpyEngineCaps.engineRender = true := by
  simp only [CapabilityCheck] at h ⊢
  split_ifs at h ⊢ with h1 h2 h3 <;> first
    | (exact absurd h h1)
    | (cases h; done)
    | (by_contra hcon
       apply h3
       simpa only [not_or, Bool.not_eq_true] using hcon)

/-- C8: for each of the three preferences and every capability set with at
least one bit set, `CopyEnigneSelect` returns success, keeps the capability set
and selects an engine whose capability bit is set; this applies to every
capability set left by a successful `CapabilityCheck`. -/
theorem CopyEnigneSelect_selects_capable :
    (∀ (s : MediaCopyBaseState) (preferMethod : MCPY_METHOD),
      (preferMethod = MCPY_METHOD_PERFORMANCE ∨ preferMethod = MCPY_METHOD_BALANCE ∨
        preferMethod = MCPY_METHOD_POWERSAVING) →
      (s.m_mcpyEngineCaps.engineVebox = true ∨ s.m_mcpyEngineCaps.engineBlt = true ∨
        s.m_mcpyEngineCaps.engineRender = true) →
      (CopyEnigneSelect s preferMethod).1 = MOS_STATUS_SUCCESS ∧
      (CopyEnigneSelect s preferMethod).2.m_mcpyEngineCaps = s.m_mcpyEngineCaps ∧
      capable s.m_mcpyEngineCaps (CopyEnigneSelect s preferMethod).2.m_mcpyEngine = true) ∧
    (∀ (env : CopyCollaborators) (s : MediaCopyBaseState) (preferMethod : MCPY_METHOD),
      (preferMethod = MCPY_METHOD_PERFORMANCE ∨ preferMethod = MCPY_METHOD_BALANCE ∨
        preferMethod = MCPY_METHOD_POWERSAVING) →
      (CapabilityCheck env s).1 = MOS_STATUS_SUCCESS →
      (CopyEnigneSelect (CapabilityCheck env s).2 preferMethod).1 = MOS_STATUS_SUCCESS ∧
      capable (CapabilityCheck env s).2.m_mcpyEngineCaps
        (CopyEnigneSelect (CapabilityCheck env s).2 preferMethod).2.m_mcpyEngine = true) := by
  have main : ∀ (s : MediaCopyBaseState) (preferMethod : MCPY_METHOD),
      (preferMethod = MCPY_METHOD_PERFORMANCE ∨ preferMethod = MCPY_METHOD_BALANCE ∨
        preferMethod = MCPY_METHOD_POWERSAVING) →
      (s.m_mcpyEngineCaps.engineVebox = true ∨ s.m_mcpyEngineCaps.engineBlt = true ∨
        s.m_mcpyEngineCaps.engineRender = true) →
      (CopyEnigneSelect s preferMethod).1 = MOS_STATUS_SUCCESS ∧
      (CopyEnigneSelect s preferMethod).2.m_mcpyEngineCaps = s.m_mcpyEngineCaps ∧
      capable s.m_mcpyEngineCaps (CopyEnigneSelect s preferMethod).2.m_mcpyEngine = true := by
    intro s preferMethod hp hc
    obtain ⟨src, dst, ⟨v, b, r⟩, eng, allow, mtx, calls⟩ := s
    rcases hp with rfl | rfl | rfl <;> cases v <;> cases b <;> cases r <;>
      simp_all [capable, CopyEnigneSelect]
  refine ⟨main, ?_⟩
  intro env s preferMethod hp hs
  obtain ⟨h1, -, h3⟩ := main (CapabilityCheck env s).2 preferMethod hp
    (CapabilityCheck_success_capable env s hs)
  exact ⟨h1, h3⟩

/-- Instances of C8: only vebox capable, preference Performance; and the
capability set of a successful `CapabilityCheck`. -/
theorem CopyEnigneSelect_selects_capable_witness :
    (Examples.copyState true false false).m_mcpyEngineCaps.engineVebox = true ∧
    (CopyEnigneSelect (Examples.copyState true false false) MCPY_METHOD_PERFORMANCE).2.m_mcpyEngine
      = MCPY_ENGINE_VEBOX ∧
    capable (Examples.copyState true false false).m_mcpyEngineCaps
      (CopyEnigneSelect (Examples.copyState true false false)
        MCPY_METHOD_PERFORMANCE).2.m_mcpyEngine = true ∧
    (CapabilityCheck Examples.copyEnv (Examples.copyState false false false)).1
      = MOS_STATUS_SUCCESS ∧
    capable (CapabilityCheck Examples.copyEnv (Examples.copyState false false false)).2.m_mcpyEngineCaps
      (CopyEnigneSelect (CapabilityCheck Examples.copyEnv (Examples.copyState false false false)).2
        MCPY_METHOD_POWERSAVING).2.m_mcpyEngine = true :=
  ⟨by decide, by decide,
    (CopyEnigneSelect_selects_capable.1 (Examples.copyState true false false)
      MCPY_METHOD_PERFORMANCE (Or.inl rfl) (Or.inl (by decide))).2.2,
    by decide,
    (CopyEnigneSelect_selects_capable.2 Examples.copyEnv (Examples.copyState false false false)
      MCPY_METHOD_POWERSAVING (Or.inr (Or.inr rfl)) (by decide)).2⟩

theorem resourceDetails_frame (env : CopyCollaborators) (s : MediaCopyBaseState)
    (src dst : Ptr) :
    (SurfaceCopy.resourceDetails env s src dst).2.m_mcpyEngine = s.m_mcpyEngine ∧
    (SurfaceCopy.resourceDetails env s src dst).2.m_allowCPBltCopy = s.m_allowCPBltCopy ∧
    ((SurfaceCopy.resourceDetails env s src dst).2.calls
        = s.calls ++ [CopyCall.getResourceInfo src] ∨
      (SurfaceCopy.resourceDetails env s src dst).2.calls
        = s.calls ++ [CopyCall.getResourceInfo src, CopyCall.getResourceInfo dst]) := by
  simp only [SurfaceCopy.resourceDetails]
  split_ifs <;> simp

theorem resourceDetails_success (env : CopyCollaborators) (s : MediaCopyBaseState)
    (src dst : Ptr)
    (h : (SurfaceCopy.resourceDetails env s src dst).1 = MOS_STATUS_SUCCESS) :
    (SurfaceCopy.resourceDetails env s src dst).2.calls
      = s.calls ++ [CopyCall.getResourceInfo src, CopyCall.getResourceInfo dst] ∧
    (SurfaceCopy.resourceDetails env s src dst).2.m_mcpySrc.CpMode
      = (if env.GetSetCpSurfTag src ≠ 0 then MCPY_CPMODE_CP else MCPY_CPMODE_CLEAR) ∧
    (SurfaceCopy.resourceDetails env s src dst).2.m_mcpyDst.CpMode
      = (if env.GetSetCpSurfTag dst ≠ 0 then MCPY_CPMODE_CP else MCPY_CPMODE_CLEAR) := by
  by_cases h1 : (env.pfnGetResourceInfo s.calls src).1 = MOS_STATUS_SUCCESS
  · by_cases h2 : (env.pfnGetResourceInfo (s.calls ++ [CopyCall.getResourceInfo src]) dst).1
        = MOS_STATUS_SUCCESS
    · simp [SurfaceCopy.resourceDetails, h1, h2]
    · simp [SurfaceCopy.resourceDetails, h1, h2] at h
  · simp [SurfaceCopy.resourceDetails, h1] at h

theorem SurfaceCopy_of_resourceDetails_failed (env : CopyCollaborators)
    (s : MediaCopyBaseState) (src dst : Ptr) (preferMethod : MCPY_METHOD)
    (h : (SurfaceCopy.resourceDetails env s src dst).1 ≠ MOS_STATUS_SUCCESS) :
    SurfaceCopy env s src dst preferMethod = SurfaceCopy.resourceDetails env s src dst := by
  simp [SurfaceCopy, h]

theorem SurfaceCopy_of_CapabilityCheck_failed (env : CopyCollaborators)
    (s : MediaCopyBaseState) (src dst : Ptr) (preferMethod : MCPY_METHOD)
    (h : (SurfaceCopy.resourceDetails env s src dst).1 = MOS_STATUS_SUCCESS)
    (hc : (CapabilityCheck env (SurfaceCopy.resourceDetails env s src dst).2).1
      ≠ MOS_STATUS_SUCCESS) :
    SurfaceCopy env s src dst preferMethod
      = CapabilityCheck env (SurfaceCopy.resourceDetails env s src dst).2 := by
  simp [SurfaceCopy, PreProcess, h, hc]

theorem CapabilityCheck_protected (env : CopyCollaborators) (s : MediaCopyBaseState)
    (hsrc : s.m_mcpySrc.CpMode = MCPY_CPMODE_CP) (hdst : s.m_mcpyDst.CpMode = MCPY_CPMODE_CLEAR)
    (hallow : s.m_allowCPBltCopy = false) :
    (CapabilityCheck env s).1 ≠ MOS_STATUS_SUCCESS ∧
    (featureSupportStatus env s = MOS_STATUS_SUCCESS →
      (CapabilityCheck env s).1 = MOS_STATUS_INVALID_PARAMETER) := by
  by_cases hfs : featureSupportStatus env s = MOS_STATUS_SUCCESS
  · have hfs2 := hfs
    simp only [featureSupportStatus] at hfs2
    simp [CapabilityCheck, hfs2, hsrc, hdst, hallow]
  · have hfs2 := hfs
    simp only [featureSupportStatus] at hfs2
    refine ⟨?_, fun h => absurd h hfs⟩
    simp [CapabilityCheck, hfs2]

theorem resourceDetails_status (env : CopyCollaborators) (s : MediaCopyBaseState)
    (src dst : Ptr) :
    ((env.pfnGetResourceInfo s.calls src).1 ≠ MOS_STATUS_SUCCESS →
      (SurfaceCopy.resourceDetails env s src dst).1 = (env.pfnGetResourceInfo s.calls src).1) ∧
    ((env.pfnGetResourceInfo s.calls src).1 = MOS_STATUS_SUCCESS →
      (SurfaceCopy.resourceDetails env s src dst).1
        = (env.pfnGetResourceInfo (s.calls ++ [CopyCall.getResourceInfo src]) dst).1) := by
  constructor
  · intro h1
    simp [SurfaceCopy.resourceDetails, h1]
  · intro h1
    by_cases h2 : (env.pfnGetResourceInfo (s.calls ++ [CopyCall.getResourceInfo src]) dst).1
        = MOS_STATUS_SUCCESS
    · simp [SurfaceCopy.resourceDetails, h1, h2]
    · simp [SurfaceCopy.resourceDetails, h1, h2]

theorem CapabilityCheck_of_FeatureSupport_failed (env : CopyCollaborators)
    (s : MediaCopyBaseState) (hfs : featureSupportStatus env s ≠ MOS_STATUS_SUCCESS) :
    (CapabilityCheck env s).1 = featureSupportStatus env s := by
  have hfs2 := hfs
  simp only [featureSupportStatus] at hfs2
  simp [CapabilityCheck, hfs2, featureSupportStatus]

theorem CapabilityCheck_no_capable (env : CopyCollaborators) (s : MediaCopyBaseState)
    (hfs : featureSupportStatus env s = MOS_STATUS_SUCCESS)
    (hcaps : (CapabilityCheck env s).2.m_mcpyEngineCaps
      = { engineVebox := false, engineBlt := false, engineRender := false }) :
    (CapabilityCheck env s).1 = MOS_STATUS_INVALID_PARAMETER := by
  simp only [featureSupportStatus] at hfs
  simp only [CapabilityCheck, hfs, ne_eq, not_true_eq_false, if_false] at hcaps ⊢
  split_ifs at hcaps ⊢ with h1 h2
  · rfl
  · rfl
  · simp only at hcaps
    rw [hcaps] at h2
    exact absurd ⟨rfl, rfl, rfl⟩ h2

/-- C9 as stated fails: the source is protected, the destination clear and
cross-protection blit copy is not allowed, but the derived-class
`FeatureSupport`, which `CapabilityCheck` consults before the protection test,
fails with `MOS_STATUS_UNIMPLEMENTED`, and that is what `SurfaceCopy`
returns. -/
theorem SurfaceCopy_protected_counterexample :
    Examples.copyEnvFeatureFails.GetSetCpSurfTag 1 ≠ 0 ∧
    Examples.copyEnvFeatureFails.GetSetCpSurfTag 2 = 0 ∧
    (Examples.copyState true true true).m_allowCPBltCopy = false ∧
    (SurfaceCopy Examples.copyEnvFeatureFails (Examples.copyState true true true) 1 2
      MCPY_METHOD_PERFORMANCE).1 = MOS_STATUS_UNIMPLEMENTED ∧
    (SurfaceCopy Examples.copyEnvFeatureFails (Examples.copyState true true true) 1 2
      MCPY_METHOD_PERFORMANCE).1 ≠ MOS_STATUS_INVALID_PARAMETER := by
  decide

/-- C9 (amended): for every preference, every answer of the format checks and
every compression mode, a surface copy whose source is protected, whose
destination is clear and for which `m_allowCPBltCopy` is false fails, takes no
mutex and invokes no copy implementation (the only calls it adds are
resource-info queries).  It returns `MOS_STATUS_INVALID_PARAMETER` when both
resource-info queries and the derived-class `FeatureSupport` succeed, and
otherwise the status of the first of these steps that failed: that of the
query of the source, else that of the query of the destination, else that of
`FeatureSupport`. -/
theorem SurfaceCopy_protected_to_clear (env : CopyCollaborators) (s : MediaCopyBaseState)
    (src dst : Ptr) (preferMethod : MCPY_METHOD)
    (hsrc : env.GetSetCpSurfTag src ≠ 0) (hdst : env.GetSetCpSurfTag dst = 0)
    (hallow : s.m_allowCPBltCopy = false) :
    (SurfaceCopy env s src dst preferMethod).1 ≠ MOS_STATUS_SUCCESS ∧
    (∃ added, (SurfaceCopy env s src dst preferMethod).2.calls = s.calls ++ added ∧
      ∀ call ∈ added, call.isCopy = false ∧ call.isMutex = false) ∧
    ((SurfaceCopy.resourceDetails env s src dst).1 = MOS_STATUS_SUCCESS →
      featureSupportStatus env (SurfaceCopy.resourceDetails env s src dst).2
        = MOS_STATUS_SUCCESS →
      (SurfaceCopy env s src dst preferMethod).1 = MOS_STATUS_INVALID_PARAMETER) ∧
    ((env.pfnGetResourceInfo s.calls src).1 ≠ MOS_STATUS_SUCCESS →
      (SurfaceCopy env s src dst preferMethod).1 = (env.pfnGetResourceInfo s.calls src).1) ∧
    ((env.pfnGetResourceInfo s.calls src).1 = MOS_STATUS_SUCCESS →
      (env.pfnGetResourceInfo (s.calls ++ [CopyCall.getResourceInfo src]) dst).1
        ≠ MOS_STATUS_SUCCESS →
      (SurfaceCopy env s src dst preferMethod).1
        = (env.pfnGetResourceInfo (s.calls ++ [CopyCall.getResourceInfo src]) dst).1) ∧
    ((SurfaceCopy.resourceDetails env s src dst).1 = MOS_STATUS_SUCCESS →
      featureSupportStatus env (SurfaceCopy.resourceDetails env s src dst).2
        ≠ MOS_STATUS_SUCCESS →
      (SurfaceCopy env s src dst preferMethod).1
        = featureSupportStatus env (SurfaceCopy.resourceDetails env s src dst).2) := by
  obtain ⟨-, hal, hcalls⟩ := resourceDetails_frame env s src dst
  obtain ⟨hst1, hst2⟩ := resourceDetails_status env s src dst
  have hadded : ∃ added, (SurfaceCopy.resourceDetails env s src dst).2.calls = s.calls ++ added ∧
      ∀ call ∈ added, call.isCopy = false ∧ call.isMutex = false := by
    rcases hcalls with h | h
    · exact ⟨_, h, by simp [CopyCall.isCopy, CopyCall.isMutex]⟩
    · exact ⟨_, h, by simp [CopyCall.isCopy, CopyCall.isMutex]⟩
  by_cases hrd : (SurfaceCopy.resourceDetails env s src dst).1 = MOS_STATUS_SUCCESS
  · obtain ⟨-, hs, hd⟩ := resourceDetails_success env s src dst hrd
    rw [if_pos hsrc] at hs
    rw [if_neg (not_not.mpr hdst)] at hd
    obtain ⟨hfail, hinv⟩ := CapabilityCheck_protected env
      (SurfaceCopy.resourceDetails env s src dst).2 hs hd (hal.trans hallow)
    rw [SurfaceCopy_of_CapabilityCheck_failed env s src dst preferMethod hrd hfail]
    refine ⟨hfail, ?_, fun _ h => hinv h, ?_, ?_, ?_⟩
    · rw [(CapabilityCheck_frame env _).1]
      exact hadded
    · intro h1
      rw [hst1 h1] at hrd
      exact absurd hrd h1
    · intro h1 h2
      rw [hst2 h1] at hrd
      exact absurd hrd h2
    · intro _ hfs
      exact CapabilityCheck_of_FeatureSupport_failed env _ hfs
  · rw [SurfaceCopy_of_resourceDetails_failed env s src dst preferMethod hrd]
    refine ⟨hrd, hadded, fun h => absurd h hrd, ?_, ?_, fun h => absurd h hrd⟩
    · intro h1
      exact hst1 h1
    · intro h1 _
      exact hst2 h1

/-- Instances of C9 (amended): protected resource `1` copied to clear resource
`2`, with collaborators that all succeed and with a `FeatureSupport` that
fails. -/
theorem SurfaceCopy_protected_to_clear_witness :
    Examples.copyEnv.GetSetCpSurfTag 1 ≠ 0 ∧
    Examples.copyEnv.GetSetCpSurfTag 2 = 0 ∧
    (Examples.copyState true true true).m_allowCPBltCopy = false ∧
    (SurfaceCopy Examples.copyEnv (Examples.copyState true true true) 1 2
      MCPY_METHOD_BALANCE).1 = MOS_STATUS_INVALID_PARAMETER ∧
    (SurfaceCopy Examples.copyEnvFeatureFails (Examples.copyState true true true) 1 2
      MCPY_METHOD_BALANCE).1 = MOS_STATUS_UNIMPLEMENTED :=
  ⟨by decide, by decide, by decide,
    (SurfaceCopy_protected_to_clear Examples.copyEnv (Examples.copyState true true true) 1 2
      MCPY_METHOD_BALANCE (by decide) (by decide) (by decide)).2.2.1 (by decide) (by decide),
    ((SurfaceCopy_protected_to_clear Examples.copyEnvFeatureFails
      (Examples.copyState true true true) 1 2
      MCPY_METHOD_BALANCE (by decide) (by decide) (by decide)).2.2.2.2.2 (by decide)
      (by decide)).trans (by decide)⟩

/-- C10 as stated fails: the derived-class `FeatureSupport` clears all three
capability bits and fails with `MOS_STATUS_UNIMPLEMENTED`; the three bits end up
false, but `CapabilityCheck` and `SurfaceCopy` return
`MOS_STATUS_UNIMPLEMENTED`, not `MOS_STATUS_INVALID_PARAMETER`. -/
theorem SurfaceCopy_no_capable_engine_counterexample :
    (CapabilityCheck Examples.copyEnvFeatureClears
      (SurfaceCopy.resourceDetails Examples.copyEnvFeatureClears
        (Examples.copyState true true true) 3 4).2).2.m_mcpyEngineCaps
      = { engineVebox := false, engineBlt := false, engineRender := false } ∧
    (CapabilityCheck Examples.copyEnvFeatureClears
      (SurfaceCopy.resourceDetails Examples.copyEnvFeatureClears
        (Examples.copyState true true true) 3 4).2).1 = MOS_STATUS_UNIMPLEMENTED ∧
    (SurfaceCopy Examples.copyEnvFeatureClears (Examples.copyState true true true) 3 4
      MCPY_METHOD_PERFORMANCE).1 = MOS_STATUS_UNIMPLEMENTED ∧
    (SurfaceCopy Examples.copyEnvFeatureClears (Examples.copyState true true true) 3 4
      MCPY_METHOD_PERFORMANCE).2.m_mcpyEngineCaps
      = { engineVebox := false, engineBlt := false, engineRender := false } := by
  decide

/-- C10 (amended): in every state in which `CapabilityCheck` leaves all three
capability bits false, `CapabilityCheck` returns `MOS_STATUS_INVALID_PARAMETER`
when the derived-class `FeatureSupport` succeeded, and the failing status of
`FeatureSupport` otherwise.  For every copy request whose two resource-info
queries succeed and whose three bits end up false, `SurfaceCopy` returns the
status and the state of `CapabilityCheck`, which is not success: the selected
engine is the one from before the call and the only calls made are the two
resource-info queries (no mutex taken, no copy implementation invoked).  When
a resource-info query fails, `SurfaceCopy` returns the status of the query,
also without selecting an engine, taking the mutex or invoking a copy
implementation. -/
theorem SurfaceCopy_no_capable_engine (env : CopyCollaborators) (s : MediaCopyBaseState)
    (src dst : Ptr) (preferMethod : MCPY_METHOD) :
    (∀ s0 : MediaCopyBaseState,
      (CapabilityCheck env s0).2.m_mcpyEngineCaps
        = { engineVebox := false, engineBlt := false, engineRender := false } →
      (featureSupportStatus env s0 = MOS_STATUS_SUCCESS →
        (CapabilityCheck env s0).1 = MOS_STATUS_INVALID_PARAMETER) ∧
      (featureSupportStatus env s0 ≠ MOS_STATUS_SUCCESS →
        (CapabilityCheck env s0).1 = featureSupportStatus env s0) ∧
      (CapabilityCheck env s0).1 ≠ MOS_STATUS_SUCCESS) ∧
    ((SurfaceCopy.resourceDetails env s src dst).1 = MOS_STATUS_SUCCESS →
      (CapabilityCheck env (SurfaceCopy.resourceDetails env s src dst).2).2.m_mcpyEngineCaps
        = { engineVebox := false, engineBlt := false, engineRender := false } →
      SurfaceCopy env s src dst preferMethod
        = CapabilityCheck env (SurfaceCopy.resourceDetails env s src dst).2 ∧
      (SurfaceCopy env s src dst preferMethod).1 ≠ MOS_STATUS_SUCCESS ∧
      (SurfaceCopy env s src dst preferMethod).2.m_mcpyEngine = s.m_mcpyEngine ∧
      (SurfaceCopy env s src dst preferMethod).2.calls
        = s.calls ++ [CopyCall.getResourceInfo src, CopyCall.getResourceInfo dst]) ∧
    ((SurfaceCopy.resourceDetails env s src dst).1 ≠ MOS_STATUS_SUCCESS →
      SurfaceCopy env s src dst preferMethod = SurfaceCopy.resourceDetails env s src dst ∧
      (SurfaceCopy env s src dst preferMethod).2.m_mcpyEngine = s.m_mcpyEngine ∧
      ((SurfaceCopy env s src dst preferMethod).2.calls
          = s.calls ++ [CopyCall.getResourceInfo src] ∨
        (SurfaceCopy env s src dst preferMethod).2.calls
          = s.calls ++ [CopyCall.getResourceInfo src, CopyCall.getResourceInfo dst])) := by
  have hcc : ∀ s0 : MediaCopyBaseState,
      (CapabilityCheck env s0).2.m_mcpyEngineCaps
        = { engineVebox := false, engineBlt := false, engineRender := false } →
      (featureSupportStatus env s0 = MOS_STATUS_SUCCESS →
        (CapabilityCheck env s0).1 = MOS_STATUS_INVALID_PARAMETER) ∧
      (featureSupportStatus env s0 ≠ MOS_STATUS_SUCCESS →
        (CapabilityCheck env s0).1 = featureSupportStatus env s0) ∧
      (CapabilityCheck env s0).1 ≠ MOS_STATUS_SUCCESS := by
    intro s0 hcaps
    refine ⟨fun hfs => CapabilityCheck_no_capable env s0 hfs hcaps,
      fun hfs => CapabilityCheck_of_FeatureSupport_failed env s0 hfs, ?_⟩
    by_cases hfs : featureSupportStatus env s0 = MOS_STATUS_SUCCESS
    · rw [CapabilityCheck_no_capable env s0 hfs hcaps]
      decide
    · rw [CapabilityCheck_of_FeatureSupport_failed env s0 hfs]
      exact hfs
  refine ⟨hcc, ?_, ?_⟩
  · intro hinfo hcaps
    have hne := (hcc _ hcaps).2.2
    have heq := SurfaceCopy_of_CapabilityCheck_failed env s src dst preferMethod hinfo hne
    obtain ⟨hc1, hc2, -, -⟩ :=
      CapabilityCheck_frame env (SurfaceCopy.resourceDetails env s src dst).2
    refine ⟨heq, ?_, ?_, ?_⟩
    · rw [heq]
      exact hne
    · rw [heq, hc2, (resourceDetails_frame env s src dst).1]
    · rw [heq, hc1, (resourceDetails_success env s src dst hinfo).1]
  · intro hinfo
    have heq := SurfaceCopy_of_resourceDetails_failed env s src dst preferMethod hinfo
    rw [heq]
    exact ⟨rfl, (resourceDetails_frame env s src dst).1, (resourceDetails_frame env s src dst).2.2⟩

/-- Instances of C10 (amended): no engine supports the format pair and both
surfaces are compressed; and a `FeatureSupport` that clears the bits and
fails. -/
theorem SurfaceCopy_no_capable_engine_witness :
    SurfaceCopy Examples.copyEnvNoEngine (Examples.copyState true true true) 3 4
      MCPY_METHOD_PERFORMANCE
      = CapabilityCheck Examples.copyEnvNoEngine
          (SurfaceCopy.resourceDetails Examples.copyEnvNoEngine
            (Examples.copyState true true true) 3 4).2 ∧
    (CapabilityCheck Examples.copyEnvNoEngine
      (SurfaceCopy.resourceDetails Examples.copyEnvNoEngine
        (Examples.copyState true true true) 3 4).2).1 = MOS_STATUS_INVALID_PARAMETER ∧
    (SurfaceCopy Examples.copyEnvNoEngine (Examples.copyState true true true) 3 4
      MCPY_METHOD_PERFORMANCE).2.calls
      = [CopyCall.getResourceInfo 3, CopyCall.getResourceInfo 4] ∧
    (CapabilityCheck Examples.copyEnvFeatureClears
      (SurfaceCopy.resourceDetails Examples.copyEnvFeatureClears
        (Examples.copyState true true true) 3 4).2).1 = MOS_STATUS_UNIMPLEMENTED :=
  have h := SurfaceCopy_no_capable_engine Examples.copyEnvNoEngine
    (Examples.copyState true true true) 3 4 MCPY_METHOD_PERFORMANCE
  have h2 := SurfaceCopy_no_capable_engine Examples.copyEnvFeatureClears
    (Examples.copyState true true true) 3 4 MCPY_METHOD_PERFORMANCE
  ⟨(h.2.1 (by decide) (by decide)).1,
   (h.1 _ (by decide)).1 (by decide),
   (h.2.1 (by decide) (by decide)).2.2.2,
   ((h2.1 _ (by decide)).2.1 (by decide)).trans (by decide)⟩

end MediaCopyBaseState

namespace MediaCopyBaseState

open MOS_MEMCOMP_STATE MCPY_CPMODE MCPY_ENGINE MCPY_METHOD

/-- C11: when `FeatureSupport` succeeds and leaves all three bits set, and the
protection precondition passes, the capability set `CapabilityCheck` computes
is: vebox = vebox format pair supported and destination compression is not
`MOS_MMC_RC` and the source has no auxiliary surface; render = render format
pair supported and destination compression is not `MOS_MMC_MC` and the source
has no auxiliary surface; blit = source and destination compression are both
`MOS_MMC_DISABLED`. -/
theorem CapabilityCheck_capability_set (env : CopyCollaborators) (s : MediaCopyBaseState)
    (hfs : env.FeatureSupport s.m_mcpySrc.OsRes s.m_mcpyDst.OsRes s.m_mcpySrc s.m_mcpyDst
        { engineVebox := true, engineBlt := true, engineRender := true }
      = (MOS_STATUS_SUCCESS, { engineVebox := true, engineBlt := true, engineRender := true }))
    (hprot : ¬ (s.m_mcpySrc.CpMode = MCPY_CPMODE_CP ∧ s.m_mcpyDst.CpMode = MCPY_CPMODE_CLEAR ∧
      s.m_allowCPBltCopy = false)) :
    (CapabilityCheck env s).2.m_mcpyEngineCaps =
      { engineVebox := decide (env.IsVeboxCopySupported s.m_mcpySrc.OsRes s.m_mcpyDst.OsRes = true ∧
          s.m_mcpyDst.CompressionMode ≠ MOS_MMC_RC ∧ s.m_mcpySrc.bAuxSuface = false)
        engineBlt := decide (s.m_mcpySrc.CompressionMode = MOS_MMC_DISABLED ∧
          s.m_mcpyDst.CompressionMode = MOS_MMC_DISABLED)
        engineRender := decide (env.RenderFormatSupportCheck s.m_mcpySrc.OsRes s.m_mcpyDst.OsRes = true ∧
          s.m_mcpyDst.CompressionMode ≠ MOS_MMC_MC ∧ s.m_mcpySrc.bAuxSuface = false) } := by
  have hcaps : ∀ caps : MCPY_ENGINE_CAPS, (if caps.engineVebox = false ∧ caps.engineBlt = false ∧
      caps.engineRender = false then
        (MOS_STATUS_INVALID_PARAMETER, { s with m_mcpyEngineCaps := caps })
      else (MOS_STATUS_SUCCESS, { s with m_mcpyEngineCaps := caps })).2.m_mcpyEngineCaps = caps := by
    intro caps
    split_ifs <;> rfl
  simp only [CapabilityCheck, hfs, ne_eq, not_true_eq_false, if_false, if_neg hprot, hcaps]
  simp only [CapabilityCheck.engineChecks]
  by_cases hv : env.IsVeboxCopySupported s.m_mcpySrc.OsRes s.m_mcpyDst.OsRes = true <;>
  by_cases hr : env.RenderFormatSupportCheck s.m_mcpySrc.OsRes s.m_mcpyDst.OsRes = true <;>
  by_cases hrc : s.m_mcpyDst.CompressionMode = MOS_MMC_RC <;>
  by_cases hmc : s.m_mcpyDst.CompressionMode = MOS_MMC_MC <;>
  by_cases haux : s.m_mcpySrc.bAuxSuface = true <;>
  by_cases hsd : s.m_mcpySrc.CompressionMode = MOS_MMC_DISABLED <;>
  by_cases hdd : s.m_mcpyDst.CompressionMode = MOS_MMC_DISABLED <;>
  simp [hv, hr, hrc, hmc, haux, hsd, hdd]

/-- Instance of C11: uncompressed clear surfaces whose format pair every engine
supports leave all three bits set. -/
theorem CapabilityCheck_capability_set_witness :
    Examples.copyEnv.FeatureSupport 0 0 (Examples.copyState false false false).m_mcpySrc
        (Examples.copyState false false false).m_mcpyDst
        { engineVebox := true, engineBlt := true, engineRender := true }
      = (MOS_STATUS_SUCCESS, { engineVebox := true, engineBlt := true, engineRender := true }) ∧
    (CapabilityCheck Examples.copyEnv (Examples.copyState false false false)).2.m_mcpyEngineCaps
      = { engineVebox := true, engineBlt := true, engineRender := true } :=
  ⟨by decide,
    (CapabilityCheck_capability_set Examples.copyEnv (Examples.copyState false false false)
      (by decide) (by decide)).trans (by decide)⟩

theorem TaskDispatch_eq (env : CopyCollaborators) (s : MediaCopyBaseState) :
    (s.m_mcpyEngine = MCPY_ENGINE_VEBOX →
      TaskDispatch env s =
        (env.MediaVeboxCopy (s.calls ++ [CopyCall.lockMutex s.m_inUseGPUMutex])
            s.m_mcpySrc.OsRes s.m_mcpyDst.OsRes,
          { s with calls := s.calls ++ [CopyCall.lockMutex s.m_inUseGPUMutex,
              CopyCall.mediaVeboxCopy s.m_mcpySrc.OsRes s.m_mcpyDst.OsRes,
              CopyCall.unlockMutex s.m_inUseGPUMutex] })) ∧
    (s.m_mcpyEngine = MCPY_ENGINE_BLT →
      TaskDispatch env s =
        (env.MediaBltCopy (s.calls ++ [CopyCall.lockMutex s.m_inUseGPUMutex])
            s.m_mcpySrc.OsRes s.m_mcpyDst.OsRes,
          { s with calls := s.calls ++ [CopyCall.lockMutex s.m_inUseGPUMutex,
              CopyCall.mediaBltCopy s.m_mcpySrc.OsRes s.m_mcpyDst.OsRes,
              CopyCall.unlockMutex s.m_inUseGPUMutex] })) ∧
    (s.m_mcpyEngine = MCPY_ENGINE_RENDER →
      TaskDispatch env s =
        (env.MediaRenderCopy (s.calls ++ [CopyCall.lockMutex s.m_inUseGPUMutex])
            s.m_mcpySrc.OsRes s.m_mcpyDst.OsRes,
          { s with calls := s.calls ++ [CopyCall.lockMutex s.m_inUseGPUMutex,
              CopyCall.mediaRenderCopy s.m_mcpySrc.OsRes s.m_mcpyDst.OsRes,
              CopyCall.unlockMutex s.m_inUseGPUMutex] })) := by
  refine ⟨?_, ?_, ?_⟩ <;> intro h <;> simp [TaskDispatch, h]

theorem SurfaceCopy_of_dispatched (env : CopyCollaborators) (s : MediaCopyBaseState)
    (src dst : Ptr) (preferMethod : MCPY_METHOD)
    (h : (SurfaceCopy.resourceDetails env s src dst).1 = MOS_STATUS_SUCCESS)
    (hc : (CapabilityCheck env (SurfaceCopy.resourceDetails env s src dst).2).1
      = MOS_STATUS_SUCCESS) :
    SurfaceCopy env s src dst preferMethod
      = TaskDispatch env (CopyEnigneSelect
          (CapabilityCheck env (SurfaceCopy.resourceDetails env s src dst).2).2
          preferMethod).2 := by
  simp only [SurfaceCopy, PreProcess, h, hc, ne_eq, not_true_eq_false, if_false]
  split_ifs with h4
  · exact Prod.ext h4.symm rfl
  · rfl

/-- C12: for each selected engine (vebox, blit, render) `TaskDispatch` takes
the GPU-in-use mutex, invokes exactly that engine's copy implementation once on
the recorded source and destination resources, releases the mutex whatever the
implementation returned, and returns the implementation's status unchanged; a
`SurfaceCopy` that reaches the dispatch returns the status and state of
`TaskDispatch`, unchanged. -/
theorem TaskDispatch_dispatches (env : CopyCollaborators) (s : MediaCopyBaseState) :
    (s.m_mcpyEngine = MCPY_ENGINE_VEBOX →
      (TaskDispatch env s).1 = env.MediaVeboxCopy
          (s.calls ++ [CopyCall.lockMutex s.m_inUseGPUMutex])
          s.m_mcpySrc.OsRes s.m_mcpyDst.OsRes ∧
      (TaskDispatch env s).2.calls = s.calls ++ [CopyCall.lockMutex s.m_inUseGPUMutex,
          CopyCall.mediaVeboxCopy s.m_mcpySrc.OsRes s.m_mcpyDst.OsRes,
          CopyCall.unlockMutex s.m_inUseGPUMutex]) ∧
    (s.m_mcpyEngine = MCPY_ENGINE_BLT →
      (TaskDispatch env s).1 = env.MediaBltCopy
          (s.calls ++ [CopyCall.lockMutex s.m_inUseGPUMutex])
          s.m_mcpySrc.OsRes s.m_mcpyDst.OsRes ∧
      (TaskDispatch env s).2.calls = s.calls ++ [CopyCall.lockMutex s.m_inUseGPUMutex,
          CopyCall.mediaBltCopy s.m_mcpySrc.OsRes s.m_mcpyDst.OsRes,
          CopyCall.unlockMutex s.m_inUseGPUMutex]) ∧
    (s.m_mcpyEngine = MCPY_ENGINE_RENDER →
      (TaskDispatch env s).1 = env.MediaRenderCopy
          (s.calls ++ [CopyCall.lockMutex s.m_inUseGPUMutex])
          s.m_mcpySrc.OsRes s.m_mcpyDst.OsRes ∧
      (TaskDispatch env s).2.calls = s.calls ++ [CopyCall.lockMutex s.m_inUseGPUMutex,
          CopyCall.mediaRenderCopy s.m_mcpySrc.OsRes s.m_mcpyDst.OsRes,
          CopyCall.unlockMutex s.m_inUseGPUMutex]) ∧
    (∀ (src dst : Ptr) (preferMethod : MCPY_METHOD),
      (SurfaceCopy.resourceDetails env s src dst).1 = MOS_STATUS_SUCCESS →
      (CapabilityCheck env (SurfaceCopy.resourceDetails env s src dst).2).1
        = MOS_STATUS_SUCCESS →
      SurfaceCopy env s src dst preferMethod
        = TaskDispatch env (CopyEnigneSelect
            (CapabilityCheck env (SurfaceCopy.resourceDetails env s src dst).2).2
            preferMethod).2) := by
  obtain ⟨hv, hb, hr⟩ := TaskDispatch_eq env s
  refine ⟨?_, ?_, ?_, ?_⟩
  · intro h
    rw [hv h]
    exact ⟨rfl, rfl⟩
  · intro h
    rw [hb h]
    exact ⟨rfl, rfl⟩
  · intro h
    rw [hr h]
    exact ⟨rfl, rfl⟩
  · intro src dst preferMethod h hc
    exact SurfaceCopy_of_dispatched env s src dst preferMethod h hc

/-- Instance of C12: blit is selected, and a copy between clear uncompressed
surfaces with preference Performance reaches the render copy. -/
theorem TaskDispatch_dispatches_witness :
    (Examples.copyState true true true).m_mcpyEngine = MCPY_ENGINE_BLT ∧
    (TaskDispatch Examples.copyEnv (Examples.copyState true true true)).2.calls
      = [CopyCall.lockMutex 11, CopyCall.mediaBltCopy 0 0, CopyCall.unlockMutex 11] ∧
    SurfaceCopy Examples.copyEnv (Examples.copyState true true true) 3 4 MCPY_METHOD_PERFORMANCE
      = TaskDispatch Examples.copyEnv (CopyEnigneSelect
          (CapabilityCheck Examples.copyEnv
            (SurfaceCopy.resourceDetails Examples.copyEnv
              (Examples.copyState true true true) 3 4).2).2
          MCPY_METHOD_PERFORMANCE).2 ∧
    (SurfaceCopy Examples.copyEnv (Examples.copyState true true true) 3 4
      MCPY_METHOD_PERFORMANCE).2.calls
      = [CopyCall.getResourceInfo 3, CopyCall.getResourceInfo 4, CopyCall.lockMutex 11,
          CopyCall.mediaRenderCopy 3 4, CopyCall.unlockMutex 11] :=
  ⟨by decide,
    ((TaskDispatch_dispatches Examples.copyEnv (Examples.copyState true true true)).2.1
      (by decide)).2,
    (TaskDispatch_dispatches Examples.copyEnv (Examples.copyState true true true)).2.2.2
      3 4 MCPY_METHOD_PERFORMANCE (by decide) (by decide),
    by decide⟩

end MediaCopyBaseState

namespace GpuCtxMgrWrapper

open GpuCtxMgrComponentFuncType

/-- C20: for a recognised function type `t` with no pool entry,
`CreateGpuContext t` returns `MOS_STATUS_NULL_POINTER` when the engine manager,
the OS context or its command-buffer manager is absent, and
`MOS_STATUS_UNINITIALIZED` when all three are present but the engine manager
returns no context; in both cases the pool and the current context are
unchanged. -/
theorem CreateGpuContext_failures (env : GpuCollaborators) (s : GpuCtxMgrWrapper)
    (t : GpuCtxMgrComponentFuncType) (mosGpuContext : MOS_GPU_CONTEXT) (gpuNode : MOS_GPU_NODE)
    (hknown : funcTypeSwitch t = some (mosGpuContext, gpuNode))
    (habsent : mapFind s.m_contextPool t = none) :
    ((s.m_underlyingGpuContextMgr = 0 ∨ s.m_osContext = 0 ∨
        env.GetCmdBufMgr s.calls s.m_osContext = 0) →
      (CreateGpuContext env s t).1 = MOS_STATUS_NULL_POINTER ∧
      (CreateGpuContext env s t).2.m_contextPool = s.m_contextPool ∧
      (CreateGpuContext env s t).2.m_currentGpuContext = s.m_currentGpuContext) ∧
    (s.m_underlyingGpuContextMgr ≠ 0 → s.m_osContext ≠ 0 →
      env.GetCmdBufMgr s.calls s.m_osContext ≠ 0 →
      env.CreateGpuContext (s.calls ++ [GpuCall.osGetCmdBufMgr s.m_osContext]) gpuNode
        (env.GetCmdBufMgr s.calls s.m_osContext) mosGpuContext = 0 →
      (CreateGpuContext env s t).1 = MOS_STATUS_UNINITIALIZED ∧
      (CreateGpuContext env s t).2.m_contextPool = s.m_contextPool ∧
      (CreateGpuContext env s t).2.m_currentGpuContext = s.m_currentGpuContext) := by
  have h0 := mapCount_of_find_none habsent
  constructor
  · intro h
    by_cases h1 : s.m_underlyingGpuContextMgr = 0
    · simp [CreateGpuContext, h0, hknown, h1]
    · by_cases h2 : s.m_osContext = 0
      · simp [CreateGpuContext, h0, hknown, h1, h2]
      · have h3 : env.GetCmdBufMgr s.calls s.m_osContext = 0 := by
          rcases h with h | h | h
          · exact absurd h h1
          · exact absurd h h2
          · exact h
        simp [CreateGpuContext, h0, hknown, h1, h2, h3]
  · intro h1 h2 h3 h4
    simp [CreateGpuContext, h0, hknown, h1, h2, h3, h4]

/-- Instances of C20: no engine manager, no command-buffer manager, and an
engine manager that returns no context. -/
theorem CreateGpuContext_failures_witness :
    (CreateGpuContext Examples.gpuEnv Examples.wrapperWithoutMgr
      GPU_CTX_MGR_FUNC_TYPE_DECODE).1 = MOS_STATUS_NULL_POINTER ∧
    (CreateGpuContext Examples.gpuEnvNoCmdBufMgr Examples.freshWrapper
      GPU_CTX_MGR_FUNC_TYPE_ENCODE).1 = MOS_STATUS_NULL_POINTER ∧
    (CreateGpuContext Examples.gpuEnvCreateFails Examples.freshWrapper
      GPU_CTX_MGR_FUNC_TYPE_RENDER).1 = MOS_STATUS_UNINITIALIZED ∧
    (CreateGpuContext Examples.gpuEnvCreateFails Examples.freshWrapper
      GPU_CTX_MGR_FUNC_TYPE_RENDER).2.m_contextPool = [] :=
  ⟨((CreateGpuContext_failures Examples.gpuEnv Examples.wrapperWithoutMgr
      GPU_CTX_MGR_FUNC_TYPE_DECODE _ _ rfl (by decide)).1 (Or.inl (by decide))).1,
    ((CreateGpuContext_failures Examples.gpuEnvNoCmdBufMgr Examples.freshWrapper
      GPU_CTX_MGR_FUNC_TYPE_ENCODE _ _ rfl (by decide)).1
        (Or.inr (Or.inr (by decide)))).1,
    ((CreateGpuContext_failures Examples.gpuEnvCreateFails Examples.freshWrapper
      GPU_CTX_MGR_FUNC_TYPE_RENDER _ _ rfl (by decide)).2
        (by decide) (by decide) (by decide) (by decide)).1,
    ((CreateGpuContext_failures Examples.gpuEnvCreateFails Examples.freshWrapper
      GPU_CTX_MGR_FUNC_TYPE_RENDER _ _ rfl (by decide)).2
        (by decide) (by decide) (by decide) (by decide)).2.1⟩

end GpuCtxMgrWrapper

namespace VpAllocator

open MOS_FORMAT MOS_TILE_TYPE MOS_MEMCOMP_STATE

theorem DestroyVpSurface_deferred_eq (env : VpCollaborators) (s : VpAllocator) (v : VP_SURFACE)
    (os : MOS_SURFACE) (flags : MOS_GFXRES_FREE_FLAGS) (hos : v.osSurface = some os) :
    DestroyVpSurface env s (some v) true flags =
      { status := MOS_STATUS_SUCCESS
        allocator := { s with m_recycler := s.m_recycler ++ [some v] }
        surface := none } := by
  simp [DestroyVpSurface, hos]

theorem DestroyVpSurface_view_eq (env : VpCollaborators) (s : VpAllocator) (v : VP_SURFACE)
    (os : MOS_SURFACE) (flags : MOS_GFXRES_FREE_FLAGS) (hos : v.osSurface = some os)
    (hview : v.isResourceOwner = false) :
    DestroyVpSurface env s (some v) false flags =
      { status := MOS_STATUS_SUCCESS
        allocator := { s with calls := s.calls ++
          [VpCall.deleteMosSurface os, VpCall.deleteVpSurface v] }
        surface := none } := by
  simp [DestroyVpSurface, hos, hview]

theorem DestroyVpSurface_owner_eq (env : VpCollaborators) (s : VpAllocator) (v : VP_SURFACE)
    (os : MOS_SURFACE) (flags : MOS_GFXRES_FREE_FLAGS) (hos : v.osSurface = some os)
    (howner : v.isResourceOwner = true) (halloc : s.m_allocator ≠ 0) :
    DestroyVpSurface env s (some v) false flags =
      { status := env.DestroySurface s.calls os flags
        allocator := { s with calls := s.calls ++
          [VpCall.allocatorDestroySurface os flags, VpCall.deleteVpSurface v] }
        surface := none } := by
  simp [DestroyVpSurface, DestroySurface, hos, howner, halloc]

theorem DestroyVpSurface_owner_without_allocator_eq (env : VpCollaborators) (s : VpAllocator)
    (v : VP_SURFACE) (os : MOS_SURFACE) (flags : MOS_GFXRES_FREE_FLAGS)
    (hos : v.osSurface = some os) (howner : v.isResourceOwner = true)
    (halloc : s.m_allocator = 0) :
    DestroyVpSurface env s (some v) false flags =
      { status := MOS_STATUS_NULL_POINTER
        allocator := { s with calls := s.calls ++ [VpCall.deleteVpSurface v] }
        surface := none } := by
  simp [DestroyVpSurface, DestroySurface, hos, howner, halloc]

theorem DestroyVpSurface_recycler (env : VpCollaborators) (s : VpAllocator)
    (surf : Option VP_SURFACE) (flags : MOS_GFXRES_FREE_FLAGS) (r : List (Option VP_SURFACE)) :
    (DestroyVpSurface env { s with m_recycler := r } surf false flags).allocator =
      { (DestroyVpSurface env s surf false flags).allocator with m_recycler := r } := by
  cases surf with
  | none => simp [DestroyVpSurface]
  | some v =>
    cases hos : v.osSurface with
    | none => simp [DestroyVpSurface, hos]
    | some os =>
      by_cases howner : v.isResourceOwner = true
      · by_cases halloc : s.m_allocator = 0
        · simp [DestroyVpSurface, DestroySurface, hos, howner, halloc]
        · simp [DestroyVpSurface, DestroySurface, hos, howner, halloc]
      · simp [DestroyVpSurface, hos, howner]

theorem destroyEntry_recycler (env : VpCollaborators) (s : VpAllocator)
    (surf : Option VP_SURFACE) (r : List (Option VP_SURFACE)) :
    destroyEntry env { s with m_recycler := r } surf =
      { destroyEntry env s surf with m_recycler := r } :=
  DestroyVpSurface_recycler env s surf _ r

theorem destroyEntry_m_recycler (env : VpCollaborators) (s : VpAllocator)
    (surf : Option VP_SURFACE) : (destroyEntry env s surf).m_recycler = s.m_recycler := by
  have h := destroyEntry_recycler env s surf s.m_recycler
  have hs : ({ s with m_recycler := s.m_recycler } : VpAllocator) = s := rfl
  rw [hs] at h
  rw [h]

theorem destroyAll_m_recycler (env : VpCollaborators) (entries : List (Option VP_SURFACE)) :
    ∀ s : VpAllocator, (destroyAll env entries s).m_recycler = s.m_recycler := by
  induction entries with
  | nil => intro s; rfl
  | cons e rest ih =>
    intro s
    simp only [destroyAll, List.foldl_cons] at ih ⊢
    rw [ih, destroyEntry_m_recycler]

theorem CleanRecycler_concat (env : VpCollaborators) (fuel : Nat) (s : VpAllocator)
    (r : List (Option VP_SURFACE)) (surf : Option VP_SURFACE) :
    CleanRecycler env (fuel + 1) { s with m_recycler := r ++ [surf] } =
      CleanRecycler env fuel (destroyEntry env { s with m_recycler := r } surf) := by
  rw [CleanRecycler]
  simp [destroyEntry]

theorem CleanRecycler_eq (env : VpCollaborators) :
    ∀ (fuel : Nat) (s : VpAllocator), s.m_recycler.length ≤ fuel →
      CleanRecycler env fuel s
        = some (destroyAll env s.m_recycler.reverse { s with m_recycler := [] }) := by
  intro fuel
  induction fuel with
  | zero =>
    intro s h
    obtain ⟨a, m, r, c⟩ := s
    have hr : r = [] := List.length_eq_zero.mp (Nat.le_zero.mp h)
    subst hr
    rw [CleanRecycler]
    simp [destroyAll]
  | succ n ih =>
    intro s h
    obtain ⟨a, m, r, c⟩ := s
    rcases List.eq_nil_or_concat r with hr | ⟨r', e, hr⟩
    · subst hr
      rw [CleanRecycler]
      simp [destroyAll]
    · rw [List.concat_eq_append] at hr
      subst hr
      have hlen : r'.length ≤ n := by
        simp only [List.length_append, List.length_singleton] at h
        omega
      have hstep := CleanRecycler_concat env n ⟨a, m, [], c⟩ r' e
      simp only at hstep
      rw [hstep, ih _ (by rw [destroyEntry_m_recycler]; exact hlen), destroyEntry_m_recycler]
      have hcomm := destroyEntry_recycler env ⟨a, m, [], c⟩ e r'
      simp only at hcomm
      rw [hcomm]
      simp only [List.reverse_append, List.reverse_singleton, List.singleton_append, destroyAll,
        List.foldl_cons]
      have hx := destroyEntry_m_recycler env ⟨a, m, [], c⟩ e
      generalize destroyEntry env ⟨a, m, [], c⟩ e = x at hx ⊢
      obtain ⟨xa, xm, xr, xc⟩ := x
      simp only at hx
      subst hx
      rfl

theorem destroyEntry_resource_free (env : VpCollaborators) (s : VpAllocator)
    (e : Option VP_SURFACE) (c : VpCall) (hc : c ∈ (destroyEntry env s e).calls)
    (hfree : c.isResourceFree = true) :
    c ∈ s.calls ∨ ∃ v os flags, e = some v ∧ v.osSurface = some os ∧
      v.isResourceOwner = true ∧ c = VpCall.allocatorDestroySurface os flags := by
  cases e with
  | none =>
    left
    simpa [destroyEntry, DestroyVpSurface] using hc
  | some v =>
    cases hos : v.osSurface with
    | none =>
      left
      simpa [destroyEntry, DestroyVpSurface, hos] using hc
    | some os =>
      by_cases howner : v.isResourceOwner = true
      · by_cases halloc : s.m_allocator = 0
        · rw [destroyEntry, DestroyVpSurface_owner_without_allocator_eq env s v os _ hos howner
            halloc] at hc
          simp only [List.mem_append, List.mem_singleton] at hc
          rcases hc with hc | hc
          · exact Or.inl hc
          · subst hc
            simp [VpCall.isResourceFree] at hfree
        · rw [destroyEntry, DestroyVpSurface_owner_eq env s v os _ hos howner halloc] at hc
          simp only [List.mem_append, List.mem_cons, List.mem_singleton, List.not_mem_nil,
            or_false] at hc
          rcases hc with hc | hc | hc
          · exact Or.inl hc
          · exact Or.inr ⟨v, os, _, rfl, hos, howner, hc⟩
          · subst hc
            simp [VpCall.isResourceFree] at hfree
      · rw [Bool.not_eq_true] at howner
        rw [destroyEntry, DestroyVpSurface_view_eq env s v os _ hos howner] at hc
        simp only [List.mem_append, List.mem_cons, List.mem_singleton, List.not_mem_nil,
          or_false] at hc
        rcases hc with hc | hc | hc
        · exact Or.inl hc
        · subst hc
          simp [VpCall.isResourceFree] at hfree
        · subst hc
          simp [VpCall.isResourceFree] at hfree

theorem destroyAll_resource_free (env : VpCollaborators) (entries : List (Option VP_SURFACE)) :
    ∀ (s : VpAllocator) (c : VpCall), c ∈ (destroyAll env entries s).calls →
      c.isResourceFree = true →
      c ∈ s.calls ∨ ∃ v os flags, some v ∈ entries ∧ v.osSurface = some os ∧
        v.isResourceOwner = true ∧ c = VpCall.allocatorDestroySurface os flags := by
  induction entries with
  | nil =>
    intro s c hc _
    exact Or.inl hc
  | cons e rest ih =>
    intro s c hc hfree
    simp only [destroyAll, List.foldl_cons] at ih hc
    rcases ih _ c hc hfree with h | ⟨v, os, flags, hv, hos, howner, heq⟩
    · rcases destroyEntry_resource_free env s e c h hfree with h1 | ⟨v, os, flags, he, hos, ho, heq⟩
      · exact Or.inl h1
      · exact Or.inr ⟨v, os, flags, by simp [he], hos, ho, heq⟩
    · exact Or.inr ⟨v, os, flags, List.mem_cons_of_mem _ hv, hos, howner, heq⟩

/-- C16 as stated fails: the allocator has no underlying `Allocator`
(`m_allocator` is null), the surface owns its resource, and the immediate
`DestroyVpSurface` returns `MOS_STATUS_NULL_POINTER` after deleting only the
wrapper: `Allocator::DestroySurface` is not invoked although `isResourceOwner`
is set. -/
theorem DestroyVpSurface_owner_counterexample :
    Examples.ownerSurface.isResourceOwner = true ∧
    Examples.ownerSurface.osSurface = some Examples.nv12OsSurface ∧
    (DestroyVpSurface Examples.vpEnv Examples.vpAllocatorWithoutAllocator
      (some Examples.ownerSurface) false { SynchronousDestroy := false }).status
      = MOS_STATUS_NULL_POINTER ∧
    (DestroyVpSurface Examples.vpEnv Examples.vpAllocatorWithoutAllocator
      (some Examples.ownerSurface) false { SynchronousDestroy := false }).allocator.calls
      = [VpCall.deleteVpSurface Examples.ownerSurface] ∧
    ∀ c ∈ (DestroyVpSurface Examples.vpEnv Examples.vpAllocatorWithoutAllocator
      (some Examples.ownerSurface) false { SynchronousDestroy := false }).allocator.calls,
      c.isResourceFree = false := by
  decide

/-- C16 (amended): in an immediate destruction by `DestroyVpSurface`
(`deferredDestroyed = false`, surface and `osSurface` non-null) the free of the
underlying resource, `Allocator::DestroySurface`, is invoked if and only if the
surface's `isResourceOwner` flag is set and the allocator has its underlying
`Allocator` (`m_allocator` non-null), and then on the surface's `osSurface` with
the given flags; for a non-owner surface exactly the `MOS_SURFACE` descriptor
and the `VP_SURFACE` wrapper are deleted.  Every resource free logged by
`CleanRecycler` is the free of the `osSurface` of an owner entry of the recycle
list: no non-owner surface reaches the free of the underlying resource. -/
theorem DestroyVpSurface_frees_owner_only (env : VpCollaborators) (s : VpAllocator)
    (v : VP_SURFACE) (os : MOS_SURFACE) (flags : MOS_GFXRES_FREE_FLAGS)
    (hos : v.osSurface = some os) :
    (∃ added, (DestroyVpSurface env s (some v) false flags).allocator.calls = s.calls ++ added ∧
      ((∃ c ∈ added, c.isResourceFree = true) ↔
        (v.isResourceOwner = true ∧ s.m_allocator ≠ 0)) ∧
      (∀ c ∈ added, c.isResourceFree = true → c = VpCall.allocatorDestroySurface os flags)) ∧
    (v.isResourceOwner = false →
      DestroyVpSurface env s (some v) false flags =
        { status := MOS_STATUS_SUCCESS
          allocator := { s with calls := s.calls ++
            [VpCall.deleteMosSurface os, VpCall.deleteVpSurface v] }
          surface := none }) ∧
    (∀ fuel, s.m_recycler.length ≤ fuel →
      ∃ s1, CleanRecycler env fuel s = some s1 ∧
        ∀ c ∈ s1.calls, c.isResourceFree = true →
          c ∈ s.calls ∨ ∃ v1 os1 flags1, some v1 ∈ s.m_recycler ∧ v1.osSurface = some os1 ∧
            v1.isResourceOwner = true ∧ c = VpCall.allocatorDestroySurface os1 flags1) := by
  refine ⟨?_, ?_, ?_⟩
  · by_cases howner : v.isResourceOwner = true
    · by_cases halloc : s.m_allocator = 0
      · rw [DestroyVpSurface_owner_without_allocator_eq env s v os flags hos howner halloc]
        exact ⟨_, rfl, by simp [VpCall.isResourceFree, halloc],
          by simp [VpCall.isResourceFree]⟩
      · rw [DestroyVpSurface_owner_eq env s v os flags hos howner halloc]
        exact ⟨[VpCall.allocatorDestroySurface os flags, VpCall.deleteVpSurface v],
          by simp, by simp [VpCall.isResourceFree, howner, halloc],
          by simp [VpCall.isResourceFree]⟩
    · rw [Bool.not_eq_true] at howner
      rw [DestroyVpSurface_view_eq env s v os flags hos howner]
      exact ⟨[VpCall.deleteMosSurface os, VpCall.deleteVpSurface v],
        by simp, by simp [VpCall.isResourceFree, howner], by simp [VpCall.isResourceFree]⟩
  · intro hview
    exact DestroyVpSurface_view_eq env s v os flags hos hview
  · intro fuel hfuel
    refine ⟨_, CleanRecycler_eq env fuel s hfuel, ?_⟩
    intro c hc hfree
    rcases destroyAll_resource_free env _ _ c hc hfree with h | ⟨v1, os1, f1, hv, ho, hw, heq⟩
    · exact Or.inl h
    · exact Or.inr ⟨v1, os1, f1, List.mem_reverse.mp hv, ho, hw, heq⟩

/-- Instances of C16 (amended): a view surface, and an owner surface destroyed
by an allocator that has its underlying `Allocator`. -/
theorem DestroyVpSurface_frees_owner_only_witness :
    Examples.viewSurface.osSurface = some Examples.nv12OsSurface ∧
    Examples.viewSurface.isResourceOwner = false ∧
    (DestroyVpSurface Examples.vpEnv Examples.vpAllocator (some Examples.viewSurface) false
      { SynchronousDestroy := false }).allocator.calls
      = [VpCall.deleteMosSurface Examples.nv12OsSurface,
         VpCall.deleteVpSurface Examples.viewSurface] ∧
    (DestroyVpSurface Examples.vpEnv Examples.vpAllocator (some Examples.ownerSurface) false
      { SynchronousDestroy := false }).allocator.calls
      = [VpCall.allocatorDestroySurface Examples.nv12OsSurface { SynchronousDestroy := false },
         VpCall.deleteVpSurface Examples.ownerSurface] :=
  ⟨rfl, rfl,
    congrArg (fun r => r.allocator.calls)
      ((DestroyVpSurface_frees_owner_only Examples.vpEnv Examples.vpAllocator
        Examples.viewSurface Examples.nv12OsSurface { SynchronousDestroy := false } rfl).2.1 rfl),
    by decide⟩

end VpAllocator

namespace VpAllocator

open MOS_FORMAT MOS_TILE_TYPE MOS_MEMCOMP_STATE MOS_STATUS

theorem with_calls_nil (s : VpAllocator) : ({ s with calls := s.calls ++ [] } : VpAllocator) = s := by
  simp

theorem AllocateSurface_frame (env : VpCollaborators) (s : VpAllocator)
    (param : MOS_ALLOC_GFXRES_PARAMS) (zeroOnAllocate : Bool) :
    ∃ rest, (AllocateSurface env s param zeroOnAllocate).2 = { s with calls := s.calls ++ rest } ∧
      ∀ c ∈ rest, isAllocationStep c = true := by
  by_cases h0 : s.m_allocator = 0
  · refine ⟨[], ?_, by simp⟩
    rw [AllocateSurface, if_pos h0]
    exact (with_calls_nil s).symm
  · cases hA : env.AllocateSurface s.calls param zeroOnAllocate with
    | none =>
      exact ⟨[VpCall.allocatorAllocateSurface param zeroOnAllocate],
        by simp [AllocateSurface, h0, hA], by simp [isAllocationStep]⟩
    | some surf =>
      by_cases hm : s.m_mmc = 0
      · exact ⟨[VpCall.allocatorAllocateSurface param zeroOnAllocate,
            VpCall.allocatorDestroySurface { surf with Format := param.Format }
              { SynchronousDestroy := false }],
          by simp [AllocateSurface, h0, hA, SetMmcFlags, hm, MOS_FAILED],
          by simp [isAllocationStep]⟩
      · refine ⟨[VpCall.allocatorAllocateSurface param zeroOnAllocate], ?_,
          by simp [isAllocationStep]⟩
        simp only [AllocateSurface, h0, hA, SetMmcFlags, hm, if_false]
        split_ifs <;> simp_all [MOS_FAILED]

theorem AllocateVpSurface_frame (env : VpCollaborators) (s : VpAllocator)
    (param : MOS_ALLOC_GFXRES_PARAMS) (zeroOnAllocate : Bool) (ColorSpace : Int)
    (ChromaSiting : Nat) :
    ∃ rest, (AllocateVpSurface env s param zeroOnAllocate ColorSpace ChromaSiting).2
        = { s with calls := s.calls ++ rest } ∧
      ∀ c ∈ rest, isAllocationStep c = true := by
  by_cases hn : env.MOS_New_VP_SURFACE s.calls = false
  · exact ⟨[VpCall.newVpSurface], by simp [AllocateVpSurface, hn], by simp [isAllocationStep]⟩
  · rw [AllocateVpSurface]
    simp only [if_neg hn]
    generalize (if param.Format = Format_Buffer then
        { param with dwWidth := (param.dwWidth * param.dwHeight) % 2 ^ 32, dwHeight := 1 }
      else param : MOS_ALLOC_GFXRES_PARAMS) = param1
    obtain ⟨rest, hrest, hkind⟩ := AllocateSurface_frame env
      { s with calls := s.calls ++ [VpCall.newVpSurface] } param1 zeroOnAllocate
    split
    · refine ⟨VpCall.newVpSurface :: rest ++ [VpCall.deleteVpSurface VP_SURFACE.zero], ?_, ?_⟩
      · rw [hrest]
        simp
      · intro c hc
        simp only [List.mem_append, List.mem_cons, List.mem_singleton, List.not_mem_nil,
          or_false] at hc
        rcases hc with (hc | hc) | hc
        · subst hc; rfl
        · exact hkind c hc
        · subst hc; simp [isAllocationStep]
    · refine ⟨VpCall.newVpSurface :: rest, ?_, ?_⟩
      · split_ifs <;> (rw [hrest]; simp)
      · intro c hc
        simp only [List.mem_cons] at hc
        rcases hc with hc | hc
        · subst hc; rfl
        · exact hkind c hc

theorem DestroyVpSurface_frame (env : VpCollaborators) (s : VpAllocator)
    (surface : Option VP_SURFACE) (deferredDestroyed : Bool) (flags : MOS_GFXRES_FREE_FLAGS) :
    (DestroyVpSurface env s surface deferredDestroyed flags).allocator.m_allocator
      = s.m_allocator := by
  cases surface with
  | none => simp [DestroyVpSurface]
  | some v =>
    cases hos : v.osSurface with
    | none => simp [DestroyVpSurface, hos]
    | some os =>
      cases deferredDestroyed with
      | true => rw [DestroyVpSurface_deferred_eq env s v os flags hos]
      | false =>
        by_cases howner : v.isResourceOwner = true
        · by_cases halloc : s.m_allocator = 0
          · rw [DestroyVpSurface_owner_without_allocator_eq env s v os flags hos howner halloc]
          · rw [DestroyVpSurface_owner_eq env s v os flags hos howner halloc]
        · rw [Bool.not_eq_true] at howner
          rw [DestroyVpSurface_view_eq env s v os flags hos howner]

theorem DestroyVpSurface_surface (env : VpCollaborators) (s : VpAllocator) (v : VP_SURFACE)
    (os : MOS_SURFACE) (deferredDestroyed : Bool) (flags : MOS_GFXRES_FREE_FLAGS)
    (hos : v.osSurface = some os) :
    (DestroyVpSurface env s (some v) deferredDestroyed flags).surface = none := by
  cases deferredDestroyed with
  | true => rw [DestroyVpSurface_deferred_eq env s v os flags hos]
  | false =>
    by_cases howner : v.isResourceOwner = true
    · by_cases halloc : s.m_allocator = 0
      · rw [DestroyVpSurface_owner_without_allocator_eq env s v os flags hos howner halloc]
      · rw [DestroyVpSurface_owner_eq env s v os flags hos howner halloc]
    · rw [Bool.not_eq_true] at howner
      rw [DestroyVpSurface_view_eq env s v os flags hos howner]

theorem ReAllocateSurface_unchanged_eq (env : VpCollaborators) (s : VpAllocator)
    (surface : Option VP_SURFACE) (a : ReAllocateSurfaceArgs) (halloc : s.m_allocator ≠ 0)
    (hsame : ReAllocateSurface.unchanged a (ReAllocateSurface.mmcAdjusted env a).1
      (ReAllocateSurface.mmcAdjusted env a).2 surface = true) :
    ReAllocateSurface env s surface a =
      { status := MOS_STATUS_SUCCESS, allocator := s, surface := surface, allocated := false } := by
  simp [ReAllocateSurface, halloc, hsame]

theorem ReAllocateSurface_without_allocator_eq (env : VpCollaborators) (s : VpAllocator)
    (surface : Option VP_SURFACE) (a : ReAllocateSurfaceArgs) (halloc : s.m_allocator = 0) :
    ReAllocateSurface env s surface a =
      { status := MOS_STATUS_NULL_POINTER, allocator := s, surface := surface,
        allocated := false } := by
  simp [ReAllocateSurface, halloc]

theorem ReAllocateSurface_replace_eq (env : VpCollaborators) (s : VpAllocator) (v : VP_SURFACE)
    (os : MOS_SURFACE) (a : ReAllocateSurfaceArgs) (halloc : s.m_allocator ≠ 0)
    (hos : v.osSurface = some os)
    (hdiff : ReAllocateSurface.unchanged a (ReAllocateSurface.mmcAdjusted env a).1
      (ReAllocateSurface.mmcAdjusted env a).2 (some v) = false)
    (hdestroy : (DestroyVpSurface env s (some v) a.deferredDestroyed
      (syncFreeFlags env (some v))).status = MOS_STATUS_SUCCESS)
    (v1 : VP_SURFACE) (os1 : MOS_SURFACE)
    (hnew : (AllocateVpSurface env
        (DestroyVpSurface env s (some v) a.deferredDestroyed
          (syncFreeFlags env (some v))).allocator
        (ReAllocateSurface.allocParams a (ReAllocateSurface.mmcAdjusted env a).1
          (ReAllocateSurface.mmcAdjusted env a).2 none)
        a.zeroOnAllocate env.defaultColorSpace env.defaultChromaSiting).1 = some v1)
    (hos1 : v1.osSurface = some os1) (hres : Mos_ResourceIsNull os1.OsResource = false) :
    ReAllocateSurface env s (some v) a =
      { status := MOS_STATUS_SUCCESS
        allocator := (AllocateVpSurface env
          (DestroyVpSurface env s (some v) a.deferredDestroyed
            (syncFreeFlags env (some v))).allocator
          (ReAllocateSurface.allocParams a (ReAllocateSurface.mmcAdjusted env a).1
            (ReAllocateSurface.mmcAdjusted env a).2 none)
          a.zeroOnAllocate env.defaultColorSpace env.defaultChromaSiting).2
        surface := some v1
        allocated := true } := by
  have hsurf := DestroyVpSurface_surface env s v os a.deferredDestroyed
    (syncFreeFlags env (some v)) hos
  rw [ReAllocateSurface]
  simp only [if_neg halloc, hdiff, Bool.false_eq_true, if_false, Option.isSome_some,
    Option.bind_some, hos, true_and, hdestroy, ne_eq, not_true_eq_false, hsurf, hnew, hos1, hres]
  simp [hos]

theorem AllocateVpSurface_m_allocator (env : VpCollaborators) (s : VpAllocator)
    (param : MOS_ALLOC_GFXRES_PARAMS) (zeroOnAllocate : Bool) (ColorSpace : Int)
    (ChromaSiting : Nat) :
    (AllocateVpSurface env s param zeroOnAllocate ColorSpace ChromaSiting).2.m_allocator
      = s.m_allocator := by
  obtain ⟨rest, hrest, -⟩ := AllocateVpSurface_frame env s param zeroOnAllocate ColorSpace
    ChromaSiting
  rw [hrest]

theorem ReAllocateSurface_m_allocator (env : VpCollaborators) (s : VpAllocator)
    (surface : Option VP_SURFACE) (a : ReAllocateSurfaceArgs) :
    (ReAllocateSurface env s surface a).allocator.m_allocator = s.m_allocator := by
  unfold ReAllocateSurface
  simp only []
  split_ifs
  · rfl
  · rfl
  · rfl
  · exact DestroyVpSurface_frame _ _ _ _ _
  · split
    · simp only [AllocateVpSurface_m_allocator, DestroyVpSurface_frame]
    · split
      · simp only [AllocateVpSurface_m_allocator, DestroyVpSurface_frame]
      · split_ifs <;> simp only [AllocateVpSurface_m_allocator, DestroyVpSurface_frame]

theorem ReAllocateSurface_allocated_m_allocator (env : VpCollaborators) (s : VpAllocator)
    (surface : Option VP_SURFACE) (a : ReAllocateSurfaceArgs)
    (h : (ReAllocateSurface env s surface a).allocated = true) : s.m_allocator ≠ 0 := by
  intro h0
  rw [ReAllocateSurface_without_allocator_eq env s surface a h0] at h
  cases h

theorem unchanged_of_equal (a : ReAllocateSurfaceArgs) (compressible : Bool)
    (compressionMode : MOS_MEMCOMP_STATE) (v : VP_SURFACE) (os : MOS_SURFACE)
    (hos : v.osSurface = some os) (hres : Mos_ResourceIsNull os.OsResource = false)
    (hformat : os.Format = a.format)
    (hcomp : decide (os.bCompressible ≠ 0) = compressible)
    (hmode : os.CompressionMode = compressionMode)
    (htile : os.TileType = a.defaultTileType)
    (hdims : (a.format = Format_Buffer ∧ v.bufferWidth = a.width ∧ v.bufferHeight = a.height) ∨
      (a.format ≠ Format_Buffer ∧ os.dwWidth = a.width ∧ os.dwHeight = a.height)) :
    ReAllocateSurface.unchanged a compressible compressionMode (some v) = true := by
  subst hcomp
  rcases hdims with ⟨h1, h2, h3⟩ | ⟨h1, h2, h3⟩
  · simp [ReAllocateSurface.unchanged, ReAllocateSurface.surfInfoCheck, hos, hres, hformat, hmode,
      htile, h1, h2, h3]
  · have h1' : ¬ Format_Buffer = a.format := fun e => h1 e.symm
    simp [ReAllocateSurface.unchanged, ReAllocateSurface.surfInfoCheck, hos, hres, hformat, hmode,
      htile, h1', h2, h3]

theorem DestroyVpSurface_m_mmc (env : VpCollaborators) (s : VpAllocator)
    (surface : Option VP_SURFACE) (deferredDestroyed : Bool) (flags : MOS_GFXRES_FREE_FLAGS) :
    (DestroyVpSurface env s surface deferredDestroyed flags).allocator.m_mmc = s.m_mmc := by
  cases surface with
  | none => simp [DestroyVpSurface]
  | some v =>
    cases hos : v.osSurface with
    | none => simp [DestroyVpSurface, hos]
    | some os =>
      cases deferredDestroyed with
      | true => rw [DestroyVpSurface_deferred_eq env s v os flags hos]
      | false =>
        by_cases howner : v.isResourceOwner = true
        · by_cases halloc : s.m_allocator = 0
          · rw [DestroyVpSurface_owner_without_allocator_eq env s v os flags hos howner halloc]
          · rw [DestroyVpSurface_owner_eq env s v os flags hos howner halloc]
        · rw [Bool.not_eq_true] at howner
          rw [DestroyVpSurface_view_eq env s v os flags hos howner]

theorem AllocateSurface_some_m_mmc (env : VpCollaborators) (s : VpAllocator)
    (param : MOS_ALLOC_GFXRES_PARAMS) (zeroOnAllocate : Bool) (x : MOS_SURFACE)
    (h : (AllocateSurface env s param zeroOnAllocate).1 = some x) : s.m_mmc ≠ 0 := by
  intro hm
  by_cases h0 : s.m_allocator = 0
  · rw [AllocateSurface, if_pos h0] at h
    cases h
  · cases hA : env.AllocateSurface s.calls param zeroOnAllocate with
    | none => simp [AllocateSurface, h0, hA] at h
    | some surf => simp [AllocateSurface, h0, hA, SetMmcFlags, hm, MOS_FAILED] at h

theorem AllocateVpSurface_some_m_mmc (env : VpCollaborators) (s : VpAllocator)
    (param : MOS_ALLOC_GFXRES_PARAMS) (zeroOnAllocate : Bool) (ColorSpace : Int)
    (ChromaSiting : Nat) (v1 : VP_SURFACE)
    (h : (AllocateVpSurface env s param zeroOnAllocate ColorSpace ChromaSiting).1 = some v1) :
    s.m_mmc ≠ 0 := by
  by_cases hn : env.MOS_New_VP_SURFACE s.calls = false
  · simp [AllocateVpSurface, hn] at h
  · rw [AllocateVpSurface] at h
    simp only [if_neg hn] at h
    generalize (if param.Format = Format_Buffer then
      ({ param with dwWidth := (param.dwWidth * param.dwHeight) % 2 ^ 32, dwHeight := 1 } :
        MOS_ALLOC_GFXRES_PARAMS) else param) = param1 at h
    cases hA : (AllocateSurface env { s with calls := s.calls ++ [VpCall.newVpSurface] } param1
        zeroOnAllocate).1 with
    | none =>
      simp only [hA] at h
      cases h
    | some os =>
      exact AllocateSurface_some_m_mmc env { s with calls := s.calls ++ [VpCall.newVpSurface] }
        param1 zeroOnAllocate os hA

theorem AllocateVpSurface_m_mmc (env : VpCollaborators) (s : VpAllocator)
    (param : MOS_ALLOC_GFXRES_PARAMS) (zeroOnAllocate : Bool) (ColorSpace : Int)
    (ChromaSiting : Nat) :
    (AllocateVpSurface env s param zeroOnAllocate ColorSpace ChromaSiting).2.m_mmc
      = s.m_mmc := by
  obtain ⟨rest, hrest, -⟩ := AllocateVpSurface_frame env s param zeroOnAllocate ColorSpace
    ChromaSiting
  rw [hrest]

theorem ReAllocateSurface_m_mmc (env : VpCollaborators) (s : VpAllocator)
    (surface : Option VP_SURFACE) (a : ReAllocateSurfaceArgs) :
    (ReAllocateSurface env s surface a).allocator.m_mmc = s.m_mmc := by
  unfold ReAllocateSurface
  simp only []
  split_ifs
  · rfl
  · rfl
  · rfl
  · exact DestroyVpSurface_m_mmc _ _ _ _ _
  · split
    · simp only [AllocateVpSurface_m_mmc, DestroyVpSurface_m_mmc]
    · split
      · simp only [AllocateVpSurface_m_mmc, DestroyVpSurface_m_mmc]
      · split_ifs <;> simp only [AllocateVpSurface_m_mmc, DestroyVpSurface_m_mmc]

theorem ReAllocateSurface_allocated_m_mmc (env : VpCollaborators) (s : VpAllocator)
    (surface : Option VP_SURFACE) (a : ReAllocateSurfaceArgs)
    (h : (ReAllocateSurface env s surface a).allocated = true) : s.m_mmc ≠ 0 := by
  by_cases h0 : s.m_allocator = 0
  · rw [ReAllocateSurface_without_allocator_eq env s surface a h0] at h
    cases h
  · by_cases hu : ReAllocateSurface.unchanged a (ReAllocateSurface.mmcAdjusted env a).1
        (ReAllocateSurface.mmcAdjusted env a).2 surface = true
    · rw [ReAllocateSurface_unchanged_eq env s surface a h0 hu] at h
      cases h
    · rw [ReAllocateSurface] at h
      simp only [if_neg h0, if_neg hu] at h
      by_cases hnull : surface.isSome = true ∧ surface.bind (fun v => v.osSurface) = none
      · simp only [if_pos hnull] at h
        cases h
      · simp only [if_neg hnull] at h
        have hm := DestroyVpSurface_m_mmc env s surface a.deferredDestroyed
          (syncFreeFlags env surface)
        generalize DestroyVpSurface env s surface a.deferredDestroyed
          (syncFreeFlags env surface) = d at h hm
        by_cases hds : d.status ≠ MOS_STATUS_SUCCESS
        · simp only [if_pos hds] at h
          cases h
        · simp only [if_neg hds] at h
          cases hn : (AllocateVpSurface env d.allocator
              (ReAllocateSurface.allocParams a (ReAllocateSurface.mmcAdjusted env a).1
                (ReAllocateSurface.mmcAdjusted env a).2 d.surface)
              a.zeroOnAllocate env.defaultColorSpace env.defaultChromaSiting).1 with
          | none =>
            simp only [hn] at h
            cases h
          | some v1 =>
            rw [← hm]
            exact AllocateVpSurface_some_m_mmc env d.allocator _ _ _ _ v1 hn

/-- C13 as stated fails: the surface is non-null, has a non-null `osSurface`
and resource and matches the request in every compared parameter, but the
allocator has no underlying `Allocator` (`m_allocator` is null), and
`ReAllocateSurface` returns `MOS_STATUS_NULL_POINTER` instead of success. -/
theorem ReAllocateSurface_unchanged_counterexample :
    Examples.viewSurface.osSurface = some Examples.nv12OsSurface ∧
    Mos_ResourceIsNull Examples.nv12OsSurface.OsResource = false ∧
    ReAllocateSurface.unchanged (Examples.nv12Args 1920 false)
      (ReAllocateSurface.mmcAdjusted Examples.vpEnv (Examples.nv12Args 1920 false)).1
      (ReAllocateSurface.mmcAdjusted Examples.vpEnv (Examples.nv12Args 1920 false)).2
      (some Examples.viewSurface) = true ∧
    (ReAllocateSurface Examples.vpEnv Examples.vpAllocatorWithoutAllocator
      (some Examples.viewSurface) (Examples.nv12Args 1920 false)).status
      = MOS_STATUS_NULL_POINTER ∧
    (ReAllocateSurface Examples.vpEnv Examples.vpAllocatorWithoutAllocator
      (some Examples.viewSurface) (Examples.nv12Args 1920 false)).status
      ≠ MOS_STATUS_SUCCESS := by
  decide

/-- C13 (amended): let the surface be non-null with a non-null `osSurface` and
a non-null resource, and let its format, compressible flag, compression mode,
tile type and dimensions (`bufferWidth`/`bufferHeight` for `Format_Buffer`,
`dwWidth`/`dwHeight` otherwise) equal the request, after `compressible` and
`compressionMode` have been forced off when MMC is disabled or compressible
surfaces are unsupported.  If the allocator has its underlying `Allocator` and
its `MediaMemComp` (`m_allocator` and `m_mmc` non-null) the call returns
success with `allocated = false`, the same handle and the same allocator state
(no call logged, recycle list untouched); if `m_allocator` is null it returns
`MOS_STATUS_NULL_POINTER`, also with `allocated = false`, the same handle and no
call.  Hence after any call that reported `allocated = true` and left a surface
the early-return test accepts for the same arguments, `m_allocator` and `m_mmc`
are non-null and a second call with these arguments returns success with
`allocated = false` and the same handle. -/
theorem ReAllocateSurface_unchanged (env : VpCollaborators) (s : VpAllocator) (v : VP_SURFACE)
    (os : MOS_SURFACE) (a : ReAllocateSurfaceArgs)
    (hos : v.osSurface = some os) (hres : Mos_ResourceIsNull os.OsResource = false)
    (hformat : os.Format = a.format)
    (hcomp : decide (os.bCompressible ≠ 0) = (ReAllocateSurface.mmcAdjusted env a).1)
    (hmode : os.CompressionMode = (ReAllocateSurface.mmcAdjusted env a).2)
    (htile : os.TileType = a.defaultTileType)
    (hdims : (a.format = Format_Buffer ∧ v.bufferWidth = a.width ∧ v.bufferHeight = a.height) ∨
      (a.format ≠ Format_Buffer ∧ os.dwWidth = a.width ∧ os.dwHeight = a.height)) :
    (s.m_allocator ≠ 0 → s.m_mmc ≠ 0 →
      ReAllocateSurface.dereferencesNull s = false ∧
      ReAllocateSurface env s (some v) a =
        { status := MOS_STATUS_SUCCESS, allocator := s, surface := some v,
          allocated := false }) ∧
    (s.m_allocator = 0 →
      ReAllocateSurface.dereferencesNull s = false ∧
      ReAllocateSurface env s (some v) a =
        { status := MOS_STATUS_NULL_POINTER, allocator := s, surface := some v,
          allocated := false }) ∧
    (∀ (s0 : VpAllocator) (surface0 : Option VP_SURFACE),
      (ReAllocateSurface env s0 surface0 a).allocated = true →
      ReAllocateSurface.unchanged a (ReAllocateSurface.mmcAdjusted env a).1
        (ReAllocateSurface.mmcAdjusted env a).2
        (ReAllocateSurface env s0 surface0 a).surface = true →
      (ReAllocateSurface env s0 surface0 a).allocator.m_allocator ≠ 0 ∧
      (ReAllocateSurface env s0 surface0 a).allocator.m_mmc ≠ 0 ∧
      ReAllocateSurface env (ReAllocateSurface env s0 surface0 a).allocator
          (ReAllocateSurface env s0 surface0 a).surface a =
        { status := MOS_STATUS_SUCCESS
          allocator := (ReAllocateSurface env s0 surface0 a).allocator
          surface := (ReAllocateSurface env s0 surface0 a).surface
          allocated := false }) := by
  refine ⟨?_, ?_, ?_⟩
  · intro halloc hmmc
    exact ⟨by simp [ReAllocateSurface.dereferencesNull, hmmc],
      ReAllocateSurface_unchanged_eq env s (some v) a halloc
        (unchanged_of_equal a _ _ v os hos hres hformat hcomp hmode htile hdims)⟩
  · intro halloc
    exact ⟨by simp [ReAllocateSurface.dereferencesNull, halloc],
      ReAllocateSurface_without_allocator_eq env s (some v) a halloc⟩
  · intro s0 surface0 hallocated hsame
    have h0 := ReAllocateSurface_allocated_m_allocator env s0 surface0 a hallocated
    have h1 := ReAllocateSurface_allocated_m_mmc env s0 surface0 a hallocated
    have h0' : (ReAllocateSurface env s0 surface0 a).allocator.m_allocator ≠ 0 := by
      rw [ReAllocateSurface_m_allocator]
      exact h0
    have h1' : (ReAllocateSurface env s0 surface0 a).allocator.m_mmc ≠ 0 := by
      rw [ReAllocateSurface_m_mmc]
      exact h1
    exact ⟨h0', h1', ReAllocateSurface_unchanged_eq env _ _ a h0' hsame⟩

/-- Instance of C13 (amended): an NV12 surface of 1920 by 1080, not
compressible, is allocated and the same request is made again. -/
theorem ReAllocateSurface_unchanged_witness :
    (ReAllocateSurface Examples.vpEnv Examples.vpAllocator none
      (Examples.nv12Args 1920 false)).allocated = true ∧
    ReAllocateSurface Examples.vpEnv
        (ReAllocateSurface Examples.vpEnv Examples.vpAllocator none
          (Examples.nv12Args 1920 false)).allocator
        (ReAllocateSurface Examples.vpEnv Examples.vpAllocator none
          (Examples.nv12Args 1920 false)).surface
        (Examples.nv12Args 1920 false) =
      { status := MOS_STATUS_SUCCESS
        allocator := (ReAllocateSurface Examples.vpEnv Examples.vpAllocator none
          (Examples.nv12Args 1920 false)).allocator
        surface := (ReAllocateSurface Examples.vpEnv Examples.vpAllocator none
          (Examples.nv12Args 1920 false)).surface
        allocated := false } ∧
    ReAllocateSurface Examples.vpEnv Examples.vpAllocator (some Examples.viewSurface)
        (Examples.nv12Args 1920 false) =
      { status := MOS_STATUS_SUCCESS, allocator := Examples.vpAllocator,
        surface := some Examples.viewSurface, allocated := false } :=
  have h := ReAllocateSurface_unchanged Examples.vpEnv Examples.vpAllocator Examples.viewSurface
    Examples.nv12OsSurface (Examples.nv12Args 1920 false) rfl (by decide) (by decide) (by decide)
    (by decide) (by decide) (Or.inr (by decide))
  ⟨by decide, (h.2.2 Examples.vpAllocator none (by decide) (by decide)).2.2,
    (h.1 (by decide) (by decide)).2⟩

theorem ReAllocateSurface_replace_frame (env : VpCollaborators) (s : VpAllocator)
    (v : VP_SURFACE) (os : MOS_SURFACE) (a : ReAllocateSurfaceArgs) (halloc : s.m_allocator ≠ 0)
    (hos : v.osSurface = some os)
    (hdiff : ReAllocateSurface.unchanged a (ReAllocateSurface.mmcAdjusted env a).1
      (ReAllocateSurface.mmcAdjusted env a).2 (some v) = false) :
    ∃ rest, (ReAllocateSurface env s (some v) a).allocator =
        { (DestroyVpSurface env s (some v) a.deferredDestroyed
            (syncFreeFlags env (some v))).allocator with
          calls := (DestroyVpSurface env s (some v) a.deferredDestroyed
            (syncFreeFlags env (some v))).allocator.calls ++ rest } ∧
      ∀ c ∈ rest, isAllocationStep c = true := by
  have hsurf := DestroyVpSurface_surface env s v os a.deferredDestroyed
    (syncFreeFlags env (some v)) hos
  obtain ⟨rest, hrest, hkind⟩ := AllocateVpSurface_frame env
    (DestroyVpSurface env s (some v) a.deferredDestroyed (syncFreeFlags env (some v))).allocator
    (ReAllocateSurface.allocParams a (ReAllocateSurface.mmcAdjusted env a).1
      (ReAllocateSurface.mmcAdjusted env a).2 none)
    a.zeroOnAllocate env.defaultColorSpace env.defaultChromaSiting
  rw [ReAllocateSurface]
  simp only [if_neg halloc, hdiff, Bool.false_eq_true, if_false, Option.isSome_some,
    Option.bind_some, hos, true_and, hsurf]
  have hb : ((some v : Option VP_SURFACE).bind fun v => v.osSurface) = some os := hos
  have hcond : ¬ (((some v : Option VP_SURFACE).bind fun v => v.osSurface) = none) := by
    rw [hb]
    simp
  rw [if_neg hcond]
  split_ifs with hd
  · exact ⟨[], (with_calls_nil _).symm, by simp⟩
  · refine ⟨rest, ?_, hkind⟩
    split
    · exact hrest
    · split
      · exact hrest
      · split_ifs <;> exact hrest

theorem AllocateSurface_some_logged (env : VpCollaborators) (s : VpAllocator)
    (param : MOS_ALLOC_GFXRES_PARAMS) (zeroOnAllocate : Bool) (x : MOS_SURFACE)
    (h : (AllocateSurface env s param zeroOnAllocate).1 = some x) :
    VpCall.allocatorAllocateSurface param zeroOnAllocate
      ∈ (AllocateSurface env s param zeroOnAllocate).2.calls := by
  by_cases h0 : s.m_allocator = 0
  · rw [AllocateSurface, if_pos h0] at h
    cases h
  · cases hA : env.AllocateSurface s.calls param zeroOnAllocate with
    | none =>
      simp [AllocateSurface, h0, hA] at h
    | some surf =>
      simp only [AllocateSurface, h0, hA, if_false] at h ⊢
      split_ifs at h ⊢
      simp

theorem AllocateVpSurface_some_logged (env : VpCollaborators) (s : VpAllocator)
    (param : MOS_ALLOC_GFXRES_PARAMS) (zeroOnAllocate : Bool) (ColorSpace : Int)
    (ChromaSiting : Nat) (v1 : VP_SURFACE) (hformat : param.Format ≠ Format_Buffer)
    (h : (AllocateVpSurface env s param zeroOnAllocate ColorSpace ChromaSiting).1 = some v1) :
    VpCall.allocatorAllocateSurface param zeroOnAllocate
      ∈ (AllocateVpSurface env s param zeroOnAllocate ColorSpace ChromaSiting).2.calls := by
  by_cases hn : env.MOS_New_VP_SURFACE s.calls = false
  · simp [AllocateVpSurface, hn] at h
  · rw [AllocateVpSurface] at h ⊢
    simp only [if_neg hn, if_neg hformat] at h ⊢
    cases hA : (AllocateSurface env { s with calls := s.calls ++ [VpCall.newVpSurface] } param
        zeroOnAllocate).1 with
    | none =>
      simp only [hA] at h
      cases h
    | some os =>
      simp only [hA]
      exact AllocateSurface_some_logged env _ param zeroOnAllocate os hA

theorem unchanged_false_of_width (a : ReAllocateSurfaceArgs) (compressible : Bool)
    (compressionMode : MOS_MEMCOMP_STATE) (v : VP_SURFACE) (os : MOS_SURFACE)
    (hos : v.osSurface = some os)
    (hwidth : (a.format = Format_Buffer ∧ v.bufferWidth ≠ a.width) ∨
      (a.format ≠ Format_Buffer ∧ os.dwWidth ≠ a.width)) :
    ReAllocateSurface.unchanged a compressible compressionMode (some v) = false := by
  rcases hwidth with ⟨h1, h2⟩ | ⟨h1, h2⟩
  · simp [ReAllocateSurface.unchanged, ReAllocateSurface.surfInfoCheck, hos, h1, h2]
  · have h1' : ¬ Format_Buffer = a.format := fun e => h1 e.symm
    simp [ReAllocateSurface.unchanged, ReAllocateSurface.surfInfoCheck, hos, h1', h2]

/-- C14 as stated fails: MMC is disabled, the existing surface differs from the
request in its width only (1920 stored, 1280 requested), and the request asks
for a compressible surface with compression mode `MOS_MMC_MC`; the allocation
that is requested has the compressible flag off and compression mode
`MOS_MMC_DISABLED`, not the requested values. -/
theorem ReAllocateSurface_width_changed_counterexample :
    (Examples.compressedArgs 1280 false).compressible = true ∧
    (Examples.compressedArgs 1280 false).compressionMode = MOS_MMC_MC ∧
    Examples.compressedOsSurface.dwWidth = 1920 ∧
    Examples.compressedOsSurface.bCompressible = 1 ∧
    Examples.compressedOsSurface.CompressionMode = MOS_MMC_MC ∧
    (ReAllocateSurface Examples.vpEnvNoMmc Examples.vpAllocator (some Examples.compressedSurface)
      (Examples.compressedArgs 1280 false)).allocated = true ∧
    (ReAllocateSurface Examples.vpEnvNoMmc Examples.vpAllocator (some Examples.compressedSurface)
      (Examples.compressedArgs 1280 false)).allocator.calls =
      [VpCall.allocatorDestroySurface Examples.compressedOsSurface { SynchronousDestroy := true },
       VpCall.deleteVpSurface Examples.compressedSurface,
       VpCall.newVpSurface,
       VpCall.allocatorAllocateSurface
         { Type_ := 2, TileType := MOS_TILE_Y, dwWidth := 1280, dwHeight := 1080,
           Format := Format_NV12, bIsCompressible := false,
           CompressionMode := MOS_MMC_DISABLED, pBufName := 0, dwArraySize := 1,
           ResUsageType := 0, m_tileModeByForce := 0, dwMemType := 0, bNotLockable := false,
           pSystemMemory := 0 } false] := by
  decide

/-- C14 (amended): for an existing surface (non-null `osSurface`) whose stored
width differs from the requested width, an allocator that has its underlying
`Allocator`, a `DestroyVpSurface` that succeeds and an `AllocateVpSurface` that
returns a surface with a non-null resource, `ReAllocateSurface` hands the old
surface to `DestroyVpSurface` (which deletes it at once, or puts it on the
recycle list when `deferredDestroyed` is set), requests from `AllocateVpSurface`
an allocation whose width, height, format, resource type and tile type equal
the requested values and whose compressible flag and compression mode equal the
requested values after these have been forced off when MMC is disabled or
compressible surfaces are unsupported, stores the newly allocated surface in
the caller's handle and returns success with `allocated = true`.  For a format
other than `Format_Buffer` these parameters reach `Allocator::AllocateSurface`
unchanged. -/
theorem ReAllocateSurface_width_changed (env : VpCollaborators) (s : VpAllocator)
    (v : VP_SURFACE) (os : MOS_SURFACE) (a : ReAllocateSurfaceArgs)
    (v1 : VP_SURFACE) (os1 : MOS_SURFACE)
    (halloc : s.m_allocator ≠ 0) (hos : v.osSurface = some os)
    (hwidth : (a.format = Format_Buffer ∧ v.bufferWidth ≠ a.width) ∨
      (a.format ≠ Format_Buffer ∧ os.dwWidth ≠ a.width))
    (hdestroy : (DestroyVpSurface env s (some v) a.deferredDestroyed
      (syncFreeFlags env (some v))).status = MOS_STATUS_SUCCESS)
    (hnew : (AllocateVpSurface env
        (DestroyVpSurface env s (some v) a.deferredDestroyed
          (syncFreeFlags env (some v))).allocator
        (ReAllocateSurface.allocParams a (ReAllocateSurface.mmcAdjusted env a).1
          (ReAllocateSurface.mmcAdjusted env a).2 none)
        a.zeroOnAllocate env.defaultColorSpace env.defaultChromaSiting).1 = some v1)
    (hos1 : v1.osSurface = some os1) (hres : Mos_ResourceIsNull os1.OsResource = false) :
    ReAllocateSurface env s (some v) a =
      { status := MOS_STATUS_SUCCESS
        allocator := (AllocateVpSurface env
          (DestroyVpSurface env s (some v) a.deferredDestroyed
            (syncFreeFlags env (some v))).allocator
          (ReAllocateSurface.allocParams a (ReAllocateSurface.mmcAdjusted env a).1
            (ReAllocateSurface.mmcAdjusted env a).2 none)
          a.zeroOnAllocate env.defaultColorSpace env.defaultChromaSiting).2
        surface := some v1
        allocated := true } ∧
    (a.deferredDestroyed = true →
      (DestroyVpSurface env s (some v) a.deferredDestroyed
        (syncFreeFlags env (some v))).allocator.m_recycler = s.m_recycler ++ [some v]) ∧
    (a.deferredDestroyed = false →
      VpCall.deleteVpSurface v ∈ (DestroyVpSurface env s (some v) a.deferredDestroyed
        (syncFreeFlags env (some v))).allocator.calls) ∧
    (ReAllocateSurface.allocParams a (ReAllocateSurface.mmcAdjusted env a).1
        (ReAllocateSurface.mmcAdjusted env a).2 none) =
      { Type_ := a.defaultResType, TileType := a.defaultTileType, dwWidth := a.width,
        dwHeight := a.height, Format := a.format,
        bIsCompressible := (ReAllocateSurface.mmcAdjusted env a).1,
        CompressionMode := (ReAllocateSurface.mmcAdjusted env a).2,
        pBufName := a.surfaceName, dwArraySize := 1, ResUsageType := a.resUsageType,
        m_tileModeByForce := a.tileModeByForce, dwMemType := a.memType,
        bNotLockable := a.isNotLockable, pSystemMemory := a.systemMemory } ∧
    (env.IsMmcEnabled = true → env.IsCompressibelSurfaceSupported = true →
      ReAllocateSurface.mmcAdjusted env a = (a.compressible, a.compressionMode)) ∧
    ((env.IsMmcEnabled = false ∨ env.IsCompressibelSurfaceSupported = false) →
      ReAllocateSurface.mmcAdjusted env a = (false, MOS_MMC_DISABLED)) ∧
    (a.format ≠ Format_Buffer →
      VpCall.allocatorAllocateSurface
        (ReAllocateSurface.allocParams a (ReAllocateSurface.mmcAdjusted env a).1
          (ReAllocateSurface.mmcAdjusted env a).2 none) a.zeroOnAllocate
        ∈ (ReAllocateSurface env s (some v) a).allocator.calls) := by
  have hdiff := unchanged_false_of_width a (ReAllocateSurface.mmcAdjusted env a).1
    (ReAllocateSurface.mmcAdjusted env a).2 v os hos hwidth
  have heq := ReAllocateSurface_replace_eq env s v os a halloc hos hdiff hdestroy v1 os1 hnew
    hos1 hres
  refine ⟨heq, ?_, ?_, ?_, ?_, ?_, ?_⟩
  · intro hdef
    rw [hdef, DestroyVpSurface_deferred_eq env s v os _ hos]
  · intro hdef
    rw [hdef]
    by_cases howner : v.isResourceOwner = true
    · rw [DestroyVpSurface_owner_eq env s v os _ hos howner halloc]
      simp
    · rw [Bool.not_eq_true] at howner
      rw [DestroyVpSurface_view_eq env s v os _ hos howner]
      simp
  · simp [ReAllocateSurface.allocParams, AllocParamsInitType]
  · intro h1 h2
    simp [ReAllocateSurface.mmcAdjusted, h1, h2]
  · intro h
    rcases h with h | h
    · simp [ReAllocateSurface.mmcAdjusted, h]
    · simp [ReAllocateSurface.mmcAdjusted, h]
  · intro hformat
    rw [heq]
    refine AllocateVpSurface_some_logged env _ _ _ _ _ v1 ?_ hnew
    simpa [ReAllocateSurface.allocParams] using hformat

/-- Instance of C14 (amended): the width of an NV12 surface changes from 1920
to 1280. -/
theorem ReAllocateSurface_width_changed_witness :
    (ReAllocateSurface Examples.vpEnv Examples.vpAllocator (some Examples.ownerSurface)
      (Examples.nv12Args 1280 false)).status = MOS_STATUS_SUCCESS ∧
    (ReAllocateSurface Examples.vpEnv Examples.vpAllocator (some Examples.ownerSurface)
      (Examples.nv12Args 1280 false)).allocated = true ∧
    (ReAllocateSurface Examples.vpEnv Examples.vpAllocator (some Examples.ownerSurface)
      (Examples.nv12Args 1280 false)).allocator.calls =
      [VpCall.allocatorDestroySurface Examples.nv12OsSurface { SynchronousDestroy := false },
       VpCall.deleteVpSurface Examples.ownerSurface,
       VpCall.newVpSurface,
       VpCall.allocatorAllocateSurface
         { Type_ := 2, TileType := MOS_TILE_Y, dwWidth := 1280, dwHeight := 1080,
           Format := Format_NV12, bIsCompressible := false,
           CompressionMode := MOS_MMC_DISABLED, pBufName := 0, dwArraySize := 1,
           ResUsageType := 0, m_tileModeByForce := 0, dwMemType := 0, bNotLockable := false,
           pSystemMemory := 0 } false] :=
  have h := (ReAllocateSurface_width_changed Examples.vpEnv Examples.vpAllocator
    Examples.ownerSurface Examples.nv12OsSurface (Examples.nv12Args 1280 false)
    ((AllocateVpSurface Examples.vpEnv
      (DestroyVpSurface Examples.vpEnv Examples.vpAllocator (some Examples.ownerSurface) false
        { SynchronousDestroy := false }).allocator
      (ReAllocateSurface.allocParams (Examples.nv12Args 1280 false) false MOS_MMC_DISABLED none)
      false 0 0).1.getD VP_SURFACE.zero)
    (Examples.osSurfaceOf
      (ReAllocateSurface.allocParams (Examples.nv12Args 1280 false) false MOS_MMC_DISABLED none))
    (by decide) rfl (Or.inr (by decide)) (by decide) (by decide) (by decide) (by decide)).1
  ⟨congrArg (fun r : ReAllocateSurfaceResult => r.status) h,
    congrArg (fun r : ReAllocateSurfaceResult => r.allocated) h, by decide⟩

end VpAllocator

namespace VpAllocator

open MOS_FORMAT MOS_TILE_TYPE MOS_MEMCOMP_STATE MOS_STATUS

theorem MOS_SecureMemcpy_apply (dst src : Buffer) (dstOff srcOff n i : Nat) :
    MOS_SecureMemcpy dst dstOff n src srcOff n i =
      if dstOff ≤ i ∧ i < dstOff + n then src (srcOff + (i - dstOff)) else dst i := by
  simp [MOS_SecureMemcpy]

theorem copyRow_iterate (src dst : Buffer) (n srcStep dstStep : Nat) (hstep : n ≤ dstStep) :
    ∀ k : Nat,
      (Nat.iterate (copyRow src n srcStep dstStep) k
        { tempSrc := 0, tempDst := 0, written := dst }).tempSrc = k * srcStep ∧
      (Nat.iterate (copyRow src n srcStep dstStep) k
        { tempSrc := 0, tempDst := 0, written := dst }).tempDst = k * dstStep ∧
      ∀ row < k, ∀ j < n,
        (Nat.iterate (copyRow src n srcStep dstStep) k
          { tempSrc := 0, tempDst := 0, written := dst }).written (row * dstStep + j)
          = src (row * srcStep + j) := by
  intro k
  induction k with
  | zero =>
    refine ⟨by simp, by simp, ?_⟩
    intro row hrow
    exact absurd hrow (Nat.not_lt_zero _)
  | succ k ih =>
    obtain ⟨h1, h2, h3⟩ := ih
    rw [Function.iterate_succ_apply']
    refine ⟨?_, ?_, ?_⟩
    · simp only [copyRow, h1]
      ring
    · simp only [copyRow, h2]
      ring
    · intro row hrow j hj
      simp only [copyRow, MOS_SecureMemcpy_apply, h1, h2]
      by_cases hk : row = k
      · subst hk
        have hin : row * dstStep ≤ row * dstStep + j ∧ row * dstStep + j < row * dstStep + n :=
          ⟨Nat.le_add_right _ _, by omega⟩
        rw [if_pos hin]
        congr 1
        omega
      · have hlt : row < k := by omega
        have hbound : (row + 1) * dstStep ≤ k * dstStep := Nat.mul_le_mul_right _ hlt
        have hout : ¬ (k * dstStep ≤ row * dstStep + j ∧ row * dstStep + j < k * dstStep + n) := by
          intro h
          have : row * dstStep + j < (row + 1) * dstStep := by
            rw [Nat.add_mul, Nat.one_mul]
            omega
          omega
        rw [if_neg hout]
        exact h3 row hlt j hj

theorem copyRows_apply (src dst : Buffer) (dwDepth dwHeight n srcStep dstStep : Nat)
    (hstep : n ≤ dstStep) (row j : Nat) (hrow : row < dwDepth * dwHeight) (hj : j < n) :
    copyRows src dst dwDepth dwHeight n srcStep dstStep (row * dstStep + j)
      = src (row * srcStep + j) := by
  have hflat : Nat.iterate (Nat.iterate (copyRow src n srcStep dstStep) dwHeight) dwDepth
      = Nat.iterate (copyRow src n srcStep dstStep) (dwHeight * dwDepth) :=
    (Function.iterate_mul _ dwHeight dwDepth).symm
  rw [copyRows, hflat]
  exact (copyRow_iterate src dst n srcStep dstStep hstep (dwHeight * dwDepth)).2.2 row
    (by rw [Nat.mul_comm]; exact hrow) j hj

theorem WriteSurface_memory (env : VpCollaborators) (s : VpAllocator) (surface : VPHAL_SURFACE)
    (bpp : Nat) (src mem : Buffer) (hs : s.m_allocator ≠ 0)
    (hlock : env.Lock s.calls surface.OsResource
      { ReadOnly := false, WriteOnly := true, NoOverWrite := false } ≠ 0) :
    (WriteSurface env s surface bpp src mem).2.2 =
      (if surface.dwPitch = widthInBytes surface bpp then
        MOS_SecureMemcpy mem 0 (surfaceSizeInBytes surface bpp) src 0
          (surfaceSizeInBytes surface bpp)
      else
        copyRows src mem surface.dwDepth surface.dwHeight (widthInBytes surface bpp)
          (widthInBytes surface bpp) surface.dwPitch) ∧
    (WriteSurface env s surface bpp src mem).2.1.m_allocator = s.m_allocator := by
  simp only [WriteSurface, LockResourceForWrite, if_neg hs, if_neg hlock]
  split_ifs <;> exact ⟨rfl, rfl⟩

theorem ReadSurface_buffer (env : VpCollaborators) (s : VpAllocator) (surface : VPHAL_SURFACE)
    (bpp : Nat) (dst mem : Buffer) (hs : s.m_allocator ≠ 0)
    (hlock : env.Lock s.calls surface.OsResource
      { ReadOnly := true, WriteOnly := false, NoOverWrite := false } ≠ 0) :
    (ReadSurface env s surface bpp dst mem).2.2 =
      (if surface.dwPitch = widthInBytes surface bpp then
        MOS_SecureMemcpy dst 0 (surfaceSizeInBytes surface bpp) mem 0
          (surfaceSizeInBytes surface bpp)
      else
        copyRows mem dst surface.dwDepth surface.dwHeight (widthInBytes surface bpp)
          surface.dwPitch (widthInBytes surface bpp)) := by
  simp only [ReadSurface, LockResourceForRead, if_neg hs, if_neg hlock]
  split_ifs <;> rfl

theorem widthInBytes_eq (surface : VPHAL_SURFACE) (bpp : Nat)
    (hh : 0 < surface.dwHeight) (hd : 0 < surface.dwDepth)
    (hov : surface.dwWidth * surface.dwHeight * surface.dwDepth * bpp < 2 ^ 32) :
    widthInBytes surface bpp = surface.dwWidth * bpp / 8 := by
  have h1 : surface.dwWidth * bpp ≤ surface.dwWidth * surface.dwHeight * surface.dwDepth * bpp := by
    apply Nat.mul_le_mul_right
    calc surface.dwWidth = surface.dwWidth * 1 * 1 := by ring
      _ ≤ surface.dwWidth * surface.dwHeight * surface.dwDepth :=
        Nat.mul_le_mul (Nat.mul_le_mul_left _ hh) hd
  rw [widthInBytes, Nat.mod_eq_of_lt (lt_of_le_of_lt h1 hov)]

theorem surfaceSizeInBytes_eq (surface : VPHAL_SURFACE) (bpp : Nat)
    (hd : 0 < surface.dwDepth) (hb : 0 < bpp)
    (hov : surface.dwWidth * surface.dwHeight * surface.dwDepth * bpp < 2 ^ 32) :
    surfaceSizeInBytes surface bpp
      = surface.dwWidth * surface.dwHeight * surface.dwDepth * bpp / 8 := by
  have h2 : surface.dwWidth * surface.dwHeight * surface.dwDepth
      ≤ surface.dwWidth * surface.dwHeight * surface.dwDepth * bpp :=
    Nat.le_mul_of_pos_right _ hb
  have h1 : surface.dwWidth * surface.dwHeight
      ≤ surface.dwWidth * surface.dwHeight * surface.dwDepth :=
    Nat.le_mul_of_pos_right _ hd
  rw [surfaceSizeInBytes, Nat.mod_eq_of_lt (lt_of_le_of_lt (le_trans h1 h2) hov),
    Nat.mod_eq_of_lt (lt_of_le_of_lt h2 hov), Nat.mod_eq_of_lt hov]

/-- C18: for a surface with positive height, depth and bits per pixel whose size
computation does not overflow 32 bits, with a non-null allocator and both locks
succeeding on the same memory, `WriteSurface` followed by `ReadSurface` gives
back the source bytes: when the pitch equals the packed row width
`dwWidth * bpp / 8`, every one of the `dwWidth * dwHeight * dwDepth * bpp / 8`
copied bytes of `dst` equals that of `src`; when the pitch is greater, every
byte of the `dwDepth * dwHeight` packed rows of `dst` equals that of `src`
(the padding of the locked memory is not compared). -/
theorem WriteSurface_ReadSurface_round_trip (env : VpCollaborators) (s : VpAllocator)
    (surface : VPHAL_SURFACE) (bpp : Nat) (src dst mem : Buffer)
    (hh : 0 < surface.dwHeight) (hd : 0 < surface.dwDepth) (hb : 0 < bpp)
    (hov : surface.dwWidth * surface.dwHeight * surface.dwDepth * bpp < 2 ^ 32)
    (hs : s.m_allocator ≠ 0)
    (hwl : env.Lock s.calls surface.OsResource
      { ReadOnly := false, WriteOnly := true, NoOverWrite := false } ≠ 0)
    (hrl : env.Lock (WriteSurface env s surface bpp src mem).2.1.calls surface.OsResource
      { ReadOnly := true, WriteOnly := false, NoOverWrite := false } ≠ 0) :
    (surface.dwPitch = surface.dwWidth * bpp / 8 →
      ∀ i < surface.dwWidth * surface.dwHeight * surface.dwDepth * bpp / 8,
        (ReadSurface env (WriteSurface env s surface bpp src mem).2.1 surface bpp dst
          (WriteSurface env s surface bpp src mem).2.2).2.2 i = src i) ∧
    (surface.dwWidth * bpp / 8 < surface.dwPitch →
      ∀ i < surface.dwDepth * surface.dwHeight * (surface.dwWidth * bpp / 8),
        (ReadSurface env (WriteSurface env s surface bpp src mem).2.1 surface bpp dst
          (WriteSurface env s surface bpp src mem).2.2).2.2 i = src i) := by
  obtain ⟨hmem, hall⟩ := WriteSurface_memory env s surface bpp src mem hs hwl
  have hs2 : (WriteSurface env s surface bpp src mem).2.1.m_allocator ≠ 0 := by
    rw [hall]
    exact hs
  have hbuf := ReadSurface_buffer env (WriteSurface env s surface bpp src mem).2.1 surface bpp dst
    (WriteSurface env s surface bpp src mem).2.2 hs2 hrl
  have hwib := widthInBytes_eq surface bpp hh hd hov
  have hsize := surfaceSizeInBytes_eq surface bpp hd hb hov
  rw [hbuf, hmem, hwib, hsize]
  refine ⟨?_, ?_⟩
  · intro hp i hi
    rw [if_pos hp, if_pos hp, MOS_SecureMemcpy_apply, MOS_SecureMemcpy_apply]
    simp [hi]
  · intro hp i hi
    have hne : ¬ surface.dwPitch = surface.dwWidth * bpp / 8 := by omega
    rw [if_neg hne, if_neg hne]
    have hpos : 0 < surface.dwWidth * bpp / 8 := by
      rcases Nat.eq_zero_or_pos (surface.dwWidth * bpp / 8) with h0 | h0
      · rw [h0, Nat.mul_zero] at hi
        exact absurd hi (Nat.not_lt_zero _)
      · exact h0
    have hrow : i / (surface.dwWidth * bpp / 8) < surface.dwDepth * surface.dwHeight :=
      Nat.div_lt_of_lt_mul (by rw [Nat.mul_comm]; exact hi)
    have hj : i % (surface.dwWidth * bpp / 8) < surface.dwWidth * bpp / 8 := Nat.mod_lt _ hpos
    have hi2 : i = i / (surface.dwWidth * bpp / 8) * (surface.dwWidth * bpp / 8)
        + i % (surface.dwWidth * bpp / 8) := (Nat.div_add_mod' i _).symm
    have h1 := copyRows_apply
      (copyRows src mem surface.dwDepth surface.dwHeight (surface.dwWidth * bpp / 8)
        (surface.dwWidth * bpp / 8) surface.dwPitch)
      dst surface.dwDepth surface.dwHeight (surface.dwWidth * bpp / 8) surface.dwPitch
      (surface.dwWidth * bpp / 8) (le_refl _) _ _ hrow hj
    have h2 := copyRows_apply src mem surface.dwDepth surface.dwHeight
      (surface.dwWidth * bpp / 8) (surface.dwWidth * bpp / 8) surface.dwPitch (le_of_lt hp)
      _ _ hrow hj
    rw [← hi2] at h1 h2
    rw [h1, h2]

theorem WriteSurface_ReadSurface_round_trip_witness :
    (∀ i < 2 * 2 * 1 * 8 / 8,
      (ReadSurface Examples.vpEnv
        (WriteSurface Examples.vpEnv Examples.vpAllocator Examples.packedSurface 8
          (fun i => i + 7) (fun _ => 0)).2.1 Examples.packedSurface 8 (fun _ => 1)
        (WriteSurface Examples.vpEnv Examples.vpAllocator Examples.packedSurface 8
          (fun i => i + 7) (fun _ => 0)).2.2).2.2 i = i + 7) ∧
    (∀ i < 1 * 2 * (2 * 8 / 8),
      (ReadSurface Examples.vpEnv
        (WriteSurface Examples.vpEnv Examples.vpAllocator Examples.paddedSurface 8
          (fun i => i + 7) (fun _ => 0)).2.1 Examples.paddedSurface 8 (fun _ => 1)
        (WriteSurface Examples.vpEnv Examples.vpAllocator Examples.paddedSurface 8
          (fun i => i + 7) (fun _ => 0)).2.2).2.2 i = i + 7) :=
  ⟨(WriteSurface_ReadSurface_round_trip Examples.vpEnv Examples.vpAllocator
      Examples.packedSurface 8 (fun i => i + 7) (fun _ => 1) (fun _ => 0)
      (by decide) (by decide) (by decide) (by decide) (by decide) (by decide) (by decide)).1
      (by decide),
   (WriteSurface_ReadSurface_round_trip Examples.vpEnv Examples.vpAllocator
      Examples.paddedSurface 8 (fun i => i + 7) (fun _ => 1) (fun _ => 0)
      (by decide) (by decide) (by decide) (by decide) (by decide) (by decide) (by decide)).2
      (by decide)⟩

end VpAllocator

namespace GpuCtxMgrWrapper

open GpuCtxMgrComponentFuncType MOS_STATUS

/-- C21: for every function-type value outside the five the switch names that
has no pool entry, `CreateGpuContext` returns `MOS_STATUS_INVALID_PARAMETER` and
leaves the whole wrapper as it was (no collaborator call is logged, nothing is
inserted, the current context is kept), whatever the engine manager and the OS
context are. -/
theorem CreateGpuContext_unknown_type (env : GpuCollaborators) (s : GpuCtxMgrWrapper)
    (raw : Nat)
    (habsent : mapFind s.m_contextPool (GpuCtxMgrComponentFuncType.other raw) = none) :
    CreateGpuContext env s (GpuCtxMgrComponentFuncType.other raw)
      = (MOS_STATUS_INVALID_PARAMETER, s) := by
  have h0 := mapCount_of_find_none habsent
  simp [CreateGpuContext, h0, funcTypeSwitch]

/-- Instances of C21: an unknown function type on a wrapper with and without
an engine manager. -/
theorem CreateGpuContext_unknown_type_witness :
    CreateGpuContext Examples.gpuEnv Examples.freshWrapper (GpuCtxMgrComponentFuncType.other 7)
      = (MOS_STATUS_INVALID_PARAMETER, Examples.freshWrapper) ∧
    CreateGpuContext Examples.gpuEnv Examples.wrapperWithoutMgr
        (GpuCtxMgrComponentFuncType.other 7)
      = (MOS_STATUS_INVALID_PARAMETER, Examples.wrapperWithoutMgr) :=
  ⟨CreateGpuContext_unknown_type Examples.gpuEnv Examples.freshWrapper 7 rfl,
   CreateGpuContext_unknown_type Examples.gpuEnv Examples.wrapperWithoutMgr 7 rfl⟩

/-- C22: with a current context, `VerifyCmdBufferAndPatchListSize` returns the
status of the command-buffer size check unchanged when that check fails, and
then the patch-list check is not called; otherwise it returns the status of
the patch-list size check unchanged when that check fails; otherwise success.
With no current context it returns `MOS_STATUS_NULL_POINTER` and calls neither
check. -/
theorem VerifyCmdBufferAndPatchListSize_short_circuit (env : GpuCollaborators)
    (s : GpuCtxMgrWrapper) (c p : Nat) :
    (s.m_currentGpuContext ≠ 0 →
      env.VerifyCommandBufferSize s.calls s.m_currentGpuContext c ≠ MOS_STATUS_SUCCESS →
      VerifyCmdBufferAndPatchListSize env s c p =
        (env.VerifyCommandBufferSize s.calls s.m_currentGpuContext c,
          { s with calls := s.calls ++
            [GpuCall.ctxVerifyCommandBufferSize s.m_currentGpuContext c] })) ∧
    (s.m_currentGpuContext ≠ 0 →
      env.VerifyCommandBufferSize s.calls s.m_currentGpuContext c = MOS_STATUS_SUCCESS →
      env.VerifyPatchListSize
          (s.calls ++ [GpuCall.ctxVerifyCommandBufferSize s.m_currentGpuContext c])
          s.m_currentGpuContext p ≠ MOS_STATUS_SUCCESS →
      VerifyCmdBufferAndPatchListSize env s c p =
        (env.VerifyPatchListSize
            (s.calls ++ [GpuCall.ctxVerifyCommandBufferSize s.m_currentGpuContext c])
            s.m_currentGpuContext p,
          { s with calls := s.calls ++
            [GpuCall.ctxVerifyCommandBufferSize s.m_currentGpuContext c,
             GpuCall.ctxVerifyPatchListSize s.m_currentGpuContext p] })) ∧
    (s.m_currentGpuContext ≠ 0 →
      env.VerifyCommandBufferSize s.calls s.m_currentGpuContext c = MOS_STATUS_SUCCESS →
      env.VerifyPatchListSize
          (s.calls ++ [GpuCall.ctxVerifyCommandBufferSize s.m_currentGpuContext c])
          s.m_currentGpuContext p = MOS_STATUS_SUCCESS →
      VerifyCmdBufferAndPatchListSize env s c p =
        (MOS_STATUS_SUCCESS,
          { s with calls := s.calls ++
            [GpuCall.ctxVerifyCommandBufferSize s.m_currentGpuContext c,
             GpuCall.ctxVerifyPatchListSize s.m_currentGpuContext p] })) ∧
    (s.m_currentGpuContext = 0 →
      VerifyCmdBufferAndPatchListSize env s c p = (MOS_STATUS_NULL_POINTER, s)) := by
  refine ⟨?_, ?_, ?_, ?_⟩
  · intro hcur hcmd
    simp [VerifyCmdBufferAndPatchListSize, hcur, MOS_FAILED, hcmd]
  · intro hcur hcmd hpatch
    simp [VerifyCmdBufferAndPatchListSize, hcur, MOS_FAILED, hcmd, hpatch]
  · intro hcur hcmd hpatch
    simp [VerifyCmdBufferAndPatchListSize, hcur, MOS_FAILED, hcmd, hpatch]
  · intro hcur
    simp [VerifyCmdBufferAndPatchListSize, hcur]

/-- Instances of C22: a command buffer that is too large, a patch list that is
too large, and a wrapper without a current context. -/
theorem VerifyCmdBufferAndPatchListSize_short_circuit_witness :
    VerifyCmdBufferAndPatchListSize Examples.gpuEnvLimited Examples.wrapperDecodeCurrent 8192 16
      = (MOS_STATUS_UNKNOWN,
          { Examples.wrapperDecodeCurrent with
            calls := Examples.wrapperDecodeCurrent.calls ++
              [GpuCall.ctxVerifyCommandBufferSize
                Examples.wrapperDecodeCurrent.m_currentGpuContext 8192] }) ∧
    VerifyCmdBufferAndPatchListSize Examples.gpuEnvLimited Examples.wrapperDecodeCurrent 1024 128
      = (MOS_STATUS_INVALID_PARAMETER,
          { Examples.wrapperDecodeCurrent with
            calls := Examples.wrapperDecodeCurrent.calls ++
              [GpuCall.ctxVerifyCommandBufferSize
                Examples.wrapperDecodeCurrent.m_currentGpuContext 1024,
               GpuCall.ctxVerifyPatchListSize
                Examples.wrapperDecodeCurrent.m_currentGpuContext 128] }) ∧
    VerifyCmdBufferAndPatchListSize Examples.gpuEnvLimited Examples.freshWrapper 1024 16
      = (MOS_STATUS_NULL_POINTER, Examples.freshWrapper) :=
  ⟨(VerifyCmdBufferAndPatchListSize_short_circuit Examples.gpuEnvLimited
      Examples.wrapperDecodeCurrent 8192 16).1 (by decide) (by decide),
   (VerifyCmdBufferAndPatchListSize_short_circuit Examples.gpuEnvLimited
      Examples.wrapperDecodeCurrent 1024 128).2.1 (by decide) (by decide) (by decide),
   (VerifyCmdBufferAndPatchListSize_short_circuit Examples.gpuEnvLimited
      Examples.freshWrapper 1024 16).2.2.2 (by decide)⟩

end GpuCtxMgrWrapper

namespace MediaCopyBaseState

open MOS_MEMCOMP_STATE MCPY_CPMODE MCPY_ENGINE MCPY_METHOD MOS_STATUS

/-- C25 as stated fails: the base `AuxCopy` returns `MOS_STATUS_INVALID_HANDLE`,
not `MOS_STATUS_UNIMPLEMENTED`. -/
theorem AuxCopy_counterexample :
    (AuxCopy (Examples.copyState true true true) 1 2).1 = MOS_STATUS_INVALID_HANDLE ∧
    (AuxCopy (Examples.copyState true true true) 1 2).1 ≠ MOS_STATUS_UNIMPLEMENTED := by
  decide

/-- C25 (amended): the base `AuxCopy` fails for every source and destination
with `MOS_STATUS_INVALID_HANDLE`; it leaves the state as it was (no call is
logged), so it performs no copy. -/
theorem AuxCopy_returns_invalid_handle (s : MediaCopyBaseState) (src dst : Ptr) :
    AuxCopy s src dst = (MOS_STATUS_INVALID_HANDLE, s) ∧
    (AuxCopy s src dst).1 ≠ MOS_STATUS_SUCCESS ∧
    (AuxCopy s src dst).2.calls = s.calls := by
  refine ⟨rfl, ?_, rfl⟩
  simp [AuxCopy]

/-- C28: for every preference value other than Performance, Balance and
PowerSaving, `CopyEnigneSelect` returns success and leaves the whole state, so
`m_mcpyEngine`, as it was, whatever the capability set is; in `SurfaceCopy` the
engine `TaskDispatch` then sees is the one set before the call, since the
resource queries and `CapabilityCheck` do not write `m_mcpyEngine`. -/
theorem CopyEnigneSelect_other_preference (s : MediaCopyBaseState) (raw : Nat) :
    CopyEnigneSelect s (MCPY_METHOD.other raw) = (MOS_STATUS_SUCCESS, s) ∧
    (∀ caps : MCPY_ENGINE_CAPS,
      (CopyEnigneSelect { s with m_mcpyEngineCaps := caps } (MCPY_METHOD.other raw)).2.m_mcpyEngine
        = s.m_mcpyEngine) ∧
    (∀ (env : CopyCollaborators) (src dst : Ptr),
      (CopyEnigneSelect (CapabilityCheck env (SurfaceCopy.resourceDetails env s src dst).2).2
        (MCPY_METHOD.other raw)).2.m_mcpyEngine = s.m_mcpyEngine) := by
  refine ⟨rfl, fun _ => rfl, ?_⟩
  intro env src dst
  have h1 := (CapabilityCheck_frame env (SurfaceCopy.resourceDetails env s src dst).2).2.1
  have h2 := (resourceDetails_frame env s src dst).1
  show (CapabilityCheck env (SurfaceCopy.resourceDetails env s src dst).2).2.m_mcpyEngine
    = s.m_mcpyEngine
  rw [h1, h2]

end MediaCopyBaseState

namespace MosInterfaceGpuWrapper

open GpuWrapperComponentFuncType MOS_GPU_CONTEXT MOS_GPU_NODE MOS_STATUS

/-- C23 fails on the code: `MosInterfaceGpuWrapper::CreateGpuContext` has no
test for an existing entry.  On the wrapper that already holds a decode context
a second `CreateGpuContext` for the decode type calls `pfnCreateGpuContext`
again; with an OS interface that refuses to create a context twice it returns
that failure, and with one that accepts it returns success after a second
creation. -/
theorem CreateGpuContext_existing_entry_calls_create :
    mapFind Examples.interfaceWrapperWithDecode.m_contextMap GPU_WRAPPER_FUNC_TYPE_DECODE
      = some MOS_GPU_CONTEXT_VIDEO_DECODE ∧
    Examples.interfaceWrapperWithDecode.calls
      = [OsInterfaceCall.pfnCreateGpuContext MOS_GPU_CONTEXT_VIDEO_DECODE MOS_GPU_NODE_VIDEO 0] ∧
    (CreateGpuContext Examples.osInterface Examples.interfaceWrapperWithDecode
      GPU_WRAPPER_FUNC_TYPE_DECODE).1 = MOS_STATUS_UNKNOWN ∧
    (CreateGpuContext Examples.osInterface Examples.interfaceWrapperWithDecode
      GPU_WRAPPER_FUNC_TYPE_DECODE).2.calls
      = [OsInterfaceCall.pfnCreateGpuContext MOS_GPU_CONTEXT_VIDEO_DECODE MOS_GPU_NODE_VIDEO 0,
         OsInterfaceCall.pfnCreateGpuContext MOS_GPU_CONTEXT_VIDEO_DECODE MOS_GPU_NODE_VIDEO 0] ∧
    (CreateGpuContext Examples.osInterfaceLenient Examples.interfaceWrapperWithDecode
      GPU_WRAPPER_FUNC_TYPE_DECODE).1 = MOS_STATUS_SUCCESS ∧
    (CreateGpuContext Examples.osInterfaceLenient Examples.interfaceWrapperWithDecode
      GPU_WRAPPER_FUNC_TYPE_DECODE).2.calls
      = [OsInterfaceCall.pfnCreateGpuContext MOS_GPU_CONTEXT_VIDEO_DECODE MOS_GPU_NODE_VIDEO 0,
         OsInterfaceCall.pfnCreateGpuContext MOS_GPU_CONTEXT_VIDEO_DECODE MOS_GPU_NODE_VIDEO 0] := by
  decide

/-- C24 as stated fails: on a wrapper with its OS interface and destroy
function, `DestroyGpuContext` for a function type without an entry returns
`MOS_STATUS_SUCCESS`, not the not-found status `MOS_STATUS_INVALID_HANDLE`. -/
theorem DestroyGpuContext_absent_entry_counterexample :
    Examples.interfaceWrapper.m_osInterface ≠ 0 ∧
    Examples.osInterface.pfnDestroyGpuContext.isSome = true ∧
    mapFind Examples.interfaceWrapper.m_contextMap GPU_WRAPPER_FUNC_TYPE_DECODE = none ∧
    (DestroyGpuContext Examples.osInterface Examples.interfaceWrapper
      GPU_WRAPPER_FUNC_TYPE_DECODE).1 = MOS_STATUS_SUCCESS ∧
    (DestroyGpuContext Examples.osInterface Examples.interfaceWrapper
      GPU_WRAPPER_FUNC_TYPE_DECODE).1 ≠ MOS_STATUS_INVALID_HANDLE := by
  decide

/-- C24 (amended): on a wrapper whose OS interface and destroy function are
present, `DestroyGpuContext` for a function type without an entry in the
context map returns `MOS_STATUS_SUCCESS` and leaves the whole wrapper as it was:
the context map and the current function type are unchanged and the destroy
function is not called. -/
theorem DestroyGpuContext_absent_entry (osInterface : MOS_INTERFACE)
    (s : MosInterfaceGpuWrapper) (t : GpuWrapperComponentFuncType)
    (hos : s.m_osInterface ≠ 0) (hfn : osInterface.pfnDestroyGpuContext.isSome = true)
    (habsent : mapFind s.m_contextMap t = none) :
    DestroyGpuContext osInterface s t = (MOS_STATUS_SUCCESS, s) := by
  cases hf : osInterface.pfnDestroyGpuContext with
  | none => rw [hf] at hfn; cases hfn
  | some f => simp [DestroyGpuContext, hos, hf, habsent]

/-- Instance of C24 (amended): the decode type on a wrapper that holds no
context. -/
theorem DestroyGpuContext_absent_entry_witness :
    DestroyGpuContext Examples.osInterface Examples.interfaceWrapper GPU_WRAPPER_FUNC_TYPE_DECODE
      = (MOS_STATUS_SUCCESS, Examples.interfaceWrapper) :=
  DestroyGpuContext_absent_entry Examples.osInterface Examples.interfaceWrapper
    GPU_WRAPPER_FUNC_TYPE_DECODE (by decide) rfl rfl

end MosInterfaceGpuWrapper

namespace VpAllocator

open MOS_FORMAT MOS_TILE_TYPE MOS_MEMCOMP_STATE MOS_STATUS

theorem AllocateVpSurface_osSurface (env : VpCollaborators) (s : VpAllocator)
    (param : MOS_ALLOC_GFXRES_PARAMS) (zeroOnAllocate : Bool) (ColorSpace : Int)
    (ChromaSiting : Nat) (v : VP_SURFACE)
    (h : (AllocateVpSurface env s param zeroOnAllocate ColorSpace ChromaSiting).1 = some v) :
    v.osSurface ≠ none := by
  by_cases hn : env.MOS_New_VP_SURFACE s.calls = false
  · simp [AllocateVpSurface, hn] at h
  · rw [AllocateVpSurface] at h
    simp only [if_neg hn] at h
    generalize (if param.Format = Format_Buffer then
      ({ param with dwWidth := (param.dwWidth * param.dwHeight) % 2 ^ 32, dwHeight := 1 } :
        MOS_ALLOC_GFXRES_PARAMS) else param) = param1 at h
    cases hA : (AllocateSurface env { s with calls := s.calls ++ [VpCall.newVpSurface] } param1
        zeroOnAllocate).1 with
    | none =>
      simp only [hA] at h
      cases h
    | some os =>
      simp only [hA] at h
      split_ifs at h <;>
      · cases h
        simp

theorem AllocateVpSurface_VPHAL_SURFACE_osSurface (env : VpCollaborators) (s : VpAllocator)
    (vphalSurf : VPHAL_SURFACE) (v : VP_SURFACE)
    (h : (AllocateVpSurface_VPHAL_SURFACE env s vphalSurf).1 = some v) :
    v.osSurface ≠ none := by
  simp only [AllocateVpSurface_VPHAL_SURFACE] at h
  split_ifs at h
  all_goals simp only [Option.some.injEq, reduceCtorEq] at h
  subst h
  simp

theorem AllocateVpSurface_VP_SURFACE_osSurface (env : VpCollaborators) (s : VpAllocator)
    (vpSurfSrc : VP_SURFACE) (v : VP_SURFACE)
    (h : (AllocateVpSurface_VP_SURFACE env s vpSurfSrc).1 = some v) :
    v.osSurface ≠ none := by
  cases hsrc : vpSurfSrc.osSurface with
  | none => simp [AllocateVpSurface_VP_SURFACE, hsrc] at h
  | some srcOs =>
    simp only [AllocateVpSurface_VP_SURFACE, hsrc] at h
    split_ifs at h
    all_goals simp only [Option.some.injEq, reduceCtorEq] at h
    subst h
    simp

theorem AllocateVpSurface_MOS_SURFACE_osSurface (env : VpCollaborators) (s : VpAllocator)
    (osSurf : MOS_SURFACE) (colorSpace : Int) (chromaSiting : Nat) (rcSrc rcDst : RECT)
    (SurfType : Int) (updatePlaneOffset : Bool) (v : VP_SURFACE)
    (h : (AllocateVpSurface_MOS_SURFACE env s osSurf colorSpace chromaSiting rcSrc rcDst SurfType
      updatePlaneOffset).1 = some v) :
    v.osSurface ≠ none := by
  simp only [AllocateVpSurface_MOS_SURFACE] at h
  split_ifs at h
  all_goals simp only [Option.some.injEq, reduceCtorEq] at h
  all_goals subst h
  all_goals simp

theorem AllocateVpSurface_empty_osSurface (env : VpCollaborators) (s : VpAllocator)
    (v : VP_SURFACE) (h : (AllocateVpSurface_empty env s).1 = some v) :
    v.osSurface ≠ none := by
  simp only [AllocateVpSurface_empty] at h
  split_ifs at h
  all_goals simp only [Option.some.injEq, reduceCtorEq] at h
  subst h
  simp [VP_SURFACE.Clean]

theorem CopyVpSurface_success (dst src : VP_SURFACE)
    (h : (CopyVpSurface dst src).1 = MOS_STATUS_SUCCESS) :
    dst.osSurface ≠ none ∧ dst.isResourceOwner = false ∧
    ∃ srcOs, src.osSurface = some srcOs ∧
      (CopyVpSurface dst src).2 = { src with osSurface := some srcOs, isResourceOwner := false } := by
  cases hd : dst.osSurface with
  | none => simp [CopyVpSurface, hd] at h
  | some dos =>
    cases hs : src.osSurface with
    | none => simp [CopyVpSurface, hd, hs] at h
    | some sos =>
      by_cases ho : dst.isResourceOwner = true
      · simp [CopyVpSurface, hd, hs, ho] at h
      · simp [CopyVpSurface, hd, hs, ho]

theorem ObtainedFromAllocator_osSurface_ne_none (env : VpCollaborators) (v : VP_SURFACE)
    (h : ObtainedFromAllocator env v) : v.osSurface ≠ none := by
  induction h with
  | ofParams s param z cs ch v h => exact AllocateVpSurface_osSurface env s param z cs ch v h
  | ofVphalSurface s vs v h => exact AllocateVpSurface_VPHAL_SURFACE_osSurface env s vs v h
  | ofVpSurface s src v h => exact AllocateVpSurface_VP_SURFACE_osSurface env s src v h
  | ofMosSurface s os cs ch r1 r2 st u v h =>
    exact AllocateVpSurface_MOS_SURFACE_osSurface env s os cs ch r1 r2 st u v h
  | empty s v h => exact AllocateVpSurface_empty_osSurface env s v h
  | copy dst src _ hc _ =>
    obtain ⟨_, _, srcOs, _, heq⟩ := CopyVpSurface_success dst src hc
    rw [heq]
    simp

theorem ReAllocateSurface_cases (env : VpCollaborators) (s : VpAllocator)
    (surface : Option VP_SURFACE) (a : ReAllocateSurfaceArgs) (r : ReAllocateSurfaceResult)
    (hr : ReAllocateSurface env s surface a = r) :
    (r.allocated = true →
      r.status = MOS_STATUS_SUCCESS ∧
      ∃ v os, r.surface = some v ∧ v.osSurface = some os ∧
        Mos_ResourceIsNull os.OsResource = false) ∧
    (r.status ≠ MOS_STATUS_SUCCESS → r.allocated = false) := by
  by_cases h0 : s.m_allocator = 0
  · rw [ReAllocateSurface_without_allocator_eq env s surface a h0] at hr
    subst hr
    simp
  · by_cases hu : ReAllocateSurface.unchanged a (ReAllocateSurface.mmcAdjusted env a).1
        (ReAllocateSurface.mmcAdjusted env a).2 surface = true
    · rw [ReAllocateSurface_unchanged_eq env s surface a h0 hu] at hr
      subst hr
      simp
    · rw [ReAllocateSurface] at hr
      simp only [if_neg h0, if_neg hu] at hr
      by_cases hnull : surface.isSome = true ∧ surface.bind (fun v => v.osSurface) = none
      · simp only [if_pos hnull] at hr
        subst hr
        simp
      · simp only [if_neg hnull] at hr
        generalize DestroyVpSurface env s surface a.deferredDestroyed
          (syncFreeFlags env surface) = d at hr
        by_cases hds : d.status ≠ MOS_STATUS_SUCCESS
        · simp only [if_pos hds] at hr
          subst hr
          simp [hds]
        · simp only [if_neg hds] at hr
          generalize AllocateVpSurface env d.allocator
            (ReAllocateSurface.allocParams a (ReAllocateSurface.mmcAdjusted env a).1
              (ReAllocateSurface.mmcAdjusted env a).2 d.surface)
            a.zeroOnAllocate env.defaultColorSpace env.defaultChromaSiting = n at hr
          cases hn1 : n.1 with
          | none =>
            simp only [hn1] at hr
            subst hr
            simp
          | some v =>
            simp only [hn1] at hr
            cases hv : v.osSurface with
            | none =>
              simp only [hv] at hr
              subst hr
              simp
            | some os =>
              simp only [hv] at hr
              by_cases hres : Mos_ResourceIsNull os.OsResource = true
              · simp only [if_pos hres] at hr
                subst hr
                simp
              · simp only [if_neg hres] at hr
                subst hr
                simp [hv, hres]

/-- C30: for every call of `ReAllocateSurface` (`VP_SURFACE` overload), if the
output flag `allocated` is true on return then the call returned success and
the handle refers to a surface with a non-null `osSurface` and a non-null
resource; whenever the status is not success `allocated` is false; and on the
unchanged fast path (the early-return test accepts the surface) `allocated` is
false. -/
theorem ReAllocateSurface_allocated_flag (env : VpCollaborators) (s : VpAllocator)
    (surface : Option VP_SURFACE) (a : ReAllocateSurfaceArgs) :
    ((ReAllocateSurface env s surface a).allocated = true →
      (ReAllocateSurface env s surface a).status = MOS_STATUS_SUCCESS ∧
      ∃ v os, (ReAllocateSurface env s surface a).surface = some v ∧ v.osSurface = some os ∧
        Mos_ResourceIsNull os.OsResource = false) ∧
    ((ReAllocateSurface env s surface a).status ≠ MOS_STATUS_SUCCESS →
      (ReAllocateSurface env s surface a).allocated = false) ∧
    (ReAllocateSurface.unchanged a (ReAllocateSurface.mmcAdjusted env a).1
        (ReAllocateSurface.mmcAdjusted env a).2 surface = true →
      (ReAllocateSurface env s surface a).allocated = false) := by
  obtain ⟨h1, h2⟩ := ReAllocateSurface_cases env s surface a _ rfl
  refine ⟨h1, h2, ?_⟩
  intro hu
  by_cases h0 : s.m_allocator = 0
  · rw [ReAllocateSurface_without_allocator_eq env s surface a h0]
  · rw [ReAllocateSurface_unchanged_eq env s surface a h0 hu]

/-- Instances of C30: a first allocation sets the flag and leaves a surface
with a resource; the same request again, and a request on an allocator without
its underlying `Allocator`, leave the flag false. -/
theorem ReAllocateSurface_allocated_flag_witness :
    ((ReAllocateSurface Examples.vpEnv Examples.vpAllocator none
        (Examples.nv12Args 1920 false)).status = MOS_STATUS_SUCCESS ∧
      ∃ v os, (ReAllocateSurface Examples.vpEnv Examples.vpAllocator none
          (Examples.nv12Args 1920 false)).surface = some v ∧ v.osSurface = some os ∧
        Mos_ResourceIsNull os.OsResource = false) ∧
    (ReAllocateSurface Examples.vpEnv Examples.vpAllocatorWithoutAllocator none
      (Examples.nv12Args 1920 false)).allocated = false ∧
    (ReAllocateSurface Examples.vpEnv Examples.vpAllocator (some Examples.viewSurface)
      (Examples.nv12Args 1920 false)).allocated = false :=
  ⟨(ReAllocateSurface_allocated_flag Examples.vpEnv Examples.vpAllocator none
      (Examples.nv12Args 1920 false)).1 (by decide),
   (ReAllocateSurface_allocated_flag Examples.vpEnv Examples.vpAllocatorWithoutAllocator none
      (Examples.nv12Args 1920 false)).2.1 (by decide),
   (ReAllocateSurface_allocated_flag Examples.vpEnv Examples.vpAllocator
      (some Examples.viewSurface) (Examples.nv12Args 1920 false)).2.2 (by decide)⟩

/-- C26: every surface one of the five `AllocateVpSurface` overloads returns
has a non-null `osSurface`; a successful `CopyVpSurface` needs a destination
with a non-null `osSurface` and leaves the destination with a non-null
`osSurface`, which holds the descriptor of the source.  Hence for every surface
obtained from the allocator the `osSurface` is non-null, `DestroyVpSurface`
does not take its null-`osSurface` return (which would leave the handle set):
the handle is null afterwards; and `ReAllocateSurface`, when the surface does
not match the request, goes on to `DestroyVpSurface` and the new allocation
instead of returning at its null-`osSurface` test. -/
theorem AllocateVpSurface_osSurface_non_null (env : VpCollaborators) :
    (∀ (s : VpAllocator) (param : MOS_ALLOC_GFXRES_PARAMS) (zeroOnAllocate : Bool)
        (ColorSpace : Int) (ChromaSiting : Nat) (v : VP_SURFACE),
      (AllocateVpSurface env s param zeroOnAllocate ColorSpace ChromaSiting).1 = some v →
      v.osSurface ≠ none) ∧
    (∀ (s : VpAllocator) (vphalSurf : VPHAL_SURFACE) (v : VP_SURFACE),
      (AllocateVpSurface_VPHAL_SURFACE env s vphalSurf).1 = some v → v.osSurface ≠ none) ∧
    (∀ (s : VpAllocator) (vpSurfSrc v : VP_SURFACE),
      (AllocateVpSurface_VP_SURFACE env s vpSurfSrc).1 = some v → v.osSurface ≠ none) ∧
    (∀ (s : VpAllocator) (osSurf : MOS_SURFACE) (colorSpace : Int) (chromaSiting : Nat)
        (rcSrc rcDst : RECT) (SurfType : Int) (updatePlaneOffset : Bool) (v : VP_SURFACE),
      (AllocateVpSurface_MOS_SURFACE env s osSurf colorSpace chromaSiting rcSrc rcDst SurfType
        updatePlaneOffset).1 = some v → v.osSurface ≠ none) ∧
    (∀ (s : VpAllocator) (v : VP_SURFACE),
      (AllocateVpSurface_empty env s).1 = some v → v.osSurface ≠ none) ∧
    (∀ dst src : VP_SURFACE, (CopyVpSurface dst src).1 = MOS_STATUS_SUCCESS →
      dst.osSurface ≠ none ∧ (CopyVpSurface dst src).2.osSurface ≠ none ∧
      (CopyVpSurface dst src).2.osSurface = src.osSurface) ∧
    (∀ v : VP_SURFACE, ObtainedFromAllocator env v →
      v.osSurface ≠ none ∧
      (∀ (s : VpAllocator) (deferredDestroyed : Bool) (flags : MOS_GFXRES_FREE_FLAGS),
        (DestroyVpSurface env s (some v) deferredDestroyed flags).surface = none) ∧
      (∀ (s : VpAllocator) (a : ReAllocateSurfaceArgs), s.m_allocator ≠ 0 →
        ReAllocateSurface.unchanged a (ReAllocateSurface.mmcAdjusted env a).1
          (ReAllocateSurface.mmcAdjusted env a).2 (some v) = false →
        ∃ rest, (ReAllocateSurface env s (some v) a).allocator =
            { (DestroyVpSurface env s (some v) a.deferredDestroyed
                (syncFreeFlags env (some v))).allocator with
              calls := (DestroyVpSurface env s (some v) a.deferredDestroyed
                (syncFreeFlags env (some v))).allocator.calls ++ rest } ∧
          ∀ c ∈ rest, isAllocationStep c = true)) := by
  refine ⟨AllocateVpSurface_osSurface env, AllocateVpSurface_VPHAL_SURFACE_osSurface env,
    AllocateVpSurface_VP_SURFACE_osSurface env, AllocateVpSurface_MOS_SURFACE_osSurface env,
    AllocateVpSurface_empty_osSurface env, ?_, ?_⟩
  · intro dst src h
    obtain ⟨hd, _, srcOs, hs, heq⟩ := CopyVpSurface_success dst src h
    rw [heq]
    exact ⟨hd, by simp, hs.symm⟩
  · intro v hv
    have hne := ObtainedFromAllocator_osSurface_ne_none env v hv
    cases hos : v.osSurface with
    | none => exact absurd hos hne
    | some os =>
      refine ⟨by simp, ?_, ?_⟩
      · intro s d flags
        exact DestroyVpSurface_surface env s v os d flags hos
      · intro s a halloc hdiff
        exact ReAllocateSurface_replace_frame env s v os a halloc hos hdiff

/-- Instances of C26: the empty surface and the surface allocated for an NV12
request have a descriptor, and a deferred destroy of the latter nulls the
handle. -/
theorem AllocateVpSurface_osSurface_non_null_witness :
    ((AllocateVpSurface_empty Examples.vpEnv Examples.vpAllocator).1.getD
      VP_SURFACE.zero).osSurface ≠ none ∧
    (DestroyVpSurface Examples.vpEnv Examples.vpAllocator
      (some ((AllocateVpSurface Examples.vpEnv Examples.vpAllocator
        (ReAllocateSurface.allocParams (Examples.nv12Args 1920 false) false MOS_MMC_DISABLED none)
        false 0 0).1.getD VP_SURFACE.zero))
      true { SynchronousDestroy := false }).surface = none :=
  have h := AllocateVpSurface_osSurface_non_null Examples.vpEnv
  ⟨h.2.2.2.2.1 Examples.vpAllocator _ (by decide),
   ((h.2.2.2.2.2.2 _
      (ObtainedFromAllocator.ofParams Examples.vpAllocator
        (ReAllocateSurface.allocParams (Examples.nv12Args 1920 false) false MOS_MMC_DISABLED none)
        false 0 0 _ (by decide))).2.1
      Examples.vpAllocator true { SynchronousDestroy := false })⟩

end VpAllocator

namespace VpAllocator

open MOS_FORMAT MOS_TILE_TYPE MOS_MEMCOMP_STATE MOS_STATUS

theorem copyRow_iterate_frame (src dst : Buffer) (n srcStep dstStep : Nat) :
    ∀ k : Nat,
      (Nat.iterate (copyRow src n srcStep dstStep) k
        { tempSrc := 0, tempDst := 0, written := dst }).tempDst = k * dstStep ∧
      ∀ i, (∀ row < k, ¬ (row * dstStep ≤ i ∧ i < row * dstStep + n)) →
        (Nat.iterate (copyRow src n srcStep dstStep) k
          { tempSrc := 0, tempDst := 0, written := dst }).written i = dst i := by
  intro k
  induction k with
  | zero => exact ⟨by simp, fun i _ => rfl⟩
  | succ k ih =>
    obtain ⟨h1, h2⟩ := ih
    rw [Function.iterate_succ_apply']
    refine ⟨?_, ?_⟩
    · simp only [copyRow, h1]
      ring
    · intro i hi
      simp only [copyRow, MOS_SecureMemcpy_apply, h1]
      rw [if_neg (hi k (Nat.lt_succ_self k))]
      exact h2 i (fun row hrow => hi row (Nat.lt_succ_of_lt hrow))

theorem copyRows_frame (src dst : Buffer) (dwDepth dwHeight n srcStep dstStep : Nat) (i : Nat)
    (hi : ∀ row < dwDepth * dwHeight, ¬ (row * dstStep ≤ i ∧ i < row * dstStep + n)) :
    copyRows src dst dwDepth dwHeight n srcStep dstStep i = dst i := by
  have hflat : Nat.iterate (Nat.iterate (copyRow src n srcStep dstStep) dwHeight) dwDepth
      = Nat.iterate (copyRow src n srcStep dstStep) (dwHeight * dwDepth) :=
    (Function.iterate_mul _ dwHeight dwDepth).symm
  rw [copyRows, hflat]
  exact (copyRow_iterate_frame src dst n srcStep dstStep (dwHeight * dwDepth)).2 i
    (fun row hrow => hi row (by rw [Nat.mul_comm]; exact hrow))

theorem row_index_lt (dwDepth dwHeight z y : Nat) (hz : z < dwDepth) (hy : y < dwHeight) :
    z * dwHeight + y < dwDepth * dwHeight := by
  calc z * dwHeight + y < z * dwHeight + dwHeight := Nat.add_lt_add_left hy _
    _ = (z + 1) * dwHeight := by ring
    _ ≤ dwDepth * dwHeight := Nat.mul_le_mul_right _ hz

theorem row_index_split (dwDepth dwHeight row : Nat) (hrow : row < dwDepth * dwHeight) :
    row / dwHeight < dwDepth ∧ row % dwHeight < dwHeight ∧
    row = row / dwHeight * dwHeight + row % dwHeight := by
  have hpos : 0 < dwHeight := by
    rcases Nat.eq_zero_or_pos dwHeight with h0 | h0
    · rw [h0, Nat.mul_zero] at hrow
      exact absurd hrow (Nat.not_lt_zero _)
    · exact h0
  exact ⟨Nat.div_lt_of_lt_mul (by rw [Nat.mul_comm]; exact hrow), Nat.mod_lt _ hpos,
    (Nat.div_add_mod' row dwHeight).symm⟩

/-- C29: in the row-by-row path of `WriteSurface` (pitch greater than
`widthInBytes`), with the allocator present and the lock succeeding, each row
`y` of each slice `z` receives `widthInBytes` bytes at offset
`(z * dwHeight + y) * dwPitch`, taken from the source at offset
`(z * dwHeight + y) * widthInBytes`; every byte of the locked memory outside
these ranges keeps its value, in particular the padding bytes
`widthInBytes ≤ j < dwPitch` of every row. -/
theorem WriteSurface_row_path (env : VpCollaborators) (s : VpAllocator)
    (surface : VPHAL_SURFACE) (bpp : Nat) (src mem : Buffer)
    (hs : s.m_allocator ≠ 0)
    (hlock : env.Lock s.calls surface.OsResource
      { ReadOnly := false, WriteOnly := true, NoOverWrite := false } ≠ 0)
    (hpitch : widthInBytes surface bpp < surface.dwPitch) :
    (∀ z < surface.dwDepth, ∀ y < surface.dwHeight, ∀ j < widthInBytes surface bpp,
      (WriteSurface env s surface bpp src mem).2.2
          ((z * surface.dwHeight + y) * surface.dwPitch + j)
        = src ((z * surface.dwHeight + y) * widthInBytes surface bpp + j)) ∧
    (∀ i, (∀ z < surface.dwDepth, ∀ y < surface.dwHeight,
        ¬ ((z * surface.dwHeight + y) * surface.dwPitch ≤ i ∧
          i < (z * surface.dwHeight + y) * surface.dwPitch + widthInBytes surface bpp)) →
      (WriteSurface env s surface bpp src mem).2.2 i = mem i) ∧
    (∀ z < surface.dwDepth, ∀ y < surface.dwHeight, ∀ j, widthInBytes surface bpp ≤ j →
      j < surface.dwPitch →
      (WriteSurface env s surface bpp src mem).2.2
          ((z * surface.dwHeight + y) * surface.dwPitch + j)
        = mem ((z * surface.dwHeight + y) * surface.dwPitch + j)) := by
  obtain ⟨hmem, _⟩ := WriteSurface_memory env s surface bpp src mem hs hlock
  have hne : ¬ surface.dwPitch = widthInBytes surface bpp := by omega
  rw [hmem, if_neg hne]
  have hframe : ∀ i, (∀ z < surface.dwDepth, ∀ y < surface.dwHeight,
        ¬ ((z * surface.dwHeight + y) * surface.dwPitch ≤ i ∧
          i < (z * surface.dwHeight + y) * surface.dwPitch + widthInBytes surface bpp)) →
      copyRows src mem surface.dwDepth surface.dwHeight (widthInBytes surface bpp)
        (widthInBytes surface bpp) surface.dwPitch i = mem i := by
    intro i hi
    apply copyRows_frame
    intro row hrow
    obtain ⟨hz, hy, heq⟩ := row_index_split surface.dwDepth surface.dwHeight row hrow
    rw [heq]
    exact hi _ hz _ hy
  refine ⟨?_, hframe, ?_⟩
  · intro z hz y hy j hj
    exact copyRows_apply src mem surface.dwDepth surface.dwHeight (widthInBytes surface bpp)
      (widthInBytes surface bpp) surface.dwPitch (le_of_lt hpitch) _ j
      (row_index_lt _ _ z y hz hy) hj
  · intro z hz y hy j hj1 hj2
    apply hframe
    intro z1 hz1 y1 hy1 hin
    rcases Nat.lt_trichotomy (z1 * surface.dwHeight + y1) (z * surface.dwHeight + y) with
      h | h | h
    · have hb : (z1 * surface.dwHeight + y1 + 1) * surface.dwPitch
          ≤ (z * surface.dwHeight + y) * surface.dwPitch := Nat.mul_le_mul_right _ h
      rw [Nat.add_mul, Nat.one_mul] at hb
      omega
    · rw [h] at hin
      omega
    · have hb : (z * surface.dwHeight + y + 1) * surface.dwPitch
          ≤ (z1 * surface.dwHeight + y1) * surface.dwPitch := Nat.mul_le_mul_right _ h
      rw [Nat.add_mul, Nat.one_mul] at hb
      omega

/-- Instance of C29: a 2 by 2 surface of 8 bits per pixel with pitch 4; the
second row is written at offset 4 and the padding byte at offset 6 is kept. -/
theorem WriteSurface_row_path_witness :
    (WriteSurface Examples.vpEnv Examples.vpAllocator Examples.paddedSurface 8
      (fun i => i + 7) (fun _ => 0)).2.2 ((0 * 2 + 1) * 4 + 1) = (0 * 2 + 1) * 2 + 1 + 7 ∧
    (WriteSurface Examples.vpEnv Examples.vpAllocator Examples.paddedSurface 8
      (fun i => i + 7) (fun _ => 0)).2.2 ((0 * 2 + 1) * 4 + 2) = 0 :=
  have h := WriteSurface_row_path Examples.vpEnv Examples.vpAllocator Examples.paddedSurface 8
    (fun i => i + 7) (fun _ => 0) (by decide) (by decide) (by decide)
  ⟨h.1 0 (by decide) 1 (by decide) 1 (by decide),
   h.2.2 0 (by decide) 1 (by decide) 2 (by decide) (by decide)⟩

/-- C27 fails on the code: the surface of 2 by 2 pixels of 32 bits with pitch 4
meets every asserted precondition (width, height, depth and bits per pixel
positive, pitch not below the width in pixels), but a row has
`widthInBytes = 8` bytes, so the rows `WriteSurface` writes at offsets 0 and 4
overlap in the bytes 4 to 7, and `ReadSurface` after `WriteSurface` returns
bytes that differ from those of the source (byte 4 holds source byte 8). -/
theorem WriteSurface_rows_overlap :
    0 < Examples.paddedSurface.dwWidth ∧ 0 < Examples.paddedSurface.dwHeight ∧
    0 < Examples.paddedSurface.dwDepth ∧
    Examples.paddedSurface.dwWidth ≤ Examples.paddedSurface.dwPitch ∧
    widthInBytes Examples.paddedSurface 32 = 8 ∧
    Examples.paddedSurface.dwPitch ≠ widthInBytes Examples.paddedSurface 32 ∧
    (0 * Examples.paddedSurface.dwPitch ≤ 4 ∧
      4 < 0 * Examples.paddedSurface.dwPitch + widthInBytes Examples.paddedSurface 32) ∧
    (1 * Examples.paddedSurface.dwPitch ≤ 4 ∧
      4 < 1 * Examples.paddedSurface.dwPitch + widthInBytes Examples.paddedSurface 32) ∧
    (WriteSurface Examples.vpEnv Examples.vpAllocator Examples.paddedSurface 32
      (fun i => i + 7) (fun _ => 0)).1 = MOS_STATUS_SUCCESS ∧
    (ReadSurface Examples.vpEnv
      (WriteSurface Examples.vpEnv Examples.vpAllocator Examples.paddedSurface 32
        (fun i => i + 7) (fun _ => 0)).2.1 Examples.paddedSurface 32 (fun _ => 1)
      (WriteSurface Examples.vpEnv Examples.vpAllocator Examples.paddedSurface 32
        (fun i => i + 7) (fun _ => 0)).2.2).1 = MOS_STATUS_SUCCESS ∧
    (ReadSurface Examples.vpEnv
      (WriteSurface Examples.vpEnv Examples.vpAllocator Examples.paddedSurface 32
        (fun i => i + 7) (fun _ => 0)).2.1 Examples.paddedSurface 32 (fun _ => 1)
      (WriteSurface Examples.vpEnv Examples.vpAllocator Examples.paddedSurface 32
        (fun i => i + 7) (fun _ => 0)).2.2).2.2 4 = 8 + 7 ∧
    (fun i : Nat => i + 7) 4 = 4 + 7 := by
  decide

end VpAllocator

namespace VpAllocator

open MOS_FORMAT MOS_TILE_TYPE MOS_MEMCOMP_STATE MOS_STATUS

theorem CleanRecycler_dereferencesNull_of_allocator (env : VpCollaborators) :
    ∀ (fuel : Nat) (s : VpAllocator), s.m_allocator ≠ 0 →
      CleanRecycler.dereferencesNull env fuel s = false := by
  intro fuel
  induction fuel with
  | zero =>
    intro s _
    rw [CleanRecycler.dereferencesNull]
    cases s.m_recycler.getLast? <;> rfl
  | succ n ih =>
    intro s hs
    rw [CleanRecycler.dereferencesNull]
    cases hlast : s.m_recycler.getLast? with
    | none => rfl
    | some surf =>
      have hnext : (DestroyVpSurface env { s with m_recycler := s.m_recycler.dropLast } surf false
          (syncFreeFlags env surf)).allocator.m_allocator ≠ 0 := by
        rw [DestroyVpSurface_frame]
        exact hs
      simp only [ih _ hnext, Bool.or_false]
      cases surf with
      | none => rfl
      | some v => simp [IsSyncFreeNeededForMMCSurface.dereferencesNull, hs]

/-- On an allocator that has its underlying `Allocator` (`m_allocator`
non-null) no call of `CleanRecycler` dereferences a null pointer, and for every
recycle list `CleanRecycler` terminates (given at least as much fuel as the list
has entries it returns), and what it returns is the result of destroying the
entries one after the other, last entry first, each exactly once, by an
immediate (non-deferred) `DestroyVpSurface` whose `SynchronousDestroy` flag is
set exactly when the entry is non-null and `IsSyncFreeNeededForMMCSurface`
holds for it; nothing is appended again and the recycle list is left empty. -/
theorem CleanRecycler_destroys_all (env : VpCollaborators) (s : VpAllocator) (fuel : Nat)
    (hs : s.m_allocator ≠ 0) (hfuel : s.m_recycler.length ≤ fuel) :
    CleanRecycler.dereferencesNull env fuel s = false ∧
    CleanRecycler env fuel s
      = some (s.m_recycler.reverse.foldl
          (fun st surf => (DestroyVpSurface env st surf false
            { SynchronousDestroy :=
                match surf with
                | none => false
                | some v => IsSyncFreeNeededForMMCSurface env v.osSurface }).allocator)
          { s with m_recycler := [] }) ∧
    (∀ s1, CleanRecycler env fuel s = some s1 → s1.m_recycler = []) := by
  have hfun : (fun (st : VpAllocator) (surf : Option VP_SURFACE) =>
      (DestroyVpSurface env st surf false
        { SynchronousDestroy :=
            match surf with
            | none => false
            | some v => IsSyncFreeNeededForMMCSurface env v.osSurface }).allocator)
      = destroyEntry env := by
    funext st surf
    cases surf with
    | none => rfl
    | some v =>
      simp only [destroyEntry, syncFreeFlags]
      split_ifs with h
      · rw [h]
      · rw [Bool.not_eq_true] at h
        rw [h]
  rw [hfun]
  have h := CleanRecycler_eq env fuel s hfuel
  refine ⟨CleanRecycler_dereferencesNull_of_allocator env fuel s hs, h, ?_⟩
  intro s1 h1
  rw [h] at h1
  cases h1
  exact destroyAll_m_recycler env _ _

/-- A recycle list holding a view and an owner surface, on an allocator that
has its underlying `Allocator`. -/
theorem CleanRecycler_destroys_all_witness :
    CleanRecycler Examples.vpEnv 2
        { Examples.vpAllocator with
          m_recycler := [some Examples.viewSurface, some Examples.compressedSurface] }
      = some { Examples.vpAllocator with
          calls := [VpCall.allocatorDestroySurface Examples.compressedOsSurface
                      { SynchronousDestroy := true },
                    VpCall.deleteVpSurface Examples.compressedSurface,
                    VpCall.deleteMosSurface Examples.nv12OsSurface,
                    VpCall.deleteVpSurface Examples.viewSurface] } :=
  ((CleanRecycler_destroys_all Examples.vpEnv
      { Examples.vpAllocator with
        m_recycler := [some Examples.viewSurface, some Examples.compressedSurface] }
      2 (by decide) (by decide)).2.1).trans (by decide)

/-- C17 fails on the code: on the allocator that has no underlying `Allocator`
(`m_allocator` is null), `AllocateVpSurface()` returns an empty surface with a
descriptor and a deferred `DestroyVpSurface` puts it on the recycle list; the
first iteration of `CleanRecycler` then calls `IsSyncFreeNeededForMMCSurface`
on that descriptor, which dereferences the null `m_allocator` (line 1156): the
run does not terminate normally and the entry is not destroyed. -/
theorem CleanRecycler_dereferences_null_allocator :
    Examples.vpAllocatorWithoutAllocator.m_allocator = 0 ∧
    (AllocateVpSurface_empty Examples.vpEnv Examples.vpAllocatorWithoutAllocator).1
      = some Examples.emptySurface ∧
    Examples.emptySurface.osSurface ≠ none ∧
    Examples.vpAllocatorWithoutAllocatorQueued.m_recycler = [some Examples.emptySurface] ∧
    Examples.vpAllocatorWithoutAllocatorQueued.m_allocator = 0 ∧
    IsSyncFreeNeededForMMCSurface.dereferencesNull
      { Examples.vpAllocatorWithoutAllocatorQueued with m_recycler := [] }
      Examples.emptySurface.osSurface = true ∧
    CleanRecycler.dereferencesNull Examples.vpEnv 1 Examples.vpAllocatorWithoutAllocatorQueued
      = true := by
  decide

end VpAllocator

end MediaDriver
